import Mathlib

/-!
# Interface-change detection and SMR aggregation of the LISP node

A shallow embedding of

* `src/lispd/control/lisp_control.c` : `ctrl_get_mappings_to_smr`, `ctrl_send_msg`,
  `ctrl_init`, `set_default_rlocs`, `ctrl_if_addr_update`, `ctrl_if_status_update`,
  `ctrl_default_rloc`
* `src/oor/iface_mgmt.c` : `process_netlink_msg`, `process_nl_add_address`,
  `process_nl_del_address`, `process_address_change`, `process_nl_new_link`,
  `process_nl_new_route`, `process_nl_del_route`, `process_nl_new_unicast_route`,
  `process_nl_del_unicast_route`, `process_nl_new_multicast_route`,
  `process_nl_del_multicast_route`, `process_nl_mcast_route_attributes`,
  `get_network_pref_of_host`, `iface_get_getway`

Pointers are natural numbers: a `mapping_t *` is the address of the mapping,
an `iface_t *` is the position of the interface in the interface list.
C `int` values are integers.
-/

namespace OOR

/-! ## Data model -/

/-- The address families and the LISP address kinds the sources compare against
(`AF_UNSPEC`, `AF_INET`, `AF_INET6` of the socket API; `LM_AFI_NO_ADDR`,
`LM_AFI_IP` of the address library). -/
def AF_UNSPEC : Int := 0

def AF_INET : Int := 2

def AF_INET6 : Int := 10

def LM_AFI_NO_ADDR : Int := 0

def LM_AFI_IP : Int := 1

/-- Link status values of `defs.h`. -/
def DOWN : Nat := 0

def UP : Nat := 1

/-- A `lisp_addr_t` holding an IP address or prefix: the LISP address kind,
the IP family, the address bytes read as a number and the prefix length. -/
structure lisp_addr_t where
  lafi : Int
  afi : Int
  addr : Nat
  plen : Nat
deriving DecidableEq, Repr

/-- One node of an interface's `iface_mappings_list`. -/
structure iface_mappings_list where
  mapping : Nat
  use_ipv4_address : Bool
  use_ipv6_address : Bool
deriving DecidableEq, Repr

/-- The fields of `iface_t` the two source files read or write. The address
fields are `none` when the interface is not configured for the family. -/
structure iface_t where
  iface_name : String
  iface_index : Int
  status : Nat
  ipv4_address : Option lisp_addr_t
  ipv6_address : Option lisp_addr_t
  status_changed : Bool
  ipv4_changed : Bool
  ipv6_changed : Bool
  head_mappings_list : List iface_mappings_list
deriving DecidableEq, Repr

/-! ## `ctrl_get_mappings_to_smr` (lisp_control.c, lines 182-226) -/

/-- The caller's output array `mappings_to_smr` seen as memory (slot number to
stored pointer), the local counter `mappings_ctr`, and a log of the stores
`mappings_to_smr[mappings_ctr] = m` in the order they are executed. -/
structure smr_state where
  mappings_to_smr : Int → Nat
  mappings_ctr : Int
  stores : List Nat

/-- The loop `for (ctr = 0; ctr < mappings_ctr; ctr++) if (mappings_to_smr[ctr] == m) break;`
started at `ctr` with `n` iterations left; the value is `ctr` after the loop. -/
def smr_search (arr : Int → Nat) (m : Nat) (ctr : Int) : Nat → Int
  | 0 => ctr
  | n + 1 => if arr ctr = m then ctr else smr_search arr m (ctr + 1) n

/-- The test of lines 199-203 on one mapping-list node. -/
def smr_node_selected (iface : iface_t) (e : iface_mappings_list) : Bool :=
  iface.status_changed
    || (iface.ipv4_changed && e.use_ipv4_address)
    || (iface.ipv6_changed && e.use_ipv6_address)

/-- The body of the inner `while (mlist != NULL)` loop for one node
(lines 199-214). -/
def smr_visit_node (iface : iface_t) (s : smr_state) (e : iface_mappings_list) : smr_state :=
  if smr_node_selected iface e then
    let m := e.mapping
    let ctr := smr_search s.mappings_to_smr m 0 s.mappings_ctr.toNat
    if s.mappings_to_smr ctr ≠ m then
      { mappings_to_smr := Function.update s.mappings_to_smr s.mappings_ctr m
        mappings_ctr := s.mappings_ctr + 1
        stores := s.stores ++ [m] }
    else s
  else s

/-- The test of lines 194-196 on an interface. -/
def smr_iface_changed (iface : iface_t) : Bool :=
  iface.status_changed || iface.ipv4_changed || iface.ipv6_changed

/-- Lines 194-217 for one interface: the walk over its mapping list. -/
def smr_visit_iface (s : smr_state) (iface : iface_t) : smr_state :=
  if smr_iface_changed iface then
    iface.head_mappings_list.foldl (smr_visit_node iface) s
  else s

/-- Lines 219-221: the three flags are reset. -/
def smr_clear_flags (iface : iface_t) : iface_t :=
  { iface with status_changed := false, ipv4_changed := false, ipv6_changed := false }

/-- The outer `while (iface_list)` loop. -/
def smr_loop : List iface_t → smr_state → List iface_t × smr_state
  | [], s => ([], s)
  | iface :: rest, s =>
    let r := smr_loop rest (smr_visit_iface s iface)
    (smr_clear_flags iface :: r.1, r.2)

/-- The function `ctrl_get_mappings_to_smr` on the interface list
`get_head_interface_list()`. The local `mappings_ctr` is declared without an
initialiser (line 189), so the value it holds on entry is an argument here.
The result is the interface list after the call and the final array, counter
(`*mcount`) and store log; the return value is always `GOOD`. -/
def ctrl_get_mappings_to_smr (ifaces : List iface_t) (mappings_to_smr : Int → Nat)
    (mappings_ctr : Int) : List iface_t × smr_state :=
  smr_loop ifaces
    { mappings_to_smr := mappings_to_smr, mappings_ctr := mappings_ctr, stores := [] }

/-- The collected mappings as the caller reads them: slots `0 .. *mcount - 1`. -/
def smr_result (s : smr_state) : List Nat :=
  (List.range s.mappings_ctr.toNat).map (fun (k : Nat) => s.mappings_to_smr (k : Int))

/-- Keeps the first occurrence of every element, in order. -/
def first_seen : List Nat → List Nat → List Nat
  | acc, [] => acc
  | acc, m :: rest => if m ∈ acc then first_seen acc rest else first_seen (acc ++ [m]) rest

/-- What the claim reads: every mapping on the list of an interface with a set
flag, in scan order. -/
def smr_all_mappings (ifaces : List iface_t) : List Nat :=
  ifaces.flatMap (fun i =>
    if smr_iface_changed i then i.head_mappings_list.map (fun e => e.mapping) else [])

/-- What the code selects: the nodes that pass the test of lines 199-203. -/
def smr_selected_mappings (ifaces : List iface_t) : List Nat :=
  ifaces.flatMap (fun i =>
    if smr_iface_changed i then
      (i.head_mappings_list.filter (smr_node_selected i)).map (fun e => e.mapping)
    else [])

/-! ## Netlink handlers (iface_mgmt.c) -/

/-- Values of `linux/rtnetlink.h` and `linux/if.h` the handlers compare against. -/
def RTM_NEWROUTE : Nat := 24

def RTM_DELROUTE : Nat := 25

def RT_TABLE_MAIN : Nat := 254

def RTA_DST : Nat := 1

def RTA_SRC : Nat := 2

def RTA_OIF : Nat := 4

def RTA_GATEWAY : Nat := 5

def IFF_RUNNING : Nat := 64

/-- One routing attribute (`struct rtattr` with its payload read as a number). -/
structure rtattr where
  rta_type : Nat
  rta_data : Nat
deriving DecidableEq, Repr

/-- The fields of `struct rtmsg` the handlers read. -/
structure rtmsg where
  rtm_family : Int
  rtm_dst_len : Nat
  rtm_src_len : Nat
  rtm_table : Nat
  rtm_type : Nat
deriving DecidableEq, Repr

/-- One message of a routing-table dump: its type, its route header and the
attributes `RTA_OK` accepts, in order. -/
structure nl_route_msg where
  nlmsg_type : Nat
  rtm : rtmsg
  attrs : List rtattr
deriving DecidableEq, Repr

/-- The fields of `struct ifinfomsg` read by `process_nl_new_link`. -/
structure ifinfomsg where
  ifi_index : Int
  ifi_flags : Nat
deriving DecidableEq, Repr

/-- The debug levels of the `OOR_LOG` statements. -/
inductive log_level where
  | LCRIT | LERR | LWRN | LINF | LDBG_1 | LDBG_2 | LDBG_3
deriving DecidableEq, Repr

/-- A call of a data-plane or control-plane notifier, or of a multicast hook,
with its arguments (the interface argument is the `iface_t *`). -/
inductive Event where
  | datap_updated_addr (iface : Nat) (old_addr new_addr : lisp_addr_t)
  | ctrl_if_addr_update (iface : Nat) (old_addr new_addr : lisp_addr_t)
  | datap_update_link (iface : Nat) (old_iface_index new_iface_index : Int) (status : Nat)
  | ctrl_if_link_update (iface : Nat) (old_iface_index new_iface_index : Int) (status : Nat)
  | datap_updated_route (command : Nat) (iface : Nat) (src dst gw : lisp_addr_t)
  | ctrl_route_update (command : Nat) (iface : Nat) (src dst gw : lisp_addr_t)
  | multicast_join_channel (src grp : lisp_addr_t)
  | multicast_leave_channel (src grp : lisp_addr_t)
deriving DecidableEq, Repr

/-- A handler stops here: a field is read through a NULL `iface_t *`, through
an `iface_t *` that points to no interface of the list, or through a NULL
`lisp_addr_t *`. -/
inductive Fault where
  | null_iface_read
  | wild_iface_read
  | null_addr_read
deriving DecidableEq, Repr

/-- What the handlers use and these sources do not define: the configured
family restriction, the kernel (`if_indextoname`, the routing-table dump,
the live address selection), the address library (`ip_addr_is_link_local`,
`pref_is_addr_part_of_prefix`, called with a NULL prefix when no prefix was
found), `iface_gateway`, whether `OOR_LOG` evaluates its arguments at a
level, and what a notifier does to the interface list when it is called. -/
structure Env where
  default_rloc_afi : Int
  if_indextoname : Int → Option String
  route_dump : Int → Option (List nl_route_msg)
  iface_find_address : iface_t → Int → lisp_addr_t
  ip_addr_is_link_local : lisp_addr_t → Bool
  pref_is_addr_part_of_prefix : lisp_addr_t → Option lisp_addr_t → Bool
  iface_gateway : iface_t → Int → Option lisp_addr_t
  is_loggable : log_level → Bool
  collab : Event → List iface_t → List iface_t

/-- The interface list and the notifier calls made so far, oldest first. -/
structure State where
  ifaces : List iface_t
  trace : List Event
deriving DecidableEq, Repr

/-- A notifier is called: the call is recorded and the notifier acts on the
interface list. -/
def notify (env : Env) (s : State) (e : Event) : State :=
  { ifaces := env.collab e s.ifaces, trace := s.trace ++ [e] }

/-- The notifier calls a handler made when started in `s`. A handler that
stopped on a fault made none that returned. -/
def emitted (s : State) : Except Fault State → List Event
  | .ok t => t.trace.drop s.trace.length
  | .error _ => []

/-- Modelled from the spec: `get_interface_from_index` (iface_list.c, not in
these sources), "looked up by index": the first interface of the list with
that kernel index. -/
def get_interface_from_index : List iface_t → Int → Option Nat
  | [], _ => none
  | i :: rest, idx =>
    if i.iface_index = idx then some 0
    else (get_interface_from_index rest idx).map (fun p => p + 1)

/-- Modelled from the spec: `get_interface` (iface_list.c, not in these
sources), "looked up by name": the first interface of the list with that name. -/
def get_interface : List iface_t → String → Option Nat
  | [], _ => none
  | i :: rest, name =>
    if i.iface_name = name then some 0
    else (get_interface rest name).map (fun p => p + 1)

/-- Modelled from the spec: `iface_address` (iface_list.c, not in these
sources), the "per-family currently-selected Address", NULL when the
interface is not configured for the family. -/
def iface_address (iface : iface_t) (afi : Int) : Option lisp_addr_t :=
  if afi = AF_INET then iface.ipv4_address
  else if afi = AF_INET6 then iface.ipv6_address
  else none

/-- Modelled from the spec: `lisp_addr_ip_afi` (address library, not in these
sources): the IP family of an address. -/
def lisp_addr_ip_afi (a : lisp_addr_t) : Int := a.afi

/-- Modelled from the spec: `lisp_addr_ip_init` (address library, not in these
sources): the address becomes the IP address of family `afi` with the bytes
`data`. -/
def lisp_addr_ip_init (a : lisp_addr_t) (data : Nat) (afi : Int) : lisp_addr_t :=
  { a with lafi := LM_AFI_IP, afi := afi, addr := data }

/-- Modelled from the spec: `lisp_addr_set_plen` (address library, not in these
sources): the carried prefix length is set. -/
def lisp_addr_set_plen (a : lisp_addr_t) (plen : Nat) : lisp_addr_t :=
  { a with plen := plen }

/-- Modelled from the spec: `lisp_addr_cmp` (address library, not in these
sources), the equality test on addresses: 0 exactly for equal addresses. -/
def lisp_addr_cmp (a b : lisp_addr_t) : Int := if a = b then 0 else 1

/-- The initialiser `{ .lafi = LM_AFI_IP }` of the local addresses. -/
def lisp_addr_local_init : lisp_addr_t := { lafi := LM_AFI_IP, afi := 0, addr := 0, plen := 0 }

/-- The read `*(int *)RTA_DATA(rt_attr)`: the first four payload bytes as a signed
32-bit integer. -/
def rta_int (a : rtattr) : Int :=
  if a.rta_data % 2 ^ 32 < 2 ^ 31 then ((a.rta_data % 2 ^ 32 : Nat) : Int)
  else ((a.rta_data % 2 ^ 32 : Nat) : Int) - 2 ^ 32

/-- The attribute loop of `get_network_pref_of_host` on one dump message
(lines 903-919) for the request family `afi`: the prefix found, if any. -/
def net_pref_attrs (env : Env) (address : lisp_addr_t) (afi : Int) (recv_rtm : rtmsg)
    ( net_prefix : lisp_addr_t) : List rtattr → lisp_addr_t × Bool
  | [] => ( net_prefix, false)
  | a :: rest =>
    if a.rta_type = RTA_DST then
      if (afi = AF_INET ∧ recv_rtm.rtm_dst_len = 32)
          ∨ (afi = AF_INET6 ∧ recv_rtm.rtm_dst_len = 128) then
        net_pref_attrs env address afi recv_rtm net_prefix rest
      else
        let p := lisp_addr_set_plen (lisp_addr_ip_init net_prefix a.rta_data afi)
          recv_rtm.rtm_dst_len
        if Env.pref_is_addr_part_of_prefix env address (some p) = true then (p, true)
        else net_pref_attrs env address afi recv_rtm p rest
    else net_pref_attrs env address afi recv_rtm net_prefix rest

/-- The message loop of `get_network_pref_of_host` (lines 893-922) over the
messages of the dump in the order received. -/
def net_pref_msgs (env : Env) (address : lisp_addr_t) (afi : Int)
    ( net_prefix : lisp_addr_t) : List nl_route_msg → Option lisp_addr_t
  | [] => none
  | msg :: rest =>
    if msg.nlmsg_type = RTM_NEWROUTE then
      match net_pref_attrs env address afi msg.rtm net_prefix msg.attrs with
      | (p, true) => some p
      | (p, false) => net_pref_msgs env address afi p rest
    else net_pref_msgs env address afi net_prefix rest

/-- The function `get_network_pref_of_host` (lines 831-933). `route_dump afi`
is the kernel's answer to the dump request of family `afi`, `none` when the
socket cannot be opened or the request cannot be sent. -/
def get_network_pref_of_host (env : Env) (address : lisp_addr_t) : Option lisp_addr_t :=
  let afi := if lisp_addr_ip_afi address = AF_INET then AF_INET else AF_INET6
  match env.route_dump afi with
  | none => none
  | some msgs => net_pref_msgs env address afi lisp_addr_local_init msgs

/-- The function `process_address_change` (lines 168-242). -/
def process_address_change (env : Env) (s : State) (iface : Nat) (new_addr : lisp_addr_t) :
    Except Fault State :=
  match s.ifaces[iface]? with
  | none => .error .wild_iface_read
  | some ifc =>
    let new_addr_ip_afi := lisp_addr_ip_afi new_addr
    match iface_address ifc new_addr_ip_afi with
    | none => .ok s
    | some iface_addr =>
      if env.ip_addr_is_link_local new_addr = true then .ok s
      else if env.default_rloc_afi ≠ AF_UNSPEC ∧ env.default_rloc_afi ≠ new_addr_ip_afi then
        .ok s
      else
        match env.iface_gateway ifc new_addr_ip_afi with
        | none => .ok s
        | some gw_addr =>
          let net_addr := get_network_pref_of_host env gw_addr
          if Env.pref_is_addr_part_of_prefix env new_addr net_addr = false then .ok s
          else
            let s1 := notify env s (.datap_updated_addr iface iface_addr new_addr)
            .ok (notify env s1 (.ctrl_if_addr_update iface iface_addr new_addr))

/-- The status a link message carries (lines 318-326). -/
def link_new_status (ifi : ifinfomsg) : Nat :=
  if ifi.ifi_flags &&& IFF_RUNNING ≠ 0 then UP else DOWN

/-- The interface lookup of `process_nl_new_link` (lines 296-315): the
interface found and, when it was found by its index, that index; an interface
found by its name has `old_iface_index` read from the interface. -/
def link_lookup (env : Env) (ifaces : List iface_t) (iface_index : Int) :
    Option (Nat × Option Int) :=
  match get_interface_from_index ifaces iface_index with
  | some p => some (p, some iface_index)
  | none =>
    match env.if_indextoname iface_index with
    | none => none
    | some iface_name =>
      match get_interface ifaces iface_name with
      | none => none
      | some p => some (p, none)

/-- The function `process_nl_new_link` (lines 281-337). -/
def process_nl_new_link (env : Env) (s : State) (ifi : ifinfomsg) : Except Fault State :=
  let iface_index := ifi.ifi_index
  match link_lookup env s.ifaces iface_index with
  | none => .ok s
  | some (p, idx) =>
    match s.ifaces[p]? with
    | none => .error .wild_iface_read
    | some ifc =>
      let old_iface_index := idx.getD ifc.iface_index
      let new_status := link_new_status ifi
      if ifc.status = new_status then .ok s
      else
        let s1 := notify env s (.datap_update_link p old_iface_index iface_index new_status)
        .ok (notify env s1 (.ctrl_if_link_update p old_iface_index iface_index new_status))

/-- The locals of the unicast route handlers that the attribute loop sets. -/
structure route_vars where
  iface : Option Nat
  gateway : lisp_addr_t
  src : lisp_addr_t
  dst : lisp_addr_t
deriving DecidableEq, Repr

/-- The locals before the attribute loop: `iface = NULL` and the three
addresses initialised with `{ .lafi = LM_AFI_IP }`. -/
def route_vars_init : route_vars :=
  { iface := none, gateway := lisp_addr_local_init, src := lisp_addr_local_init,
    dst := lisp_addr_local_init }

/-- The attribute loop of `process_nl_new_unicast_route` (lines 388-416) and,
with the same text, of `process_nl_del_unicast_route` (lines 649-677).
`none` is the `return` taken when the output interface is not registered. -/
def route_attrs_loop (ifaces : List iface_t) (rtm : rtmsg) :
    List rtattr → route_vars → Option route_vars
  | [], v => some v
  | a :: rest, v =>
    if a.rta_type = RTA_OIF then
      match get_interface_from_index ifaces (rta_int a) with
      | none => none
      | some p => route_attrs_loop ifaces rtm rest { v with iface := some p }
    else if a.rta_type = RTA_GATEWAY then
      let gateway := lisp_addr_ip_init v.gateway a.rta_data rtm.rtm_family
      route_attrs_loop ifaces rtm rest { v with gateway := gateway }
    else if a.rta_type = RTA_SRC then
      let src := lisp_addr_ip_init v.src a.rta_data rtm.rtm_family
      route_attrs_loop ifaces rtm rest { v with src := lisp_addr_set_plen src rtm.rtm_src_len }
    else if a.rta_type = RTA_DST then
      let dst := lisp_addr_ip_init v.dst a.rta_data rtm.rtm_family
      route_attrs_loop ifaces rtm rest { v with dst := lisp_addr_set_plen dst rtm.rtm_dst_len }
    else route_attrs_loop ifaces rtm rest v

/-- The condition of the three "Check default afi" tests (lines 420-422,
430-432, 440-442) on one address. -/
def default_afi_mismatch (env : Env) (a : lisp_addr_t) : Bool :=
  decide (lisp_addr_ip_afi a ≠ LM_AFI_NO_ADDR ∧ env.default_rloc_afi ≠ AF_UNSPEC
    ∧ env.default_rloc_afi ≠ lisp_addr_ip_afi a)

/-- An `OOR_LOG` statement whose arguments read `iface->iface_name`, followed
by `return`. -/
def log_iface_name_return (env : Env) (s : State) (level : log_level) (iface : Option Nat) :
    Except Fault State :=
  if env.is_loggable level = true then
    match iface with
    | none => .error .null_iface_read
    | some p =>
      match s.ifaces[p]? with
      | none => .error .wild_iface_read
      | some _ => .ok s
  else .ok s

/-- The function `process_nl_new_unicast_route` (lines 358-488). `iface` is
still NULL after the loop when the message has no output-interface attribute;
`iface_address` reads the interface, so the handler stops there on a NULL
`iface`. The interface address read at line 450 is the value used after the
route notifiers returned. -/
def process_nl_new_unicast_route (env : Env) (s : State) (rtm : rtmsg) (attrs : List rtattr) :
    Except Fault State :=
  if rtm.rtm_table ≠ RT_TABLE_MAIN then .ok s
  else if rtm.rtm_family ≠ AF_INET ∧ rtm.rtm_family ≠ AF_INET6 then .ok s
  else
    let afi := rtm.rtm_family
    match route_attrs_loop s.ifaces rtm attrs route_vars_init with
    | none => .ok s
    | some v =>
      if default_afi_mismatch env v.src = true then
        log_iface_name_return env s .LDBG_1 v.iface
      else if default_afi_mismatch env v.dst = true then
        log_iface_name_return env s .LDBG_1 v.iface
      else if default_afi_mismatch env v.gateway = true then
        log_iface_name_return env s .LDBG_1 v.iface
      else
        match v.iface with
        | none => .error .null_iface_read
        | some p =>
          match s.ifaces[p]? with
          | none => .error .wild_iface_read
          | some ifc =>
            match iface_address ifc afi with
            | none => .ok s
            | some iface_addr =>
              let s1 := notify env s (.datap_updated_route RTM_NEWROUTE p v.src v.dst v.gateway)
              let s2 := notify env s1 (.ctrl_route_update RTM_NEWROUTE p v.src v.dst v.gateway)
              if lisp_addr_ip_afi v.gateway = LM_AFI_NO_ADDR then .ok s2
              else
                let new_iface_addr := env.iface_find_address ifc afi
                if lisp_addr_cmp iface_addr new_iface_addr ≠ 0 then
                  let s3 := notify env s2 (.datap_updated_addr p iface_addr new_iface_addr)
                  .ok (notify env s3 (.ctrl_if_addr_update p iface_addr new_iface_addr))
                else .ok s2

/-- The function `process_nl_del_unicast_route` (lines 618-723). -/
def process_nl_del_unicast_route (env : Env) (s : State) (rtm : rtmsg) (attrs : List rtattr) :
    Except Fault State :=
  if rtm.rtm_table ≠ RT_TABLE_MAIN then .ok s
  else if rtm.rtm_family ≠ AF_INET ∧ rtm.rtm_family ≠ AF_INET6 then .ok s
  else
    let afi := rtm.rtm_family
    match route_attrs_loop s.ifaces rtm attrs route_vars_init with
    | none => .ok s
    | some v =>
      if default_afi_mismatch env v.src = true then
        log_iface_name_return env s .LDBG_1 v.iface
      else if default_afi_mismatch env v.dst = true then
        log_iface_name_return env s .LDBG_1 v.iface
      else if default_afi_mismatch env v.gateway = true then
        log_iface_name_return env s .LDBG_1 v.iface
      else
        match v.iface with
        | none => .error .null_iface_read
        | some p =>
          match s.ifaces[p]? with
          | none => .error .wild_iface_read
          | some ifc =>
            match iface_address ifc afi with
            | none => .ok s
            | some _ =>
              let s1 := notify env s (.datap_updated_route RTM_DELROUTE p v.src v.dst v.gateway)
              .ok (notify env s1 (.ctrl_route_update RTM_DELROUTE p v.src v.dst v.gateway))

/-- Modelled from the spec: the link notifiers `datap_update_link` and
`ctrl_if_link_update` (data-plane and control modules, not in these sources):
"notify Data-Plane ..., notify Control-Plane with the same, and update stored
status". The stored status of the notified interface becomes the new status
when the control-plane notifier runs; no other notifier changes the list. -/
def spec_collab : Event → List iface_t → List iface_t
  | .ctrl_if_link_update p _ _ status, ifaces =>
    match ifaces[p]? with
    | none => ifaces
    | some ifc => ifaces.set p { ifc with status := status }
  | _, ifaces => ifaces

/-- A route event, of either plane. -/
def Event.is_route : Event → Bool
  | .datap_updated_route _ _ _ _ _ => true
  | .ctrl_route_update _ _ _ _ _ => true
  | _ => false

/-- The payload of the last attribute of type `t`, if there is one. -/
def last_attr (t : Nat) : List rtattr → Option Nat
  | [] => none
  | a :: rest =>
    match last_attr t rest with
    | some d => some d
    | none => if a.rta_type = t then some a.rta_data else none

/-- The address a route notification carries for an attribute: the address of
the route's family with the attribute's bytes and the given prefix length, or
the unset local when the message has no such attribute. -/
def route_addr (family : Int) (plen : Nat) : Option Nat → lisp_addr_t
  | none => lisp_addr_local_init
  | some d => { lafi := LM_AFI_IP, afi := family, addr := d, plen := plen }

/-! ## Invariant of the SMR scan and concrete configurations -/

/-- The relation between the array and the store log that the scan keeps when
the counter starts at zero: the stored mappings fill the slots from 0 on and
the slots above still hold the initial contents `arr0`. -/
def smr_inv (arr0 : Int → Nat) (s : smr_state) : Prop :=
  s.mappings_ctr = (s.stores.length : Int)
  ∧ (∀ k : Nat, ∀ h : k < s.stores.length, s.mappings_to_smr (k : Int) = s.stores[k])
  ∧ (∀ k : Nat, s.stores.length ≤ k → s.mappings_to_smr (k : Int) = arr0 (k : Int))

/-- An interface with the status flag set and one mapping, number 7. -/
def smr_iface_status : iface_t :=
  { iface_name := "eth0", iface_index := 3, status := UP, ipv4_address := none,
    ipv6_address := none, status_changed := true, ipv4_changed := false,
    ipv6_changed := false,
    head_mappings_list := [{ mapping := 7, use_ipv4_address := true, use_ipv6_address := false }] }

/-- An interface with only the IPv4 flag set: mapping 7 uses its IPv4 address,
mapping 9 only its IPv6 address. -/
def smr_iface_v4 : iface_t :=
  { iface_name := "eth1", iface_index := 4, status := UP, ipv4_address := none,
    ipv6_address := none, status_changed := false, ipv4_changed := true,
    ipv6_changed := false,
    head_mappings_list := [{ mapping := 7, use_ipv4_address := true, use_ipv6_address := false },
      { mapping := 9, use_ipv4_address := false, use_ipv6_address := true }] }

/-- An interface with only the IPv6 flag set and the mappings 8 and 7. -/
def smr_iface_v6 : iface_t :=
  { iface_name := "eth2", iface_index := 5, status := DOWN, ipv4_address := none,
    ipv6_address := none, status_changed := false, ipv4_changed := false,
    ipv6_changed := true,
    head_mappings_list := [{ mapping := 8, use_ipv4_address := true, use_ipv6_address := true },
      { mapping := 7, use_ipv4_address := false, use_ipv6_address := true }] }

/-- An output array whose slots all hold NULL. -/
def smr_empty_array : Int → Nat := fun _ => 0

/-- The number of the IPv4 address `a.b.c.d`. -/
def ipv4 (a b c d : Nat) : Nat := ((a * 256 + b) * 256 + c) * 256 + d

/-- The IPv4 address `a.b.c.d` with a prefix length. -/
def ipv4_addr (a b c d plen : Nat) : lisp_addr_t :=
  { lafi := LM_AFI_IP, afi := AF_INET, addr := ipv4 a b c d, plen := plen }

/-- The interface of the scenario: `eth0`, index 3, up, configured for IPv4 only
with the selected address 10.0.0.5/24. -/
def example_eth0 : iface_t :=
  { iface_name := "eth0", iface_index := 3, status := UP,
    ipv4_address := some (ipv4_addr 10 0 0 5 24), ipv6_address := none,
    status_changed := false, ipv4_changed := false, ipv6_changed := false,
    head_mappings_list := [] }

/-- The state of the scenario: `eth0` is the only interface, no notifier was called. -/
def example_state : State := { ifaces := [example_eth0], trace := [] }

/-- The surroundings of the scenario: no family restriction; the kernel names
the indices 3 and 7 `eth0`; the IPv4 table holds the route 10.0.0.0/24 on
index 3; the gateway of an interface for IPv4 is 10.0.0.1; IPv4 link-local
addresses are those of 169.254.0.0/16; an IPv4 address is part of a prefix
when their first `plen` bits agree, and of no absent prefix; the link notifier
stores the new status. -/
def example_env : Env :=
  { default_rloc_afi := AF_UNSPEC
    if_indextoname := fun i => if i = 3 ∨ i = 7 then some "eth0" else none
    route_dump := fun afi =>
      if afi = AF_INET then
        some [{ nlmsg_type := RTM_NEWROUTE
                rtm := { rtm_family := AF_INET, rtm_dst_len := 24, rtm_src_len := 0,
                         rtm_table := RT_TABLE_MAIN, rtm_type := 1 }
                attrs := [{ rta_type := RTA_DST, rta_data := ipv4 10 0 0 0 },
                          { rta_type := RTA_OIF, rta_data := 3 }] }]
      else some []
    iface_find_address := fun ifc afi => (iface_address ifc afi).getD lisp_addr_local_init
    ip_addr_is_link_local := fun a => decide (a.afi = AF_INET ∧ a.addr / 2 ^ 16 = 169 * 256 + 254)
    pref_is_addr_part_of_prefix := fun a p =>
      match p with
      | none => false
      | some q => decide (a.afi = q.afi ∧ a.addr / 2 ^ (32 - q.plen) = q.addr / 2 ^ (32 - q.plen))
    iface_gateway := fun _ afi => if afi = AF_INET then some (ipv4_addr 10 0 0 1 0) else none
    is_loggable := fun _ => true
    collab := spec_collab }

/-- The same surroundings with the family restriction set to IPv6. -/
def example_env_v6 : Env := { example_env with default_rloc_afi := AF_INET6 }

/-- A default route through 10.0.0.1 on the interface with index 3. -/
def example_route_attrs : List rtattr :=
  [{ rta_type := RTA_GATEWAY, rta_data := ipv4 10 0 0 1 }, { rta_type := RTA_OIF, rta_data := 3 }]

/-- The header of an IPv4 route of the main table. -/
def example_rtm : rtmsg :=
  { rtm_family := AF_INET, rtm_dst_len := 0, rtm_src_len := 0, rtm_table := RT_TABLE_MAIN,
    rtm_type := 1 }

/-! ## Routing queries (iface_mgmt.c, lines 831-1044) and address replacement -/

/-- An address notification, of either plane. -/
def Event.is_addr : Event → Bool
  | .datap_updated_addr _ _ _ => true
  | .ctrl_if_addr_update _ _ _ => true
  | _ => false

/-- The attribute loop of `iface_get_getway` on one dump message (lines
1017-1030): the locals `iface_id`, `attrs` and `gateway` after the loop. -/
def gateway_attrs (afi : Int) :
    List rtattr → Int → Int → lisp_addr_t → Int × Int × lisp_addr_t
  | [], iface_id, attrs, gateway => (iface_id, attrs, gateway)
  | a :: rest, iface_id, attrs, gateway =>
    if a.rta_type = RTA_OIF then gateway_attrs afi rest (rta_int a) (attrs + 1) gateway
    else if a.rta_type = RTA_GATEWAY then
      gateway_attrs afi rest iface_id (attrs + 1) (lisp_addr_ip_init gateway a.rta_data afi)
    else gateway_attrs afi rest iface_id attrs gateway

/-- The message loop of `iface_get_getway` (lines 1005-1036) over the messages
of the dump in the order received; `gateway` keeps its value from one message
to the next. -/
def gateway_msgs (iface_index afi : Int) :
    List nl_route_msg → lisp_addr_t → Option lisp_addr_t
  | [], _ => none
  | msg :: rest, gateway =>
    if msg.nlmsg_type = RTM_NEWROUTE then
      match gateway_attrs afi msg.attrs 0 0 gateway with
      | (iface_id, attrs, gw) =>
        if iface_id = iface_index ∧ attrs = 2 then some gw
        else gateway_msgs iface_index afi rest gw
    else gateway_msgs iface_index afi rest gateway

/-- The function `iface_get_getway` (lines 937-1044). `route_dump afi` is the
kernel's answer to the dump request of family `afi`, `none` when the socket
cannot be opened or the request cannot be sent. -/
def iface_get_getway (env : Env) (iface_index afi : Int) : Option lisp_addr_t :=
  match env.route_dump afi with
  | none => none
  | some msgs => gateway_msgs iface_index afi msgs lisp_addr_local_init

/-- What the claim reads: a route record in which a gateway attribute and an
output-interface attribute are present and the output interface is
`iface_index`. -/
def gateway_record_matches (iface_index : Int) (msg : nl_route_msg) : Bool :=
  decide (msg.nlmsg_type = RTM_NEWROUTE)
    && (last_attr RTA_GATEWAY msg.attrs).isSome
    && msg.attrs.any (fun a => decide (a.rta_type = RTA_OIF ∧ rta_int a = iface_index))

/-- What the claim reads: the gateway attribute of the first matching record
of the dump, as an address of family `afi`. -/
def first_gateway_record (iface_index afi : Int) (msgs : List nl_route_msg) :
    Option lisp_addr_t :=
  (msgs.find? (gateway_record_matches iface_index)).map
    (fun msg => route_addr afi 0 (last_attr RTA_GATEWAY msg.attrs))

/-- A route whose prefix length is the host length of the family. -/
def is_host_route (afi : Int) (recv_rtm : rtmsg) : Bool :=
  decide ((afi = AF_INET ∧ recv_rtm.rtm_dst_len = 32)
    ∨ (afi = AF_INET6 ∧ recv_rtm.rtm_dst_len = 128))

/-- What the claim reads: the destination prefixes of the route records of the
dump that are not host routes, each with its record's prefix length, in dump
order. -/
def net_candidates (afi : Int) (msgs : List nl_route_msg) : List lisp_addr_t :=
  msgs.flatMap (fun msg =>
    if msg.nlmsg_type = RTM_NEWROUTE ∧ is_host_route afi msg.rtm = false then
      (msg.attrs.filter (fun a => decide (a.rta_type = RTA_DST))).map (fun a =>
        { lafi := LM_AFI_IP, afi := afi, addr := a.rta_data, plen := msg.rtm.rtm_dst_len })
    else [])

/-- The request family of `get_network_pref_of_host` (lines 845-851). -/
def net_pref_afi (address : lisp_addr_t) : Int :=
  if lisp_addr_ip_afi address = AF_INET then AF_INET else AF_INET6

/-- The surroundings of the scenario with another answer to the dump request. -/
def example_env_dump (msgs : List nl_route_msg) : Env :=
  { example_env with route_dump := fun _ => some msgs }

/-- A route record of the dump with the given attributes. -/
def example_route_record (attrs : List rtattr) : nl_route_msg :=
  { nlmsg_type := RTM_NEWROUTE, rtm := example_rtm, attrs := attrs }

/-- The surroundings of the scenario when the live address of an interface is
10.0.0.9/24. -/
def example_env_stale : Env :=
  { example_env with iface_find_address := fun _ _ => ipv4_addr 10 0 0 9 24 }

/-! ## Control dispatcher (lisp_control.c) -/

/-- Return values of `defs.h`. -/
def GOOD : Int := 1

def BAD : Int := 0

/-- The fields of `uconn_t`: local and remote address, local and remote port. -/
structure uconn_t where
  la : lisp_addr_t
  ra : lisp_addr_t
  lp : Nat
  rp : Nat
deriving DecidableEq, Repr

/-- Modelled from the spec: `lisp_addr_afi` (address library, not in these
sources): the kind of a LISP address, `LM_AFI_NO_ADDR` for "no address" and
`LM_AFI_IP` for an IP address. -/
def lisp_addr_afi (a : lisp_addr_t) : Int := a.lafi

/-- Modelled from the spec: `lisp_addr_copy` (address library, not in these
sources), the "deep value copy": the destination takes the value of the source. -/
def lisp_addr_copy (_dst src : lisp_addr_t) : lisp_addr_t := src

/-- One call of `sock_send`: the socket, the buffer and the connection tuple. -/
structure sock_send_call where
  sk : Int
  b : Nat
  uc : uconn_t
deriving DecidableEq, Repr

/-- What `ctrl_send_msg` uses and these sources do not define: the default
control address and socket of a family, the interface that owns an address,
the socket of an interface for a family, and the result of `sock_send`. -/
structure SendEnv where
  get_default_ctrl_address : Int → lisp_addr_t
  get_default_ctrl_socket : Int → Int
  get_interface_with_address : lisp_addr_t → Option iface_t
  iface_socket : iface_t → Int → Int
  sock_send : Int → Nat → uconn_t → Int

/-- The outcome of `ctrl_send_msg`: the return value, the connection tuple
after the call and the calls of `sock_send` made. -/
structure send_outcome where
  ret : Int
  uc : uconn_t
  sends : List sock_send_call
deriving DecidableEq, Repr

/-- The function `ctrl_send_msg` (lines 141-179) on the buffer `b` and the
connection tuple `uc`. -/
def ctrl_send_msg (env : SendEnv) (b : Nat) (uc : uconn_t) : send_outcome :=
  let dst_afi := lisp_addr_ip_afi uc.ra
  if lisp_addr_afi uc.ra ≠ LM_AFI_IP then { ret := BAD, uc := uc, sends := [] }
  else
    let chosen : uconn_t × Int :=
      if lisp_addr_afi uc.la = LM_AFI_NO_ADDR then
        ({ uc with la := lisp_addr_copy uc.la (env.get_default_ctrl_address dst_afi) },
          env.get_default_ctrl_socket dst_afi)
      else
        match env.get_interface_with_address uc.la with
        | some iface => (uc, env.iface_socket iface dst_afi)
        | none => (uc, env.get_default_ctrl_socket dst_afi)
    let ret := env.sock_send chosen.2 b chosen.1
    { ret := if ret ≠ GOOD then BAD else GOOD
      uc := chosen.1
      sends := [{ sk := chosen.2, b := b, uc := chosen.1 }] }

/-- The fields of `struct lisp_ctrl`; an entry of `default_rlocs` is the
`lisp_addr_t *` stored in the list, `none` for NULL. -/
structure lisp_ctrl_t where
  devices : List Nat
  ipv4_control_input_fd : Int
  ipv6_control_input_fd : Int
  default_rlocs : List (Option lisp_addr_t)
deriving DecidableEq, Repr

/-- The process state `lisp_control.c` works on: the control contexts (a
`lisp_ctrl_t *` is the position of the context), the global `lctrl`, the
globals `default_ctrl_iface_v4` and `default_ctrl_iface_v6`, and the global
`default_rloc_afi`. -/
structure ctrl_globals where
  ctrls : List lisp_ctrl_t
  lctrl : Nat
  default_ctrl_iface_v4 : Option iface_t
  default_ctrl_iface_v6 : Option iface_t
  default_rloc_afi : Int
deriving DecidableEq, Repr

/-- What the context functions call and these sources do not define. -/
structure CtrlEnv where
  set_default_ctrl_ifaces : ctrl_globals → ctrl_globals
  open_control_input_socket : Int → Int
  ctrl_if_event : Option Nat → ctrl_globals → ctrl_globals

/-- A context is written through its pointer. -/
def ctrl_update (g : ctrl_globals) (ctrl : Nat) (f : lisp_ctrl_t → lisp_ctrl_t) : ctrl_globals :=
  match g.ctrls[ctrl]? with
  | none => g
  | some c => { g with ctrls := g.ctrls.set ctrl (f c) }

/-- The function `set_default_rlocs` (lines 51-63): the list is emptied, then
the IPv4 address of the default IPv4 control interface is added and the IPv6
address of the default IPv6 control interface is added at the tail. -/
def set_default_rlocs (g : ctrl_globals) (ctrl : Nat) : ctrl_globals :=
  let v4 : List (Option lisp_addr_t) :=
    match g.default_ctrl_iface_v4 with
    | some iface => [iface.ipv4_address]
    | none => []
  let v6 : List (Option lisp_addr_t) :=
    match g.default_ctrl_iface_v6 with
    | some iface => [iface.ipv6_address]
    | none => []
  ctrl_update g ctrl (fun c => { c with default_rlocs := v4 ++ v6 })

/-- The function `ctrl_init` (lines 85-104). -/
def ctrl_init (env : CtrlEnv) (g : ctrl_globals) (ctrl : Nat) : ctrl_globals :=
  let g1 := env.set_default_ctrl_ifaces g
  let g2 :=
    if g1.default_rloc_afi = -1 ∨ g1.default_rloc_afi = AF_INET then
      ctrl_update g1 ctrl (fun c =>
        { c with ipv4_control_input_fd := env.open_control_input_socket AF_INET })
    else g1
  let g3 :=
    if g2.default_rloc_afi = -1 ∨ g2.default_rloc_afi = AF_INET6 then
      ctrl_update g2 ctrl (fun c =>
        { c with ipv6_control_input_fd := env.open_control_input_socket AF_INET6 })
    else g2
  set_default_rlocs g3 ctrl

/-- The device a context function takes: `glist_first_data(ctrl->devices)`. -/
def ctrl_first_device (g : ctrl_globals) (ctrl : Nat) : Option Nat :=
  match g.ctrls[ctrl]? with
  | none => none
  | some c => c.devices.head?

/-- The function `ctrl_if_addr_update` (lines 228-254); the interface and the
two addresses are not read. -/
def ctrl_if_addr_update (env : CtrlEnv) (g : ctrl_globals) (ctrl : Nat) : ctrl_globals :=
  let dev := ctrl_first_device g ctrl
  set_default_rlocs (env.ctrl_if_event dev g) ctrl

/-- The function `ctrl_if_status_update` (lines 256-263): the list recomputed
is the one of the global `lctrl`. -/
def ctrl_if_status_update (env : CtrlEnv) (g : ctrl_globals) (ctrl : Nat) : ctrl_globals :=
  let dev := ctrl_first_device g ctrl
  let g1 := env.ctrl_if_event dev g
  set_default_rlocs g1 g1.lctrl

/-- The family `lisp_addr_ip_afi` reads through a `lisp_addr_t *`. -/
def lisp_addr_ip_afi_ptr : Option lisp_addr_t → Except Fault Int
  | none => .error .null_addr_read
  | some a => .ok (lisp_addr_ip_afi a)

/-- The data pointers `glist_first_data` and `glist_last_data` return, NULL on
an empty list. -/
def glist_first_data (l : List (Option lisp_addr_t)) : Option lisp_addr_t := l.head?.join

def glist_last_data (l : List (Option lisp_addr_t)) : Option lisp_addr_t := l.getLast?.join

/-- The function `ctrl_default_rloc` (lines 271-281). -/
def ctrl_default_rloc (c : lisp_ctrl_t) (afi : Int) : Except Fault (Option lisp_addr_t) :=
  match lisp_addr_ip_afi_ptr (glist_first_data c.default_rlocs) with
  | .error f => .error f
  | .ok first_afi =>
    if first_afi = afi then .ok (glist_first_data c.default_rlocs)
    else
      match lisp_addr_ip_afi_ptr (glist_last_data c.default_rlocs) with
      | .error f => .error f
      | .ok last_afi =>
        if last_afi = afi then .ok (glist_last_data c.default_rlocs) else .ok none

/-- What the claim reads for a family: the address of the default control
interface of that family. -/
def default_rloc_of (g : ctrl_globals) (afi : Int) : Option lisp_addr_t :=
  if afi = AF_INET then g.default_ctrl_iface_v4.bind (fun i => i.ipv4_address)
  else if afi = AF_INET6 then g.default_ctrl_iface_v6.bind (fun i => i.ipv6_address)
  else none

/-- What the claim reads: the list with the IPv4 entry first and the IPv6 entry
last, each present when the family has a default control interface. -/
def default_rlocs_of (g : ctrl_globals) : List (Option lisp_addr_t) :=
  (match g.default_ctrl_iface_v4 with
    | some iface => [iface.ipv4_address]
    | none => [])
  ++ (match g.default_ctrl_iface_v6 with
    | some iface => [iface.ipv6_address]
    | none => [])

/-- A connection tuple towards the IPv4 address 192.0.2.1 with no local address. -/
def example_uconn : uconn_t :=
  { la := { lafi := LM_AFI_NO_ADDR, afi := 0, addr := 0, plen := 0 }
    ra := ipv4_addr 192 0 2 1 32, lp := 0, rp := 4342 }

/-- Surroundings for `ctrl_send_msg`: the default control address is 10.0.0.5
with socket 7, `eth0` owns 10.0.0.5 and has socket 9, and a send succeeds on
every socket but socket 9. -/
def example_send_env : SendEnv :=
  { get_default_ctrl_address := fun _ => ipv4_addr 10 0 0 5 24
    get_default_ctrl_socket := fun _ => 7
    get_interface_with_address := fun a =>
      if a = ipv4_addr 10 0 0 5 24 then some example_eth0 else none
    iface_socket := fun _ _ => 9
    sock_send := fun sk _ _ => if sk = 9 then -1 else GOOD }

/-- Two control contexts, the second with a stale list; `lctrl` is the first
and `eth0` is the default IPv4 control interface. -/
def example_ctrl_globals : ctrl_globals :=
  { ctrls := [{ devices := [1], ipv4_control_input_fd := 5, ipv6_control_input_fd := 6,
                default_rlocs := [] },
              { devices := [2], ipv4_control_input_fd := 7, ipv6_control_input_fd := 8,
                default_rlocs := [some (ipv4_addr 172 16 0 1 24)] }]
    lctrl := 0
    default_ctrl_iface_v4 := some example_eth0
    default_ctrl_iface_v6 := none
    default_rloc_afi := -1 }

/-- Collaborators of the context functions that leave the process state as it is. -/
def example_ctrl_env : CtrlEnv :=
  { set_default_ctrl_ifaces := fun g => g
    open_control_input_socket := fun afi => if afi = AF_INET then 5 else 6
    ctrl_if_event := fun _ g => g }

/-! ## The netlink message walk and the remaining handlers (iface_mgmt.c) -/

/-- Values of `linux/netlink.h` and `linux/rtnetlink.h` and `linux/if_addr.h`. -/
def NLMSG_DONE : Nat := 3

def RTM_NEWLINK : Nat := 16

def RTM_NEWADDR : Nat := 20

def RTM_DELADDR : Nat := 21

def RTN_UNICAST : Nat := 1

def RTN_MULTICAST : Nat := 5

def IFA_ADDRESS : Nat := 1

def IFA_LOCAL : Nat := 2

def RTA_MULTIPATH : Nat := 9

def RT_TABLE_DEFAULT : Nat := 253

/-- An attribute record as it lies in the buffer: the length it declares, its
type, and the bytes at `RTA_DATA` read as a little-endian number. -/
structure raw_rtattr where
  rta_len : Nat
  rta_type : Nat
  rta_data : Nat
deriving DecidableEq, Repr

/-- The attribute a handler reads from a record. -/
def raw_rtattr.attr (a : raw_rtattr) : rtattr :=
  { rta_type := a.rta_type, rta_data := a.rta_data }

/-- The macros `RTA_ALIGN`, `NLMSG_ALIGN` and `RTNH_ALIGN`: rounding up to a
multiple of 4. -/
def RTA_ALIGN (len : Nat) : Nat := (len + 3) / 4 * 4

/-- The macro `RTA_OK(rta, len)`; `sizeof(struct rtattr)` is 4. -/
def RTA_OK (rta : raw_rtattr) (len : Int) : Bool :=
  decide (len ≥ 4 ∧ rta.rta_len ≥ 4 ∧ (rta.rta_len : Int) ≤ len)

/-- The records an attribute loop `for (; RTA_OK(rta, len); rta = RTA_NEXT(rta, len))`
visits. The list holds the records found at the successive offsets
`RTA_ALIGN(rta_len)`; `len` is the length that remains. -/
def rta_walk_raw : List raw_rtattr → Int → List raw_rtattr
  | [], _ => []
  | rta :: rest, len =>
    if RTA_OK rta len = true then rta :: rta_walk_raw rest (len - (RTA_ALIGN rta.rta_len : Int))
    else []

/-- The attributes an attribute loop visits. -/
def rta_walk (attrs : List raw_rtattr) (len : Int) : List rtattr :=
  (rta_walk_raw attrs len).map raw_rtattr.attr

/-- The fields of `struct ifaddrmsg` read by the address handlers. -/
structure ifaddrmsg where
  ifa_family : Int
  ifa_index : Int
deriving DecidableEq, Repr

/-- One message of the receive buffer: the header fields and the payload as
each handler reads it: `NLMSG_DATA` as `struct ifaddrmsg` with the records at
`IFA_RTA`, as `struct ifinfomsg`, and as `struct rtmsg` with the records at
`RTM_RTA`. -/
structure nlmsghdr where
  nlmsg_len : Nat
  nlmsg_type : Nat
  ifa : ifaddrmsg := { ifa_family := 0, ifa_index := 0 }
  ifa_attrs : List raw_rtattr := []
  ifi : ifinfomsg := { ifi_index := 0, ifi_flags := 0 }
  rtm : rtmsg :=
    { rtm_family := 0, rtm_dst_len := 0, rtm_src_len := 0, rtm_table := 0, rtm_type := 0 }
  rtm_attrs : List raw_rtattr := []
deriving DecidableEq, Repr

/-- The macro `NLMSG_OK(nlh, len)`; `sizeof(struct nlmsghdr)` is 16. -/
def NLMSG_OK (nlh : nlmsghdr) (len : Int) : Bool :=
  decide (len ≥ 16 ∧ nlh.nlmsg_len ≥ 16 ∧ (nlh.nlmsg_len : Int) ≤ len)

/-- The macro `IFA_PAYLOAD(nlh)`: `nlmsg_len - NLMSG_SPACE(sizeof(struct ifaddrmsg))`. -/
def IFA_PAYLOAD (nlh : nlmsghdr) : Int := (nlh.nlmsg_len : Int) - 24

/-- The macro `RTM_PAYLOAD(nlh)`: `nlmsg_len - NLMSG_SPACE(sizeof(struct rtmsg))`. -/
def RTM_PAYLOAD (nlh : nlmsghdr) : Int := (nlh.nlmsg_len : Int) - 28

/-- The attribute loop of `process_nl_add_address` (lines 153-163) from the
state `s` with the local `new_addr`. -/
def add_address_loop (env : Env) (iface : Nat) (ifa_family : Int) :
    List rtattr → State → lisp_addr_t → Except Fault State
  | [], s, _ => .ok s
  | rth :: rest, s, new_addr =>
    let v4 : Bool := decide (ifa_family = AF_INET ∧ rth.rta_type = IFA_LOCAL)
    let new_addr1 := if v4 = true then lisp_addr_ip_init new_addr rth.rta_data ifa_family
      else new_addr
    let r1 := if v4 = true then process_address_change env s iface new_addr1 else .ok s
    match r1 with
    | .error f => .error f
    | .ok s1 =>
      let v6 : Bool := decide (ifa_family = AF_INET6 ∧ rth.rta_type = IFA_ADDRESS)
      let new_addr2 := if v6 = true then lisp_addr_ip_init new_addr1 rth.rta_data ifa_family
        else new_addr1
      let r2 := if v6 = true then process_address_change env s1 iface new_addr2 else .ok s1
      match r2 with
      | .error f => .error f
      | .ok s2 => add_address_loop env iface ifa_family rest s2 new_addr2

/-- The function `process_nl_add_address` (lines 124-164). -/
def process_nl_add_address (env : Env) (s : State) (nlh : nlmsghdr) : Except Fault State :=
  match get_interface_from_index s.ifaces nlh.ifa.ifa_index with
  | none => .ok s
  | some iface =>
    add_address_loop env iface nlh.ifa.ifa_family
      (rta_walk nlh.ifa_attrs (IFA_PAYLOAD nlh)) s lisp_addr_local_init

/-- The function `process_nl_del_address` (lines 245-279): the removed address
is only logged. -/
def process_nl_del_address (_env : Env) (s : State) (_nlh : nlmsghdr) : Except Fault State :=
  .ok s

/-- The fields of `struct rtnexthop`. -/
structure rtnexthop where
  rtnh_len : Nat
  rtnh_flags : Nat
  rtnh_hops : Nat
  rtnh_ifindex : Int
deriving DecidableEq, Repr

/-- The `struct rtnexthop` at the start of the bytes `mem` (little-endian):
two bytes of length, one of flags, one of hops, four of interface index. -/
def rtnh_at (mem : Nat) : rtnexthop :=
  { rtnh_len := mem % 2 ^ 16
    rtnh_flags := mem / 2 ^ 16 % 2 ^ 8
    rtnh_hops := mem / 2 ^ 24 % 2 ^ 8
    rtnh_ifindex := rta_int { rta_type := 0, rta_data := mem / 2 ^ 32 } }

/-- The macro `RTNH_OK(rtnh, len)`; `sizeof(struct rtnexthop)` is 8. -/
def RTNH_OK (rtnh : rtnexthop) (len : Int) : Bool :=
  decide (rtnh.rtnh_len ≥ 8 ∧ (rtnh.rtnh_len : Int) ≤ len)

/-- The next-hop loop of `process_nl_mcast_route_attributes` (lines 562-580) on
the multipath attribute `rt_attr`, from the bytes `mem` with `nb_oifs` hops
counted; `none` is the `return BAD` of line 573. `RTNH_NEXT` moves on by the
aligned length and `rtnh_length` is not reduced. The interface found for
`rtnh_ifindex` at line 564 is replaced at line 566 by the interface found for
the first four bytes of the attribute payload. The first argument bounds the
number of steps; the bytes themselves are a sufficient bound. -/
def mcast_nh_loop (ifaces : List iface_t) (rt_attr : raw_rtattr) (rtnh_length : Int) :
    Nat → Nat → Nat → Option Nat
  | 0, _, nb_oifs => some nb_oifs
  | fuel + 1, mem, nb_oifs =>
    let rt_nh := rtnh_at mem
    if RTNH_OK rt_nh rtnh_length = true then
      let iface := get_interface_from_index ifaces rt_nh.rtnh_ifindex
      let iface_index := rta_int rt_attr.attr
      let iface := (iface, get_interface_from_index ifaces iface_index).2
      match iface with
      | some _ => none
      | none =>
        mcast_nh_loop ifaces rt_attr rtnh_length fuel
          (mem / 2 ^ (8 * RTA_ALIGN rt_nh.rtnh_len)) (nb_oifs + 1)
    else some nb_oifs

/-- The out-parameters and the counter of `process_nl_mcast_route_attributes`. -/
structure mcast_vars where
  rt_srcaddr : lisp_addr_t
  rt_grpaddr : lisp_addr_t
  nb_oifs : Nat
deriving DecidableEq, Repr

/-- The inner `switch (rtm->rtm_family)` of lines 532-543 and 546-557. -/
def mcast_addr_init (a : lisp_addr_t) (data : Nat) (rtm_family : Int) : lisp_addr_t :=
  if rtm_family = 128 then lisp_addr_ip_init a data AF_INET
  else if rtm_family = 129 then lisp_addr_ip_init a data AF_INET6
  else a

/-- The attribute loop of `process_nl_mcast_route_attributes` (lines 528-585)
over the records visited; the flag is set when the next-hop loop returned
`BAD`. -/
def mcast_attrs_loop (ifaces : List iface_t) (rtm : rtmsg) :
    List raw_rtattr → mcast_vars → mcast_vars × Bool
  | [], v => (v, false)
  | rt_attr :: rest, v =>
    if rt_attr.rta_type = RTA_DST then
      mcast_attrs_loop ifaces rtm rest
        { v with rt_grpaddr := mcast_addr_init v.rt_grpaddr rt_attr.rta_data rtm.rtm_family }
    else if rt_attr.rta_type = RTA_SRC then
      mcast_attrs_loop ifaces rtm rest
        { v with rt_srcaddr := mcast_addr_init v.rt_srcaddr rt_attr.rta_data rtm.rtm_family }
    else if rt_attr.rta_type = RTA_MULTIPATH then
      match mcast_nh_loop ifaces rt_attr ((rt_attr.rta_len : Int) - 4) rt_attr.rta_data
          rt_attr.rta_data v.nb_oifs with
      | none => (v, true)
      | some nb_oifs => mcast_attrs_loop ifaces rtm rest { v with nb_oifs := nb_oifs }
    else mcast_attrs_loop ifaces rtm rest v

/-- The function `process_nl_mcast_route_attributes` (lines 513-598): the
return value and the two out-parameters. -/
def process_nl_mcast_route_attributes (ifaces : List iface_t) (rtm : rtmsg)
    (attrs : List raw_rtattr) (rt_length : Int) (rt_srcaddr rt_grpaddr : lisp_addr_t) :
    Int × lisp_addr_t × lisp_addr_t :=
  match mcast_attrs_loop ifaces rtm (rta_walk_raw attrs rt_length)
      { rt_srcaddr := rt_srcaddr, rt_grpaddr := rt_grpaddr, nb_oifs := 0 } with
  | (v, true) => (BAD, v.rt_srcaddr, v.rt_grpaddr)
  | (v, false) =>
    if v.nb_oifs = 0 then (BAD, v.rt_srcaddr, v.rt_grpaddr)
    else (GOOD, v.rt_srcaddr, v.rt_grpaddr)

/-- The function `process_nl_new_multicast_route` (lines 490-511): it logs
"Not yet implented, ignored!"; the rest of its body is commented out. -/
def process_nl_new_multicast_route (_env : Env) (s : State) (_rtm : rtmsg)
    (_attrs : List raw_rtattr) (_rt_length : Int) : Except Fault State :=
  .ok s

/-- The function `process_nl_del_multicast_route` (lines 725-741); the call of
`multicast_leave_channel` is recorded. -/
def process_nl_del_multicast_route (env : Env) (s : State) (rtm : rtmsg)
    (attrs : List raw_rtattr) (rt_length : Int) : Except Fault State :=
  if ¬((rtm.rtm_table = RT_TABLE_DEFAULT ∧ rtm.rtm_family = 128)
      ∨ (rtm.rtm_table = RT_TABLE_MAIN ∧ rtm.rtm_family = 129)) then .ok s
  else
    match process_nl_mcast_route_attributes s.ifaces rtm attrs rt_length
        lisp_addr_local_init lisp_addr_local_init with
    | (ret, rt_srcaddr, rt_groupaddr) =>
      if ret = BAD then .ok s
      else .ok (notify env s (.multicast_leave_channel rt_srcaddr rt_groupaddr))

/-- The function `process_nl_new_route` (lines 340-356). -/
def process_nl_new_route (env : Env) (s : State) (nlh : nlmsghdr) : Except Fault State :=
  let rtm := nlh.rtm
  let rt_length := RTM_PAYLOAD nlh
  if rtm.rtm_type = RTN_UNICAST then
    process_nl_new_unicast_route env s rtm (rta_walk nlh.rtm_attrs rt_length)
  else if rtm.rtm_type = RTN_MULTICAST then
    process_nl_new_multicast_route env s rtm nlh.rtm_attrs rt_length
  else .ok s

/-- The function `process_nl_del_route` (lines 600-616). -/
def process_nl_del_route (env : Env) (s : State) (nlh : nlmsghdr) : Except Fault State :=
  let rtm := nlh.rtm
  let rt_length := RTM_PAYLOAD nlh
  if rtm.rtm_type = RTN_UNICAST then
    process_nl_del_unicast_route env s rtm (rta_walk nlh.rtm_attrs rt_length)
  else if rtm.rtm_type = RTN_MULTICAST then
    process_nl_del_multicast_route env s rtm nlh.rtm_attrs rt_length
  else .ok s

/-- The `switch (nlh->nlmsg_type)` of `process_netlink_msg` (lines 85-114). -/
def netlink_dispatch (env : Env) (s : State) (nlh : nlmsghdr) : Except Fault State :=
  if nlh.nlmsg_type = RTM_NEWADDR then process_nl_add_address env s nlh
  else if nlh.nlmsg_type = RTM_DELADDR then process_nl_del_address env s nlh
  else if nlh.nlmsg_type = RTM_NEWLINK then process_nl_new_link env s nlh.ifi
  else if nlh.nlmsg_type = RTM_NEWROUTE then process_nl_new_route env s nlh
  else if nlh.nlmsg_type = RTM_DELROUTE then process_nl_del_route env s nlh
  else .ok s

/-- The `for` loop of `process_netlink_msg` (lines 83-115) on one received
buffer: the messages found at the successive offsets `NLMSG_ALIGN(nlmsg_len)`
and the length `len` that remains. -/
def netlink_for_loop (env : Env) : List nlmsghdr → Int → State → Except Fault State
  | [], _, s => .ok s
  | nlh :: rest, len, s =>
    if NLMSG_OK nlh len = true ∧ nlh.nlmsg_type ≠ NLMSG_DONE then
      match netlink_dispatch env s nlh with
      | .error f => .error f
      | .ok s1 => netlink_for_loop env rest (len - (RTA_ALIGN nlh.nlmsg_len : Int)) s1
    else .ok s

/-- The function `process_netlink_msg` (lines 60-121) on the successive results
of `recv`: the length returned and the messages in the buffer. The loop ends
at the first length that is not positive, or when nothing more is received;
the value returned is `GOOD`. -/
def process_netlink_msg (env : Env) : List (Int × List nlmsghdr) → State →
    Except Fault (Int × State)
  | [], s => .ok (GOOD, s)
  | (len, buffer) :: rest, s =>
    if len > 0 then
      match netlink_for_loop env buffer len s with
      | .error f => .error f
      | .ok s1 => process_netlink_msg env rest s1
    else .ok (GOOD, s)

/-! ## Reference forms of the netlink claims and concrete messages -/

/-- The family a multicast address is given (lines 532-543, 546-557): `AF_INET`
for the route family 128, `AF_INET6` for 129. -/
def mcast_afi (rtm_family : Int) : Int := if rtm_family = 128 then AF_INET else AF_INET6

/-- What the claim reads: every message of the list passes `NLMSG_OK` at its
offset in a buffer of `len` bytes. -/
def nlmsgs_ok : List nlmsghdr → Int → Bool
  | [], _ => true
  | nlh :: rest, len =>
    NLMSG_OK nlh len && nlmsgs_ok rest (len - (RTA_ALIGN nlh.nlmsg_len : Int))

/-- What the claim reads: the address-added handler run on each message of
the list in turn; a run that stops on a fault ends the sequence. -/
def add_address_seq (env : Env) : List nlmsghdr → State → Except Fault State
  | [], s => .ok s
  | nlh :: rest, s =>
    match process_nl_add_address env s nlh with
    | .error f => .error f
    | .ok s1 => add_address_seq env rest s1

/-- The bytes a list of attribute records occupies: the sum of the aligned
lengths. -/
def rta_space : List raw_rtattr → Int
  | [] => 0
  | a :: rest => (RTA_ALIGN a.rta_len : Int) + rta_space rest

/-- What the claim reads: the payloads of the attributes an address-added
message of family `ifa_family` is validated for, in order: the `IFA_LOCAL`
attributes of an IPv4 message, the `IFA_ADDRESS` attributes of an IPv6
message. -/
def validated_payloads (ifa_family : Int) (attrs : List rtattr) : List Nat :=
  (attrs.filter (fun a => decide ((ifa_family = AF_INET ∧ a.rta_type = IFA_LOCAL)
    ∨ (ifa_family = AF_INET6 ∧ a.rta_type = IFA_ADDRESS)))).map (fun a => a.rta_data)

/-- What the claim reads: `process_address_change` called on the interface
once for every payload in turn, with the address of family `ifa_family` built
from the payload; a call that stops on a fault ends the sequence. -/
def validation_calls (env : Env) (iface : Nat) (ifa_family : Int) :
    List Nat → State → Except Fault State
  | [], s => .ok s
  | d :: rest, s =>
    match process_address_change env s iface
        { lafi := LM_AFI_IP, afi := ifa_family, addr := d, plen := 0 } with
    | .error f => .error f
    | .ok s1 => validation_calls env iface ifa_family rest s1

/-- An IPv4 address-added message for the kernel index `index`: an
`IFA_ADDRESS` record, an `IFA_LOCAL` record and a record of type 3, each with
4 bytes of payload. -/
def example_addr_msg (index : Int) (address local_address : Nat) : nlmsghdr :=
  { nlmsg_len := 48, nlmsg_type := RTM_NEWADDR
    ifa := { ifa_family := AF_INET, ifa_index := index }
    ifa_attrs := [{ rta_len := 8, rta_type := IFA_ADDRESS, rta_data := address },
                  { rta_len := 8, rta_type := IFA_LOCAL, rta_data := local_address },
                  { rta_len := 8, rta_type := 3, rta_data := 0 }] }

/-- The terminal message of a batch. -/
def example_done_msg : nlmsghdr := { nlmsg_len := 20, nlmsg_type := NLMSG_DONE }

/-- An IPv4 route-added message of the main table, 44 bytes long: an
output-interface record for the index 3 and a gateway record that declares 12
bytes where 8 remain. -/
def example_truncated_route_msg : nlmsghdr :=
  { nlmsg_len := 44, nlmsg_type := RTM_NEWROUTE
    rtm := { rtm_family := AF_INET, rtm_dst_len := 0, rtm_src_len := 0,
             rtm_table := RT_TABLE_MAIN, rtm_type := RTN_UNICAST }
    rtm_attrs := [{ rta_len := 8, rta_type := RTA_OIF, rta_data := 3 },
                  { rta_len := 12, rta_type := RTA_GATEWAY, rta_data := ipv4 10 0 0 1 }] }

/-- An IPv4 address-added message for the index 3, 40 bytes long: an
`IFA_LOCAL` record with 10.0.0.9 and a record that declares a length of 2. -/
def example_short_addr_msg : nlmsghdr :=
  { nlmsg_len := 40, nlmsg_type := RTM_NEWADDR
    ifa := { ifa_family := AF_INET, ifa_index := 3 }
    ifa_attrs := [{ rta_len := 8, rta_type := IFA_LOCAL, rta_data := ipv4 10 0 0 9 },
                  { rta_len := 2, rta_type := IFA_ADDRESS, rta_data := 0 }] }

/-- A multicast route header of the IPv4 multicast table: family 128 in the
default table. -/
def example_mcast_rtm : rtmsg :=
  { rtm_family := 128, rtm_dst_len := 32, rtm_src_len := 32, rtm_table := RT_TABLE_DEFAULT,
    rtm_type := RTN_MULTICAST }

/-- A multipath record holding one next hop: `rtnh_len` 8, no flags, no hops,
and the interface index `ifindex`. -/
def example_multipath (ifindex : Nat) : raw_rtattr :=
  { rta_len := 12, rta_type := RTA_MULTIPATH, rta_data := 8 + ifindex * 2 ^ 32 }

/-- The records of a multicast route from 10.0.0.9 to the group 239.1.1.1 with
one next hop on the interface index `ifindex`; they occupy 28 bytes. -/
def example_mcast_attrs (ifindex : Nat) : List raw_rtattr :=
  [{ rta_len := 8, rta_type := RTA_SRC, rta_data := ipv4 10 0 0 9 },
   { rta_len := 8, rta_type := RTA_DST, rta_data := ipv4 239 1 1 1 },
   example_multipath ifindex]

/-- A multicast route message with the records `example_mcast_attrs ifindex`. -/
def example_mcast_msg (nlmsg_type ifindex : Nat) : nlmsghdr :=
  { nlmsg_len := 56, nlmsg_type := nlmsg_type, rtm := example_mcast_rtm,
    rtm_attrs := example_mcast_attrs ifindex }

/-- An interface registered with the kernel index 8. -/
def example_eth8 : iface_t := { example_eth0 with iface_name := "eth8", iface_index := 8 }

/-- A source-address attribute alone: the route has no output-interface
attribute. -/
def example_src_only_attrs : List rtattr := [{ rta_type := RTA_SRC, rta_data := ipv4 10 0 0 9 }]
/-! ## Lemmas -/

/-- The search loop stops on the first slot holding `m`, or after `n` steps. -/
theorem smr_search_spec (arr : Int → Nat) (m : Nat) (n : Nat) (c : Int) :
    (∃ j : Nat, j < n ∧ smr_search arr m c n = c + j ∧ arr (c + j) = m)
    ∨ (smr_search arr m c n = c + n ∧ ∀ j : Nat, j < n → arr (c + j) ≠ m) := by
  induction n generalizing c with
  | zero => right; simp [smr_search]
  | succ n ih =>
    by_cases h : arr c = m
    · left
      refine ⟨0, Nat.succ_pos n, ?_, ?_⟩
      · simp [smr_search, h]
      · simpa using h
    · rcases ih (c + 1) with ⟨j, hj, hs, ha⟩ | ⟨hs, ha⟩
      · left
        refine ⟨j + 1, Nat.succ_lt_succ hj, ?_, ?_⟩
        · simp [smr_search, h, hs]; ring
        · rw [← ha]; congr 1; push_cast; ring
      · right
        refine ⟨?_, ?_⟩
        · simp [smr_search, h, hs]; ring
        · intro j hj
          cases j with
          | zero => simpa using h
          | succ j =>
            have := ha j (Nat.lt_of_succ_lt_succ hj)
            intro hc; apply this; rw [← hc]; congr 1; push_cast; ring

theorem smr_visit_node_inv (arr0 : Int → Nat) (iface : iface_t) (s : smr_state)
    (e : iface_mappings_list) (hinv : smr_inv arr0 s)
    (hfresh : smr_node_selected iface e = true → ∀ k : Nat, arr0 (k : Int) ≠ e.mapping) :
    smr_inv arr0 (smr_visit_node iface s e)
    ∧ (smr_visit_node iface s e).stores =
        if smr_node_selected iface e = true then first_seen s.stores [e.mapping] else s.stores := by
  obtain ⟨hc, hlow, hhigh⟩ := hinv
  unfold smr_visit_node
  by_cases hsel : smr_node_selected iface e = true
  · simp only [hsel, if_true]
    have hfr := hfresh hsel
    rw [hc, Int.toNat_ofNat]
    rcases smr_search_spec s.mappings_to_smr e.mapping s.stores.length 0 with
      ⟨j, hj, hs, ha⟩ | ⟨hs, ha⟩
    · -- found
      have hmem : e.mapping ∈ s.stores := by
        have := hlow j hj
        simp only [zero_add] at ha
        rw [ha] at this
        rw [this]; exact List.getElem_mem _
      rw [hs]
      simp only [ha, ne_eq, not_true_eq_false, if_false, first_seen, hmem, if_true]
      exact ⟨⟨hc, hlow, hhigh⟩, trivial⟩
    · have hnot : e.mapping ∉ s.stores := by
        intro hmem
        obtain ⟨k, hk, hke⟩ := List.getElem_of_mem hmem
        have := ha k hk
        simp only [zero_add] at this
        apply this
        rw [hlow k hk, hke]
      rw [hs]
      simp only [zero_add]
      have hne : s.mappings_to_smr (s.stores.length : Int) ≠ e.mapping := by
        rw [hhigh _ (le_refl _)]; exact hfr _
      simp only [ne_eq, hne, not_false_eq_true, if_true, first_seen, hnot, if_false]
      refine ⟨⟨?_, ?_, ?_⟩, trivial⟩
      · simp
      · intro k hk
        simp only [List.length_append, List.length_singleton] at hk
        show Function.update s.mappings_to_smr (s.stores.length : Int) e.mapping (k : Int)
          = (s.stores ++ [e.mapping])[k]
        by_cases hkl : k < s.stores.length
        · rw [Function.update_noteq (by omega), hlow k hkl, List.getElem_append_left hkl]
        · have hke : k = s.stores.length := by omega
          subst hke
          simp
      · intro k hk
        simp only [List.length_append, List.length_singleton] at hk
        show Function.update s.mappings_to_smr (s.stores.length : Int) e.mapping (k : Int)
          = arr0 (k : Int)
        rw [Function.update_noteq (by omega)]
        exact hhigh k (by omega)
  · simp only [hsel, if_false, Bool.false_eq_true]
    exact ⟨⟨hc, hlow, hhigh⟩, trivial⟩

theorem first_seen_append (acc l1 l2 : List Nat) :
    first_seen acc (l1 ++ l2) = first_seen (first_seen acc l1) l2 := by
  induction l1 generalizing acc with
  | nil => rfl
  | cons m rest ih =>
    simp only [List.cons_append, first_seen]
    split <;> exact ih _

theorem smr_fold_inv (arr0 : Int → Nat) (iface : iface_t) (l : List iface_mappings_list)
    (s : smr_state) (hinv : smr_inv arr0 s)
    (hfresh : ∀ e ∈ l, smr_node_selected iface e = true → ∀ k : Nat, arr0 (k : Int) ≠ e.mapping) :
    smr_inv arr0 (l.foldl (smr_visit_node iface) s)
    ∧ (l.foldl (smr_visit_node iface) s).stores =
        first_seen s.stores ((l.filter (smr_node_selected iface)).map (fun e => e.mapping)) := by
  induction l generalizing s with
  | nil => exact ⟨hinv, rfl⟩
  | cons e rest ih =>
    obtain ⟨h1, h2⟩ := smr_visit_node_inv arr0 iface s e hinv (hfresh e (List.mem_cons_self _ _))
    obtain ⟨h3, h4⟩ := ih (smr_visit_node iface s e) h1
      (fun x hx => hfresh x (List.mem_cons_of_mem _ hx))
    refine ⟨h3, ?_⟩
    simp only [List.foldl_cons]
    rw [h4, h2]
    by_cases hsel : smr_node_selected iface e = true
    · simp only [hsel, if_true, List.filter_cons_of_pos, List.map_cons]
      rw [show (e.mapping :: List.map (fun e => e.mapping) (List.filter (smr_node_selected iface) rest))
          = [e.mapping] ++ List.map (fun e => e.mapping) (List.filter (smr_node_selected iface) rest) from rfl,
        first_seen_append]
    · simp only [hsel, if_false, Bool.false_eq_true]
      rw [List.filter_cons_of_neg hsel]

theorem smr_loop_inv (arr0 : Int → Nat) (ifaces : List iface_t) (s : smr_state)
    (hinv : smr_inv arr0 s)
    (hfresh : ∀ m ∈ smr_selected_mappings ifaces, ∀ k : Nat, arr0 (k : Int) ≠ m) :
    smr_inv arr0 (smr_loop ifaces s).2
    ∧ (smr_loop ifaces s).2.stores = first_seen s.stores (smr_selected_mappings ifaces) := by
  induction ifaces generalizing s with
  | nil => exact ⟨hinv, rfl⟩
  | cons i rest ih =>
    have hsplit : smr_selected_mappings (i :: rest)
        = (if smr_iface_changed i = true then
            (i.head_mappings_list.filter (smr_node_selected i)).map (fun e => e.mapping)
           else []) ++ smr_selected_mappings rest := by
      simp [smr_selected_mappings]
    have hvis : smr_inv arr0 (smr_visit_iface s i)
        ∧ (smr_visit_iface s i).stores = first_seen s.stores
            (if smr_iface_changed i = true then
              (i.head_mappings_list.filter (smr_node_selected i)).map (fun e => e.mapping)
             else []) := by
      unfold smr_visit_iface
      by_cases hch : smr_iface_changed i = true
      · simp only [hch, if_true]
        apply smr_fold_inv arr0 i _ s hinv
        intro e he hsel k
        apply hfresh
        rw [hsplit]
        simp only [hch, if_true]
        apply List.mem_append_left
        exact List.mem_map.mpr ⟨e, List.mem_filter.mpr ⟨he, hsel⟩, rfl⟩
      · simp only [hch, if_false, Bool.false_eq_true]
        exact ⟨hinv, rfl⟩
    obtain ⟨h1, h2⟩ := hvis
    obtain ⟨h3, h4⟩ := ih (smr_visit_iface s i) h1
      (fun m hm => hfresh m (by rw [hsplit]; exact List.mem_append_right _ hm))
    refine ⟨by simpa [smr_loop] using h3, ?_⟩
    simp only [smr_loop]
    rw [h4, h2, hsplit, first_seen_append]

theorem smr_result_of_inv (arr0 : Int → Nat) (s : smr_state) (hinv : smr_inv arr0 s) :
    smr_result s = s.stores := by
  obtain ⟨hc, hlow, _⟩ := hinv
  unfold smr_result
  rw [hc, Int.toNat_ofNat]
  apply List.ext_getElem
  · simp
  · intro k h1 h2
    simp only [List.getElem_map, List.getElem_range]
    exact hlow k h2

theorem smr_loop_ifaces (ifaces : List iface_t) (s : smr_state) :
    (smr_loop ifaces s).1 = ifaces.map smr_clear_flags := by
  induction ifaces generalizing s with
  | nil => rfl
  | cons i rest ih => simp [smr_loop, ih]

theorem emitted_self (s : State) : emitted s (.ok s) = [] := by
  simp [emitted]

theorem emitted_error (s : State) (f : Fault) : emitted s (.error f) = [] := rfl

theorem emitted_notify_two (env : Env) (s : State) (e1 e2 : Event) :
    emitted s (.ok (notify env (notify env s e1) e2)) = [e1, e2] := by
  simp [emitted, notify]

theorem emitted_notify_four (env : Env) (s : State) (e1 e2 e3 e4 : Event) :
    emitted s (.ok (notify env (notify env (notify env (notify env s e1) e2) e3) e4))
      = [e1, e2, e3, e4] := by
  simp [emitted, notify]

theorem pac_restricted (env : Env) (s : State) (iface : Nat) (new_addr : lisp_addr_t)
    (hset : env.default_rloc_afi ≠ AF_UNSPEC)
    (hd : lisp_addr_ip_afi new_addr ≠ env.default_rloc_afi) :
    emitted s (process_address_change env s iface new_addr) = [] := by
  unfold process_address_change
  cases hi : s.ifaces[iface]? with
  | none => simp [emitted]
  | some ifc =>
    cases ha : iface_address ifc (lisp_addr_ip_afi new_addr) with
    | none => simp [ha, emitted_self]
    | some a =>
      by_cases hll : env.ip_addr_is_link_local new_addr = true
      · simp [ha, hll, emitted_self]
      · have : env.default_rloc_afi ≠ lisp_addr_ip_afi new_addr := fun h => hd h.symm
        simp [ha, hll, hset, this, emitted_self]

theorem emitted_log_iface_name_return (env : Env) (s : State) (level : log_level)
    (iface : Option Nat) : emitted s (log_iface_name_return env s level iface) = [] := by
  unfold log_iface_name_return
  split
  · split
    · rfl
    · split
      · rfl
      · exact emitted_self s
  · exact emitted_self s

theorem get_interface_from_index_some (ifaces : List iface_t) (idx : Int) (p : Nat)
    (h : get_interface_from_index ifaces idx = some p) :
    ∃ ifc, ifaces[p]? = some ifc ∧ ifc.iface_index = idx := by
  induction ifaces generalizing p with
  | nil => simp [get_interface_from_index] at h
  | cons i rest ih =>
    unfold get_interface_from_index at h
    by_cases hi : i.iface_index = idx
    · simp only [hi, if_true, Option.some.injEq] at h
      subst h
      exact ⟨i, by simp, hi⟩
    · simp only [hi, if_false, Option.map_eq_some'] at h
      obtain ⟨q, hq, rfl⟩ := h
      obtain ⟨ifc, h1, h2⟩ := ih q hq
      exact ⟨ifc, by simpa using h1, h2⟩

theorem get_interface_some (ifaces : List iface_t) (name : String) (p : Nat)
    (h : get_interface ifaces name = some p) :
    ∃ ifc, ifaces[p]? = some ifc ∧ ifc.iface_name = name := by
  induction ifaces generalizing p with
  | nil => simp [get_interface] at h
  | cons i rest ih =>
    unfold get_interface at h
    by_cases hi : i.iface_name = name
    · simp only [hi, if_true, Option.some.injEq] at h
      subst h
      exact ⟨i, by simp, hi⟩
    · simp only [hi, if_false, Option.map_eq_some'] at h
      obtain ⟨q, hq, rfl⟩ := h
      obtain ⟨ifc, h1, h2⟩ := ih q hq
      exact ⟨ifc, by simpa using h1, h2⟩

theorem last_attr_isSome (t : Nat) (attrs : List rtattr) :
    (last_attr t attrs).isSome = true ↔ ∃ a ∈ attrs, a.rta_type = t := by
  induction attrs with
  | nil => simp [last_attr]
  | cons a rest ih =>
    unfold last_attr
    cases hl : last_attr t rest with
    | some d =>
      rw [hl] at ih
      have := ih.mp rfl
      obtain ⟨b, hb, hbt⟩ := this
      simp only [Option.isSome_some, true_iff]
      exact ⟨b, List.mem_cons_of_mem _ hb, hbt⟩
    | none =>
      rw [hl] at ih
      simp only [Option.isSome_none, Bool.false_eq_true, false_iff, not_exists, not_and] at ih
      by_cases ha : a.rta_type = t
      · simp [ha]
      · simp only [ha, if_false, Option.isSome_none, Bool.false_eq_true, false_iff, not_exists,
          not_and, List.mem_cons]
        rintro b (rfl | hb)
        · exact ha
        · exact ih b hb

theorem last_attr_of_filter_singleton (t : Nat) (attrs : List rtattr) (x : rtattr)
    (h : attrs.filter (fun a => decide (a.rta_type = t)) = [x]) :
    last_attr t attrs = some x.rta_data := by
  induction attrs with
  | nil => simp at h
  | cons a rest ih =>
    unfold last_attr
    by_cases ha : a.rta_type = t
    · rw [List.filter_cons_of_pos (by simpa using ha)] at h
      simp only [List.cons.injEq] at h
      obtain ⟨rfl, hrest⟩ := h
      have hnone : last_attr t rest = none := by
        cases hl : last_attr t rest with
        | none => rfl
        | some d =>
          have : (last_attr t rest).isSome = true := by simp [hl]
          obtain ⟨b, hb, hbt⟩ := (last_attr_isSome t rest).mp this
          have : b ∈ rest.filter (fun a => decide (a.rta_type = t)) :=
            List.mem_filter.mpr ⟨hb, by simpa using hbt⟩
          rw [hrest] at this
          simp at this
      simp [hnone, ha]
    · rw [List.filter_cons_of_neg (by simpa using ha)] at h
      simp [ih h]

/-- The attribute loop returns early exactly when an output-interface
attribute names an unregistered index. -/
theorem route_attrs_loop_none (ifaces : List iface_t) (rtm : rtmsg) (attrs : List rtattr)
    (v : route_vars) :
    route_attrs_loop ifaces rtm attrs v = none
      ↔ ∃ a ∈ attrs, a.rta_type = RTA_OIF ∧ get_interface_from_index ifaces (rta_int a) = none := by
  induction attrs generalizing v with
  | nil => simp [route_attrs_loop]
  | cons a rest ih =>
    unfold route_attrs_loop
    by_cases h1 : a.rta_type = RTA_OIF
    · simp only [h1, if_true]
      cases hl : get_interface_from_index ifaces (rta_int a) with
      | none =>
        simp only [true_iff]
        exact ⟨a, List.mem_cons_self _ _, h1, hl⟩
      | some p =>
        simp only [ih, List.mem_cons, exists_eq_or_imp, h1, hl, true_and]
        simp
    · simp only [h1, if_false]
      have hex : (∃ b ∈ a :: rest, b.rta_type = RTA_OIF
            ∧ get_interface_from_index ifaces (rta_int b) = none)
          ↔ ∃ b ∈ rest, b.rta_type = RTA_OIF
            ∧ get_interface_from_index ifaces (rta_int b) = none := by
        simp [h1]
      rw [hex]
      split_ifs <;> exact ih _

theorem last_attr_cons_of_ne (t : Nat) (a : rtattr) (rest : List rtattr)
    (h : a.rta_type ≠ t) : last_attr t (a :: rest) = last_attr t rest := by
  show (match last_attr t rest with
    | some d => some d
    | none => if a.rta_type = t then some a.rta_data else none) = last_attr t rest
  cases last_attr t rest <;> simp [h]

theorem last_attr_cons_of_eq (t : Nat) (a : rtattr) (rest : List rtattr)
    (h : a.rta_type = t) :
    last_attr t (a :: rest) = some ((last_attr t rest).getD a.rta_data) := by
  show (match last_attr t rest with
    | some d => some d
    | none => if a.rta_type = t then some a.rta_data else none) = _
  cases last_attr t rest <;> simp [h]

/-- The values the attribute loop leaves in the locals when it completes. -/
theorem route_attrs_loop_some (ifaces : List iface_t) (rtm : rtmsg) (attrs : List rtattr)
    (v w : route_vars) (h : route_attrs_loop ifaces rtm attrs v = some w) :
    w.iface = (match last_attr RTA_OIF attrs with
        | none => v.iface
        | some d => get_interface_from_index ifaces (rta_int { rta_type := RTA_OIF, rta_data := d }))
    ∧ w.gateway = (match last_attr RTA_GATEWAY attrs with
        | none => v.gateway
        | some d => { lafi := LM_AFI_IP, afi := rtm.rtm_family, addr := d, plen := v.gateway.plen })
    ∧ w.src = (match last_attr RTA_SRC attrs with
        | none => v.src
        | some d => { lafi := LM_AFI_IP, afi := rtm.rtm_family, addr := d, plen := rtm.rtm_src_len })
    ∧ w.dst = (match last_attr RTA_DST attrs with
        | none => v.dst
        | some d => { lafi := LM_AFI_IP, afi := rtm.rtm_family, addr := d, plen := rtm.rtm_dst_len }) := by
  induction attrs generalizing v with
  | nil =>
    simp only [route_attrs_loop, Option.some.injEq] at h
    subst h
    simp [last_attr]
  | cons a rest ih =>
    unfold route_attrs_loop at h
    by_cases h1 : a.rta_type = RTA_OIF
    · simp only [h1, if_true] at h
      have n2 : a.rta_type ≠ RTA_GATEWAY := by rw [h1]; decide
      have n3 : a.rta_type ≠ RTA_SRC := by rw [h1]; decide
      have n4 : a.rta_type ≠ RTA_DST := by rw [h1]; decide
      cases hl : get_interface_from_index ifaces (rta_int a) with
      | none => simp [hl] at h
      | some p =>
        simp only [hl] at h
        obtain ⟨i1, i2, i3, i4⟩ := ih _ h
        have hra : rta_int { rta_type := RTA_OIF, rta_data := a.rta_data } = rta_int a := rfl
        rw [last_attr_cons_of_eq _ _ _ h1, last_attr_cons_of_ne _ _ _ n2,
          last_attr_cons_of_ne _ _ _ n3, last_attr_cons_of_ne _ _ _ n4]
        refine ⟨?_, i2, i3, i4⟩
        rw [i1]
        cases last_attr RTA_OIF rest <;> simp [hra, hl]
    · simp only [h1, if_false] at h
      by_cases h2 : a.rta_type = RTA_GATEWAY
      · simp only [h2, if_true] at h
        have n3 : a.rta_type ≠ RTA_SRC := by rw [h2]; decide
        have n4 : a.rta_type ≠ RTA_DST := by rw [h2]; decide
        obtain ⟨i1, i2, i3, i4⟩ := ih _ h
        rw [last_attr_cons_of_ne _ _ _ h1, last_attr_cons_of_eq _ _ _ h2,
          last_attr_cons_of_ne _ _ _ n3, last_attr_cons_of_ne _ _ _ n4]
        refine ⟨i1, ?_, i3, i4⟩
        rw [i2]
        cases last_attr RTA_GATEWAY rest <;> simp [lisp_addr_ip_init]
      · simp only [h2, if_false] at h
        by_cases h3 : a.rta_type = RTA_SRC
        · simp only [h3, if_true] at h
          have n4 : a.rta_type ≠ RTA_DST := by rw [h3]; decide
          obtain ⟨i1, i2, i3, i4⟩ := ih _ h
          rw [last_attr_cons_of_ne _ _ _ h1, last_attr_cons_of_ne _ _ _ h2,
            last_attr_cons_of_eq _ _ _ h3, last_attr_cons_of_ne _ _ _ n4]
          refine ⟨i1, i2, ?_, i4⟩
          rw [i3]
          cases last_attr RTA_SRC rest <;> simp [lisp_addr_ip_init, lisp_addr_set_plen]
        · simp only [h3, if_false] at h
          by_cases h4 : a.rta_type = RTA_DST
          · simp only [h4, if_true] at h
            obtain ⟨i1, i2, i3, i4⟩ := ih _ h
            rw [last_attr_cons_of_ne _ _ _ h1, last_attr_cons_of_ne _ _ _ h2,
              last_attr_cons_of_ne _ _ _ h3, last_attr_cons_of_eq _ _ _ h4]
            refine ⟨i1, i2, i3, ?_⟩
            rw [i4]
            cases last_attr RTA_DST rest <;> simp [lisp_addr_ip_init, lisp_addr_set_plen]
          · simp only [h4, if_false] at h
            obtain ⟨i1, i2, i3, i4⟩ := ih _ h
            rw [last_attr_cons_of_ne _ _ _ h1, last_attr_cons_of_ne _ _ _ h2,
              last_attr_cons_of_ne _ _ _ h3, last_attr_cons_of_ne _ _ _ h4]
            exact ⟨i1, i2, i3, i4⟩

theorem route_attrs_loop_init (ifaces : List iface_t) (rtm : rtmsg) (attrs : List rtattr)
    (w : route_vars) (h : route_attrs_loop ifaces rtm attrs route_vars_init = some w) :
    w.iface = (last_attr RTA_OIF attrs).bind
        (fun d => get_interface_from_index ifaces (rta_int { rta_type := RTA_OIF, rta_data := d }))
    ∧ w.gateway = route_addr rtm.rtm_family 0 (last_attr RTA_GATEWAY attrs)
    ∧ w.src = route_addr rtm.rtm_family rtm.rtm_src_len (last_attr RTA_SRC attrs)
    ∧ w.dst = route_addr rtm.rtm_family rtm.rtm_dst_len (last_attr RTA_DST attrs) := by
  obtain ⟨i1, i2, i3, i4⟩ := route_attrs_loop_some ifaces rtm attrs _ w h
  refine ⟨?_, ?_, ?_, ?_⟩
  · rw [i1]; cases last_attr RTA_OIF attrs <;> rfl
  · rw [i2]; cases last_attr RTA_GATEWAY attrs <;> rfl
  · rw [i3]; cases last_attr RTA_SRC attrs <;> rfl
  · rw [i4]; cases last_attr RTA_DST attrs <;> rfl

theorem default_afi_mismatch_route_addr (env : Env) (family : Int) (plen : Nat) (o : Option Nat)
    (hf : family = AF_INET ∨ family = AF_INET6) :
    default_afi_mismatch env (route_addr family plen o) = true
      ↔ o.isSome = true ∧ env.default_rloc_afi ≠ AF_UNSPEC ∧ env.default_rloc_afi ≠ family := by
  cases o with
  | none => simp [default_afi_mismatch, route_addr, lisp_addr_local_init, lisp_addr_ip_afi, LM_AFI_NO_ADDR]
  | some d =>
    have : family ≠ LM_AFI_NO_ADDR := by
      rcases hf with h | h <;> rw [h] <;> decide
    simp [default_afi_mismatch, route_addr, lisp_addr_ip_afi, this]

/-- What the attribute loop yields on a message with exactly one
output-interface attribute. -/
theorem route_attrs_loop_one_oif (ifaces : List iface_t) (rtm : rtmsg) (attrs : List rtattr)
    (oif : rtattr) (hoif : attrs.filter (fun a => decide (a.rta_type = RTA_OIF)) = [oif]) :
    route_attrs_loop ifaces rtm attrs route_vars_init =
      (get_interface_from_index ifaces (rta_int oif)).map (fun p =>
        { iface := some p
          gateway := route_addr rtm.rtm_family 0 (last_attr RTA_GATEWAY attrs)
          src := route_addr rtm.rtm_family rtm.rtm_src_len (last_attr RTA_SRC attrs)
          dst := route_addr rtm.rtm_family rtm.rtm_dst_len (last_attr RTA_DST attrs) }) := by
  have hmem : oif ∈ attrs ∧ oif.rta_type = RTA_OIF := by
    have : oif ∈ attrs.filter (fun a => decide (a.rta_type = RTA_OIF)) := by rw [hoif]; simp
    simpa using List.mem_filter.mp this
  cases hl : route_attrs_loop ifaces rtm attrs route_vars_init with
  | none =>
    obtain ⟨a, ha, hat, hnone⟩ := (route_attrs_loop_none _ _ _ _).mp hl
    have : a ∈ attrs.filter (fun a => decide (a.rta_type = RTA_OIF)) :=
      List.mem_filter.mpr ⟨ha, by simpa using hat⟩
    rw [hoif] at this
    simp only [List.mem_singleton] at this
    subst this
    simp [hnone]
  | some w =>
    obtain ⟨i1, i2, i3, i4⟩ := route_attrs_loop_init _ _ _ _ hl
    rw [last_attr_of_filter_singleton _ _ _ hoif] at i1
    have hra : rta_int { rta_type := RTA_OIF, rta_data := oif.rta_data } = rta_int oif := rfl
    simp only [Option.some_bind, hra] at i1
    cases hp : get_interface_from_index ifaces (rta_int oif) with
    | none =>
      exfalso
      have := (route_attrs_loop_none ifaces rtm attrs route_vars_init).mpr
        ⟨oif, hmem.1, hmem.2, hp⟩
      rw [hl] at this
      exact Option.noConfusion this
    | some p =>
      rw [hp] at i1
      simp only [Option.map_some', Option.some.injEq]
      cases w
      simp only at i1 i2 i3 i4
      simp [i1, i2, i3, i4]

theorem family_ok_of_not (x : Int) (hf : ¬(x ≠ AF_INET ∧ x ≠ AF_INET6)) :
    x = AF_INET ∨ x = AF_INET6 := by
  by_cases h : x = AF_INET
  · exact Or.inl h
  · right; by_contra h2; exact hf ⟨h, h2⟩

theorem new_route_accepted (env : Env) (s : State) (rtm : rtmsg) (attrs : List rtattr)
    (oif : rtattr) (p : Nat) (ifc : iface_t)
    (hoif : attrs.filter (fun a => decide (a.rta_type = RTA_OIF)) = [oif])
    (hp : get_interface_from_index s.ifaces (rta_int oif) = some p)
    (hifc : s.ifaces[p]? = some ifc)
    (ht : rtm.rtm_table = RT_TABLE_MAIN)
    (hf : rtm.rtm_family = AF_INET ∨ rtm.rtm_family = AF_INET6)
    (hr : ∀ a ∈ attrs, (a.rta_type = RTA_SRC ∨ a.rta_type = RTA_DST ∨ a.rta_type = RTA_GATEWAY) →
      (env.default_rloc_afi = AF_UNSPEC ∨ env.default_rloc_afi = rtm.rtm_family))
    (hcfg : (iface_address ifc rtm.rtm_family).isSome = true) :
    (emitted s (process_nl_new_unicast_route env s rtm attrs)).filter Event.is_route =
      [Event.datap_updated_route RTM_NEWROUTE p
          (route_addr rtm.rtm_family rtm.rtm_src_len (last_attr RTA_SRC attrs))
          (route_addr rtm.rtm_family rtm.rtm_dst_len (last_attr RTA_DST attrs))
          (route_addr rtm.rtm_family 0 (last_attr RTA_GATEWAY attrs)),
       Event.ctrl_route_update RTM_NEWROUTE p
          (route_addr rtm.rtm_family rtm.rtm_src_len (last_attr RTA_SRC attrs))
          (route_addr rtm.rtm_family rtm.rtm_dst_len (last_attr RTA_DST attrs))
          (route_addr rtm.rtm_family 0 (last_attr RTA_GATEWAY attrs))] := by
  have hnf : ¬(rtm.rtm_family ≠ AF_INET ∧ rtm.rtm_family ≠ AF_INET6) := by
    rintro ⟨h1, h2⟩; rcases hf with h | h
    · exact h1 h
    · exact h2 h
  have hm : ∀ (t : Nat) (pl : Nat), (t = RTA_SRC ∨ t = RTA_DST ∨ t = RTA_GATEWAY) →
      ¬ default_afi_mismatch env (route_addr rtm.rtm_family pl (last_attr t attrs)) = true := by
    intro t pl htt hmm
    rw [default_afi_mismatch_route_addr _ _ _ _ hf] at hmm
    obtain ⟨h1, h2, h3⟩ := hmm
    obtain ⟨a, ha, hat⟩ := (last_attr_isSome _ _).mp h1
    rcases hr a ha (by rw [hat]; exact htt) with h | h
    · exact h2 h
    · exact h3 h
  obtain ⟨addr, haddr⟩ := Option.isSome_iff_exists.mp hcfg
  unfold process_nl_new_unicast_route
  rw [if_neg (by simpa using ht), if_neg hnf, route_attrs_loop_one_oif _ _ _ _ hoif, hp]
  simp only [Option.map_some']
  rw [if_neg (hm RTA_SRC _ (Or.inl rfl)), if_neg (hm RTA_DST _ (Or.inr (Or.inl rfl))),
    if_neg (hm RTA_GATEWAY _ (Or.inr (Or.inr rfl)))]
  simp only [hifc, haddr]
  split_ifs
  · rw [emitted_notify_two]; simp [Event.is_route]
  · rw [emitted_notify_four]; simp [Event.is_route]
  · rw [emitted_notify_two]; simp [Event.is_route]

theorem del_route_accepted (env : Env) (s : State) (rtm : rtmsg) (attrs : List rtattr)
    (oif : rtattr) (p : Nat) (ifc : iface_t)
    (hoif : attrs.filter (fun a => decide (a.rta_type = RTA_OIF)) = [oif])
    (hp : get_interface_from_index s.ifaces (rta_int oif) = some p)
    (hifc : s.ifaces[p]? = some ifc)
    (ht : rtm.rtm_table = RT_TABLE_MAIN)
    (hf : rtm.rtm_family = AF_INET ∨ rtm.rtm_family = AF_INET6)
    (hr : ∀ a ∈ attrs, (a.rta_type = RTA_SRC ∨ a.rta_type = RTA_DST ∨ a.rta_type = RTA_GATEWAY) →
      (env.default_rloc_afi = AF_UNSPEC ∨ env.default_rloc_afi = rtm.rtm_family))
    (hcfg : (iface_address ifc rtm.rtm_family).isSome = true) :
    emitted s (process_nl_del_unicast_route env s rtm attrs) =
      [Event.datap_updated_route RTM_DELROUTE p
          (route_addr rtm.rtm_family rtm.rtm_src_len (last_attr RTA_SRC attrs))
          (route_addr rtm.rtm_family rtm.rtm_dst_len (last_attr RTA_DST attrs))
          (route_addr rtm.rtm_family 0 (last_attr RTA_GATEWAY attrs)),
       Event.ctrl_route_update RTM_DELROUTE p
          (route_addr rtm.rtm_family rtm.rtm_src_len (last_attr RTA_SRC attrs))
          (route_addr rtm.rtm_family rtm.rtm_dst_len (last_attr RTA_DST attrs))
          (route_addr rtm.rtm_family 0 (last_attr RTA_GATEWAY attrs))] := by
  have hnf : ¬(rtm.rtm_family ≠ AF_INET ∧ rtm.rtm_family ≠ AF_INET6) := by
    rintro ⟨h1, h2⟩; rcases hf with h | h
    · exact h1 h
    · exact h2 h
  have hm : ∀ (t : Nat) (pl : Nat), (t = RTA_SRC ∨ t = RTA_DST ∨ t = RTA_GATEWAY) →
      ¬ default_afi_mismatch env (route_addr rtm.rtm_family pl (last_attr t attrs)) = true := by
    intro t pl htt hmm
    rw [default_afi_mismatch_route_addr _ _ _ _ hf] at hmm
    obtain ⟨h1, h2, h3⟩ := hmm
    obtain ⟨a, ha, hat⟩ := (last_attr_isSome _ _).mp h1
    rcases hr a ha (by rw [hat]; exact htt) with h | h
    · exact h2 h
    · exact h3 h
  obtain ⟨addr, haddr⟩ := Option.isSome_iff_exists.mp hcfg
  unfold process_nl_del_unicast_route
  rw [if_neg (by simpa using ht), if_neg hnf, route_attrs_loop_one_oif _ _ _ _ hoif, hp]
  simp only [Option.map_some']
  rw [if_neg (hm RTA_SRC _ (Or.inl rfl)), if_neg (hm RTA_DST _ (Or.inr (Or.inl rfl))),
    if_neg (hm RTA_GATEWAY _ (Or.inr (Or.inr rfl)))]
  simp only [hifc, haddr]
  rw [emitted_notify_two]

/-- When a check of the route handlers fails, nothing is raised. -/
theorem new_route_rejected (env : Env) (s : State) (rtm : rtmsg) (attrs : List rtattr)
    (oif : rtattr)
    (hoif : attrs.filter (fun a => decide (a.rta_type = RTA_OIF)) = [oif])
    (hrej : ¬(rtm.rtm_table = RT_TABLE_MAIN
      ∧ (rtm.rtm_family = AF_INET ∨ rtm.rtm_family = AF_INET6)
      ∧ (∀ a ∈ attrs, (a.rta_type = RTA_SRC ∨ a.rta_type = RTA_DST ∨ a.rta_type = RTA_GATEWAY) →
          (env.default_rloc_afi = AF_UNSPEC ∨ env.default_rloc_afi = rtm.rtm_family))
      ∧ ∃ p ifc, get_interface_from_index s.ifaces (rta_int oif) = some p
          ∧ s.ifaces[p]? = some ifc ∧ (iface_address ifc rtm.rtm_family).isSome = true)) :
    emitted s (process_nl_new_unicast_route env s rtm attrs) = [] := by
  unfold process_nl_new_unicast_route
  by_cases ht : rtm.rtm_table ≠ RT_TABLE_MAIN
  · rw [if_pos ht]; exact emitted_self s
  · by_cases hf : rtm.rtm_family ≠ AF_INET ∧ rtm.rtm_family ≠ AF_INET6
    · rw [if_neg ht, if_pos hf]; exact emitted_self s
    · have hf2 := family_ok_of_not _ hf
      rw [if_neg ht, if_neg hf, route_attrs_loop_one_oif _ _ _ _ hoif]
      cases hp : get_interface_from_index s.ifaces (rta_int oif) with
      | none => exact emitted_self s
      | some p =>
        simp only [Option.map_some']
        by_cases m1 : default_afi_mismatch env
            (route_addr rtm.rtm_family rtm.rtm_src_len (last_attr RTA_SRC attrs)) = true
        · rw [if_pos m1]; exact emitted_log_iface_name_return _ _ _ _
        · by_cases m2 : default_afi_mismatch env
              (route_addr rtm.rtm_family rtm.rtm_dst_len (last_attr RTA_DST attrs)) = true
          · rw [if_neg m1, if_pos m2]; exact emitted_log_iface_name_return _ _ _ _
          · by_cases m3 : default_afi_mismatch env
                (route_addr rtm.rtm_family 0 (last_attr RTA_GATEWAY attrs)) = true
            · rw [if_neg m1, if_neg m2, if_pos m3]; exact emitted_log_iface_name_return _ _ _ _
            · rw [if_neg m1, if_neg m2, if_neg m3]
              obtain ⟨ifc, hifc, _⟩ := get_interface_from_index_some _ _ _ hp
              simp only [hifc]
              cases ha : iface_address ifc rtm.rtm_family with
              | none => exact emitted_self s
              | some addr =>
                exfalso
                apply hrej
                refine ⟨by simpa using ht, hf2, ?_, p, ifc, hp, hifc, by simp [ha]⟩
                intro a hmem hty
                by_contra hcon
                have hcon2 : env.default_rloc_afi ≠ AF_UNSPEC ∧ env.default_rloc_afi ≠ rtm.rtm_family := by
                  constructor
                  · intro h; exact hcon (Or.inl h)
                  · intro h; exact hcon (Or.inr h)
                rw [default_afi_mismatch_route_addr _ _ _ _ hf2] at m1 m2 m3
                rcases hty with h | h | h
                · exact m1 ⟨(last_attr_isSome _ _).mpr ⟨a, hmem, h⟩, hcon2⟩
                · exact m2 ⟨(last_attr_isSome _ _).mpr ⟨a, hmem, h⟩, hcon2⟩
                · exact m3 ⟨(last_attr_isSome _ _).mpr ⟨a, hmem, h⟩, hcon2⟩

theorem del_route_rejected (env : Env) (s : State) (rtm : rtmsg) (attrs : List rtattr)
    (oif : rtattr)
    (hoif : attrs.filter (fun a => decide (a.rta_type = RTA_OIF)) = [oif])
    (hrej : ¬(rtm.rtm_table = RT_TABLE_MAIN
      ∧ (rtm.rtm_family = AF_INET ∨ rtm.rtm_family = AF_INET6)
      ∧ (∀ a ∈ attrs, (a.rta_type = RTA_SRC ∨ a.rta_type = RTA_DST ∨ a.rta_type = RTA_GATEWAY) →
          (env.default_rloc_afi = AF_UNSPEC ∨ env.default_rloc_afi = rtm.rtm_family))
      ∧ ∃ p ifc, get_interface_from_index s.ifaces (rta_int oif) = some p
          ∧ s.ifaces[p]? = some ifc ∧ (iface_address ifc rtm.rtm_family).isSome = true)) :
    emitted s (process_nl_del_unicast_route env s rtm attrs) = [] := by
  unfold process_nl_del_unicast_route
  by_cases ht : rtm.rtm_table ≠ RT_TABLE_MAIN
  · rw [if_pos ht]; exact emitted_self s
  · by_cases hf : rtm.rtm_family ≠ AF_INET ∧ rtm.rtm_family ≠ AF_INET6
    · rw [if_neg ht, if_pos hf]; exact emitted_self s
    · have hf2 := family_ok_of_not _ hf
      rw [if_neg ht, if_neg hf, route_attrs_loop_one_oif _ _ _ _ hoif]
      cases hp : get_interface_from_index s.ifaces (rta_int oif) with
      | none => exact emitted_self s
      | some p =>
        simp only [Option.map_some']
        by_cases m1 : default_afi_mismatch env
            (route_addr rtm.rtm_family rtm.rtm_src_len (last_attr RTA_SRC attrs)) = true
        · rw [if_pos m1]; exact emitted_log_iface_name_return _ _ _ _
        · by_cases m2 : default_afi_mismatch env
              (route_addr rtm.rtm_family rtm.rtm_dst_len (last_attr RTA_DST attrs)) = true
          · rw [if_neg m1, if_pos m2]; exact emitted_log_iface_name_return _ _ _ _
          · by_cases m3 : default_afi_mismatch env
                (route_addr rtm.rtm_family 0 (last_attr RTA_GATEWAY attrs)) = true
            · rw [if_neg m1, if_neg m2, if_pos m3]; exact emitted_log_iface_name_return _ _ _ _
            · rw [if_neg m1, if_neg m2, if_neg m3]
              obtain ⟨ifc, hifc, _⟩ := get_interface_from_index_some _ _ _ hp
              simp only [hifc]
              cases ha : iface_address ifc rtm.rtm_family with
              | none => exact emitted_self s
              | some addr =>
                exfalso
                apply hrej
                refine ⟨by simpa using ht, hf2, ?_, p, ifc, hp, hifc, by simp [ha]⟩
                intro a hmem hty
                by_contra hcon
                have hcon2 : env.default_rloc_afi ≠ AF_UNSPEC ∧ env.default_rloc_afi ≠ rtm.rtm_family := by
                  constructor
                  · intro h; exact hcon (Or.inl h)
                  · intro h; exact hcon (Or.inr h)
                rw [default_afi_mismatch_route_addr _ _ _ _ hf2] at m1 m2 m3
                rcases hty with h | h | h
                · exact m1 ⟨(last_attr_isSome _ _).mpr ⟨a, hmem, h⟩, hcon2⟩
                · exact m2 ⟨(last_attr_isSome _ _).mpr ⟨a, hmem, h⟩, hcon2⟩
                · exact m3 ⟨(last_attr_isSome _ _).mpr ⟨a, hmem, h⟩, hcon2⟩

/-- With the restriction set to another family, a route message with a source,
destination or gateway attribute raises nothing. -/
theorem new_route_restricted (env : Env) (s : State) (rtm : rtmsg) (attrs : List rtattr)
    (hset : env.default_rloc_afi ≠ AF_UNSPEC) (hd : rtm.rtm_family ≠ env.default_rloc_afi)
    (hattr : ∃ a ∈ attrs, a.rta_type = RTA_SRC ∨ a.rta_type = RTA_DST ∨ a.rta_type = RTA_GATEWAY) :
    emitted s (process_nl_new_unicast_route env s rtm attrs) = [] := by
  unfold process_nl_new_unicast_route
  by_cases ht : rtm.rtm_table ≠ RT_TABLE_MAIN
  · simp [ht, emitted_self]
  · by_cases hf : rtm.rtm_family ≠ AF_INET ∧ rtm.rtm_family ≠ AF_INET6
    · rw [if_neg ht, if_pos hf]; exact emitted_self s
    · have hf2 : rtm.rtm_family = AF_INET ∨ rtm.rtm_family = AF_INET6 := by
        by_cases h : rtm.rtm_family = AF_INET
        · exact Or.inl h
        · right; by_contra h2; exact hf ⟨h, h2⟩
      rw [if_neg ht, if_neg hf]
      cases hl : route_attrs_loop s.ifaces rtm attrs route_vars_init with
      | none => exact emitted_self s
      | some w =>
        obtain ⟨_, i2, i3, i4⟩ := route_attrs_loop_init _ _ _ _ hl
        have hd2 : env.default_rloc_afi ≠ rtm.rtm_family := fun h => hd h.symm
        simp only
        by_cases m1 : default_afi_mismatch env w.src = true
        · simp only [m1, if_true]; exact emitted_log_iface_name_return _ _ _ _
        · by_cases m2 : default_afi_mismatch env w.dst = true
          · simp only [m1, m2, if_true, if_false]; exact emitted_log_iface_name_return _ _ _ _
          · by_cases m3 : default_afi_mismatch env w.gateway = true
            · simp only [m1, m2, m3, if_true, if_false]
              exact emitted_log_iface_name_return _ _ _ _
            · exfalso
              rw [i3, default_afi_mismatch_route_addr _ _ _ _ hf2] at m1
              rw [i4, default_afi_mismatch_route_addr _ _ _ _ hf2] at m2
              rw [i2, default_afi_mismatch_route_addr _ _ _ _ hf2] at m3
              obtain ⟨a, ha, h | h | h⟩ := hattr
              · exact m1 ⟨(last_attr_isSome _ _).mpr ⟨a, ha, h⟩, hset, hd2⟩
              · exact m2 ⟨(last_attr_isSome _ _).mpr ⟨a, ha, h⟩, hset, hd2⟩
              · exact m3 ⟨(last_attr_isSome _ _).mpr ⟨a, ha, h⟩, hset, hd2⟩

theorem del_route_restricted (env : Env) (s : State) (rtm : rtmsg) (attrs : List rtattr)
    (hset : env.default_rloc_afi ≠ AF_UNSPEC) (hd : rtm.rtm_family ≠ env.default_rloc_afi)
    (hattr : ∃ a ∈ attrs, a.rta_type = RTA_SRC ∨ a.rta_type = RTA_DST ∨ a.rta_type = RTA_GATEWAY) :
    emitted s (process_nl_del_unicast_route env s rtm attrs) = [] := by
  unfold process_nl_del_unicast_route
  by_cases ht : rtm.rtm_table ≠ RT_TABLE_MAIN
  · simp [ht, emitted_self]
  · by_cases hf : rtm.rtm_family ≠ AF_INET ∧ rtm.rtm_family ≠ AF_INET6
    · rw [if_neg ht, if_pos hf]; exact emitted_self s
    · have hf2 : rtm.rtm_family = AF_INET ∨ rtm.rtm_family = AF_INET6 := by
        by_cases h : rtm.rtm_family = AF_INET
        · exact Or.inl h
        · right; by_contra h2; exact hf ⟨h, h2⟩
      rw [if_neg ht, if_neg hf]
      cases hl : route_attrs_loop s.ifaces rtm attrs route_vars_init with
      | none => exact emitted_self s
      | some w =>
        obtain ⟨_, i2, i3, i4⟩ := route_attrs_loop_init _ _ _ _ hl
        have hd2 : env.default_rloc_afi ≠ rtm.rtm_family := fun h => hd h.symm
        simp only
        by_cases m1 : default_afi_mismatch env w.src = true
        · simp only [m1, if_true]; exact emitted_log_iface_name_return _ _ _ _
        · by_cases m2 : default_afi_mismatch env w.dst = true
          · simp only [m1, m2, if_true, if_false]; exact emitted_log_iface_name_return _ _ _ _
          · by_cases m3 : default_afi_mismatch env w.gateway = true
            · simp only [m1, m2, m3, if_true, if_false]
              exact emitted_log_iface_name_return _ _ _ _
            · exfalso
              rw [i3, default_afi_mismatch_route_addr _ _ _ _ hf2] at m1
              rw [i4, default_afi_mismatch_route_addr _ _ _ _ hf2] at m2
              rw [i2, default_afi_mismatch_route_addr _ _ _ _ hf2] at m3
              obtain ⟨a, ha, h | h | h⟩ := hattr
              · exact m1 ⟨(last_attr_isSome _ _).mpr ⟨a, ha, h⟩, hset, hd2⟩
              · exact m2 ⟨(last_attr_isSome _ _).mpr ⟨a, ha, h⟩, hset, hd2⟩
              · exact m3 ⟨(last_attr_isSome _ _).mpr ⟨a, ha, h⟩, hset, hd2⟩

theorem get_interface_from_index_set (ifaces : List iface_t) (idx : Int) (p : Nat)
    (ifc x : iface_t) (hifc : ifaces[p]? = some ifc) (hx : x.iface_index = ifc.iface_index) :
    get_interface_from_index (ifaces.set p x) idx = get_interface_from_index ifaces idx := by
  induction ifaces generalizing p with
  | nil => simp
  | cons i rest ih =>
    cases p with
    | zero =>
      simp only [List.getElem?_cons_zero, Option.some.injEq] at hifc
      subst hifc
      simp [get_interface_from_index, hx]
    | succ q =>
      simp only [List.getElem?_cons_succ] at hifc
      simp [get_interface_from_index, ih q hifc]

theorem get_interface_set (ifaces : List iface_t) (name : String) (p : Nat)
    (ifc x : iface_t) (hifc : ifaces[p]? = some ifc) (hx : x.iface_name = ifc.iface_name) :
    get_interface (ifaces.set p x) name = get_interface ifaces name := by
  induction ifaces generalizing p with
  | nil => simp
  | cons i rest ih =>
    cases p with
    | zero =>
      simp only [List.getElem?_cons_zero, Option.some.injEq] at hifc
      subst hifc
      simp [get_interface, hx]
    | succ q =>
      simp only [List.getElem?_cons_succ] at hifc
      simp [get_interface, ih q hifc]

theorem link_lookup_set (env : Env) (ifaces : List iface_t) (idx : Int) (p : Nat)
    (ifc x : iface_t) (hifc : ifaces[p]? = some ifc) (hx : x.iface_index = ifc.iface_index)
    (hn : x.iface_name = ifc.iface_name) :
    link_lookup env (ifaces.set p x) idx = link_lookup env ifaces idx := by
  unfold link_lookup
  rw [get_interface_from_index_set _ _ _ _ _ hifc hx]
  cases get_interface_from_index ifaces idx with
  | some q => rfl
  | none =>
    simp only
    cases env.if_indextoname idx with
    | none => rfl
    | some name =>
      simp only
      rw [get_interface_set _ _ _ _ _ hifc hn]

/-- An accepted link change: both notifiers are called once. -/
theorem process_nl_new_link_changed (env : Env) (s : State) (ifi : ifinfomsg) (p : Nat)
    (o : Option Int) (ifc : iface_t)
    (hl : link_lookup env s.ifaces ifi.ifi_index = some (p, o))
    (hifc : s.ifaces[p]? = some ifc)
    (hst : ifc.status ≠ link_new_status ifi) :
    process_nl_new_link env s ifi = .ok
      (notify env
        (notify env s (.datap_update_link p (o.getD ifc.iface_index) ifi.ifi_index
          (link_new_status ifi)))
        (.ctrl_if_link_update p (o.getD ifc.iface_index) ifi.ifi_index (link_new_status ifi))) := by
  unfold process_nl_new_link
  simp only [hl, hifc, hst, if_false]

/-- A link notification that carries the stored status returns at line 331. -/
theorem process_nl_new_link_unchanged (env : Env) (s : State) (ifi : ifinfomsg) (p : Nat)
    (o : Option Int) (ifc : iface_t)
    (hl : link_lookup env s.ifaces ifi.ifi_index = some (p, o))
    (hifc : s.ifaces[p]? = some ifc)
    (hst : ifc.status = link_new_status ifi) :
    process_nl_new_link env s ifi = .ok s := by
  unfold process_nl_new_link
  simp only [hl, hifc, hst, if_true]

/-! ## Claims on `ctrl_get_mappings_to_smr` -/

/-- The counter reported is the value the local held on entry plus the number
of stores made. -/
theorem smr_count_from_entry_value (ifaces : List iface_t) (arr : Int → Nat) (c : Int) :
    (ctrl_get_mappings_to_smr ifaces arr c).2.mappings_ctr
      = c + ((ctrl_get_mappings_to_smr ifaces arr c).2.stores.length : Int) := by
  have hnode : ∀ (i : iface_t) (s : smr_state) (e : iface_mappings_list) (d : Int),
      s.mappings_ctr = d + (s.stores.length : Int) →
      (smr_visit_node i s e).mappings_ctr = d + ((smr_visit_node i s e).stores.length : Int) := by
    intro i s e d h
    unfold smr_visit_node
    by_cases hsel : smr_node_selected i e = true
    · rw [if_pos hsel]
      by_cases hne : s.mappings_to_smr
          (smr_search s.mappings_to_smr e.mapping 0 s.mappings_ctr.toNat) ≠ e.mapping
      · simp only [hne, if_true, ne_eq, not_false_eq_true, List.length_append,
          List.length_singleton, Nat.cast_add, Nat.cast_one]
        rw [h]; ring
      · simp only [hne, if_false]
        exact h
    · rw [if_neg hsel]
      exact h
  have hfold : ∀ (i : iface_t) (l : List iface_mappings_list) (s : smr_state) (d : Int),
      s.mappings_ctr = d + (s.stores.length : Int) →
      (l.foldl (smr_visit_node i) s).mappings_ctr
        = d + ((l.foldl (smr_visit_node i) s).stores.length : Int) := by
    intro i l
    induction l with
    | nil => intro s d h; exact h
    | cons e rest ih => intro s d h; exact ih _ d (hnode i s e d h)
  have hloop : ∀ (l : List iface_t) (s : smr_state) (d : Int),
      s.mappings_ctr = d + (s.stores.length : Int) →
      (smr_loop l s).2.mappings_ctr = d + ((smr_loop l s).2.stores.length : Int) := by
    intro l
    induction l with
    | nil => intro s d h; exact h
    | cons i rest ih =>
      intro s d h
      apply ih
      unfold smr_visit_iface
      split_ifs
      · exact hfold i _ s d h
      · exact h
  exact hloop ifaces _ c (by simp)

/-- Claim C1, evaluated where the code departs from it. The local counter is
never initialised. With one changed interface holding the single mapping 7, an
array of NULL slots, and the value 1 left in the counter, one mapping is stored
and the count reported is 2. With a negative value left in the counter and two
changed interfaces that share mapping 7, the mapping is stored twice. -/
theorem ctrl_get_mappings_to_smr_count_uninitialised :
    (ctrl_get_mappings_to_smr [smr_iface_status] smr_empty_array 1).2.stores = [7]
    ∧ (ctrl_get_mappings_to_smr [smr_iface_status] smr_empty_array 1).2.mappings_ctr = 2
    ∧ (ctrl_get_mappings_to_smr [smr_iface_status, smr_iface_v4] smr_empty_array (-5)).2.stores
        = [7, 7] := by
  decide

/-- Claim C2. After `ctrl_get_mappings_to_smr` the interface list has the same
interfaces in the same places, each with `status_changed`, `ipv4_changed` and
`ipv6_changed` false and every other field as before, whatever the flags, the
mapping lists, the array and the counter were. -/
theorem ctrl_get_mappings_to_smr_clears_flags (ifaces : List iface_t)
    (mappings_to_smr : Int → Nat) (mappings_ctr : Int) :
    (ctrl_get_mappings_to_smr ifaces mappings_to_smr mappings_ctr).1.length = ifaces.length
    ∧ ∀ (k : Nat) (i : iface_t), ifaces[k]? = some i →
        (ctrl_get_mappings_to_smr ifaces mappings_to_smr mappings_ctr).1[k]? =
          some { i with status_changed := false, ipv4_changed := false,
                        ipv6_changed := false } := by
  unfold ctrl_get_mappings_to_smr
  rw [smr_loop_ifaces]
  refine ⟨by simp, ?_⟩
  intro k i h
  simp [List.getElem?_map, h, smr_clear_flags]

/-- Claim C3 fails as stated. The interface `smr_iface_v4` has only its IPv4
flag set; mapping 9 is on its list but does not use the IPv4 address, so it is
not collected: the result is [7], not the duplicate-free list [7, 9] of all
mappings of the changed interface. -/
theorem ctrl_get_mappings_to_smr_skips_unselected :
    smr_iface_changed smr_iface_v4 = true
    ∧ 9 ∈ smr_iface_v4.head_mappings_list.map (fun e => e.mapping)
    ∧ 9 ∉ smr_result (ctrl_get_mappings_to_smr [smr_iface_v4] smr_empty_array 0).2
    ∧ smr_result (ctrl_get_mappings_to_smr [smr_iface_v4] smr_empty_array 0).2
        ≠ first_seen [] (smr_all_mappings [smr_iface_v4]) := by
  decide

/-- Claim C3 as amended. When the counter starts at zero and no slot of the
array holds a mapping that the scan selects, the result is the first-seen-order,
duplicate-free list of the mappings whose list node passes the test of lines
199-203 (status flag set, or IPv4 flag set and the node uses the IPv4 address,
or IPv6 flag set and the node uses the IPv6 address), and the count is its
length. -/
theorem ctrl_get_mappings_to_smr_first_seen (ifaces : List iface_t)
    (mappings_to_smr : Int → Nat)
    (hfresh : ∀ m ∈ smr_selected_mappings ifaces, ∀ k : Nat, mappings_to_smr (k : Int) ≠ m) :
    smr_result (ctrl_get_mappings_to_smr ifaces mappings_to_smr 0).2
      = first_seen [] (smr_selected_mappings ifaces)
    ∧ (ctrl_get_mappings_to_smr ifaces mappings_to_smr 0).2.mappings_ctr
      = ((first_seen [] (smr_selected_mappings ifaces)).length : Int) := by
  have hinv0 : smr_inv mappings_to_smr
      { mappings_to_smr := mappings_to_smr, mappings_ctr := 0, stores := [] } := by
    refine ⟨rfl, ?_, ?_⟩
    · intro k h; simp at h
    · intro k _; rfl
  obtain ⟨h1, h2⟩ := smr_loop_inv mappings_to_smr ifaces _ hinv0 hfresh
  unfold ctrl_get_mappings_to_smr
  refine ⟨?_, ?_⟩
  · rw [smr_result_of_inv _ _ h1, h2]
  · rw [h1.1, h2]

/-- Three changed interfaces that share mapping 7: it is collected once. -/
theorem ctrl_get_mappings_to_smr_first_seen_witness :
    (∀ m ∈ smr_selected_mappings [smr_iface_status, smr_iface_v4, smr_iface_v6],
        ∀ k : Nat, smr_empty_array (k : Int) ≠ m)
    ∧ first_seen [] (smr_selected_mappings [smr_iface_status, smr_iface_v4, smr_iface_v6]) = [7, 8]
    ∧ (smr_result (ctrl_get_mappings_to_smr [smr_iface_status, smr_iface_v4, smr_iface_v6]
          smr_empty_array 0).2
        = first_seen [] (smr_selected_mappings [smr_iface_status, smr_iface_v4, smr_iface_v6])
      ∧ (ctrl_get_mappings_to_smr [smr_iface_status, smr_iface_v4, smr_iface_v6]
          smr_empty_array 0).2.mappings_ctr
        = ((first_seen [] (smr_selected_mappings
            [smr_iface_status, smr_iface_v4, smr_iface_v6])).length : Int)) := by
  have hfresh : ∀ m ∈ smr_selected_mappings [smr_iface_status, smr_iface_v4, smr_iface_v6],
      ∀ k : Nat, smr_empty_array (k : Int) ≠ m := by
    intro m hm k
    have hl : smr_selected_mappings [smr_iface_status, smr_iface_v4, smr_iface_v6] = [7, 7, 8, 7] := by
      decide
    rw [hl] at hm
    simp only [List.mem_cons, List.mem_singleton, List.not_mem_nil, or_false] at hm
    show (0 : Nat) ≠ m
    omega
  exact ⟨hfresh, by decide,
    ctrl_get_mappings_to_smr_first_seen [smr_iface_status, smr_iface_v4, smr_iface_v6]
      smr_empty_array hfresh⟩

/-! ## Claims on `process_address_change` -/

/-- Claim C4. For every interface and every new address that is link-local,
`process_address_change` calls neither `datap_updated_addr` nor
`ctrl_if_addr_update`: it makes no notifier call, and on a registered interface
it returns with the state as it was. -/
theorem process_address_change_link_local (env : Env) (s : State) (iface : Nat)
    (new_addr : lisp_addr_t) (hll : env.ip_addr_is_link_local new_addr = true) :
    emitted s (process_address_change env s iface new_addr) = []
    ∧ ∀ ifc, s.ifaces[iface]? = some ifc →
        process_address_change env s iface new_addr = .ok s := by
  unfold process_address_change
  cases hi : s.ifaces[iface]? with
  | none => simp [emitted]
  | some ifc =>
    cases ha : iface_address ifc (lisp_addr_ip_afi new_addr) with
    | none => simp [ha, emitted_self]
    | some a => simp [ha, hll, emitted_self]

/-- The address 169.254.1.1 on `eth0`. -/
theorem process_address_change_link_local_witness :
    example_env.ip_addr_is_link_local (ipv4_addr 169 254 1 1 16) = true
    ∧ emitted example_state
        (process_address_change example_env example_state 0 (ipv4_addr 169 254 1 1 16)) = []
    ∧ ∀ ifc, example_state.ifaces[0]? = some ifc →
        process_address_change example_env example_state 0 (ipv4_addr 169 254 1 1 16)
          = .ok example_state :=
  ⟨by decide,
    process_address_change_link_local example_env example_state 0 (ipv4_addr 169 254 1 1 16)
      (by decide)⟩

/-- Claim C5. When `default_rloc_afi` is set, an address change whose address
family differs from it makes no notifier call, and a unicast route add or
delete message whose family differs from it and that carries a source,
destination or gateway attribute makes no notifier call. -/
theorem family_restriction_no_notification (env : Env) (s : State)
    (hset : env.default_rloc_afi ≠ AF_UNSPEC) :
    (∀ (iface : Nat) (new_addr : lisp_addr_t),
        lisp_addr_ip_afi new_addr ≠ env.default_rloc_afi →
        emitted s (process_address_change env s iface new_addr) = [])
    ∧ (∀ (rtm : rtmsg) (attrs : List rtattr),
        rtm.rtm_family ≠ env.default_rloc_afi →
        (∃ a ∈ attrs, a.rta_type = RTA_SRC ∨ a.rta_type = RTA_DST ∨ a.rta_type = RTA_GATEWAY) →
        emitted s (process_nl_new_unicast_route env s rtm attrs) = []
        ∧ emitted s (process_nl_del_unicast_route env s rtm attrs) = []) :=
  ⟨fun iface new_addr hd => pac_restricted env s iface new_addr hset hd,
   fun rtm attrs hd hattr =>
    ⟨new_route_restricted env s rtm attrs hset hd hattr,
     del_route_restricted env s rtm attrs hset hd hattr⟩⟩

/-- With the restriction set to IPv6: the IPv4 address 10.0.0.9 and the IPv4
default route through 10.0.0.1, both on `eth0`. -/
theorem family_restriction_no_notification_witness :
    example_env_v6.default_rloc_afi ≠ AF_UNSPEC
    ∧ lisp_addr_ip_afi (ipv4_addr 10 0 0 9 0) ≠ example_env_v6.default_rloc_afi
    ∧ example_rtm.rtm_family ≠ example_env_v6.default_rloc_afi
    ∧ emitted example_state
        (process_address_change example_env_v6 example_state 0 (ipv4_addr 10 0 0 9 0)) = []
    ∧ emitted example_state
        (process_nl_new_unicast_route example_env_v6 example_state example_rtm
          example_route_attrs) = []
    ∧ emitted example_state
        (process_nl_del_unicast_route example_env_v6 example_state example_rtm
          example_route_attrs) = [] :=
  ⟨by decide, by decide, by decide,
    (family_restriction_no_notification example_env_v6 example_state (by decide)).1 0
      (ipv4_addr 10 0 0 9 0) (by decide),
    (family_restriction_no_notification example_env_v6 example_state (by decide)).2 example_rtm
      example_route_attrs (by decide)
      ⟨{ rta_type := RTA_GATEWAY, rta_data := ipv4 10 0 0 1 }, by decide, by decide⟩⟩

/-- Claim C6. On a registered interface `process_address_change` calls the
data-plane notifier and then the control-plane notifier, once each and with
(interface, previously selected address, new address), exactly when the
interface is configured for the family of the new address, the new address is
not link-local, the family restriction is unset or equals that family, a
gateway is resolved for the interface and family, and the membership test of
the new address against the prefix resolved for that gateway succeeds; in
every other case it makes no notifier call. -/
theorem process_address_change_notifies_iff (env : Env) (s : State) (iface : Nat)
    (ifc : iface_t) (new_addr : lisp_addr_t) (hifc : s.ifaces[iface]? = some ifc) :
    ((∃ old_addr gw_addr,
        iface_address ifc (lisp_addr_ip_afi new_addr) = some old_addr
        ∧ env.ip_addr_is_link_local new_addr = false
        ∧ (env.default_rloc_afi = AF_UNSPEC ∨ env.default_rloc_afi = lisp_addr_ip_afi new_addr)
        ∧ env.iface_gateway ifc (lisp_addr_ip_afi new_addr) = some gw_addr
        ∧ Env.pref_is_addr_part_of_prefix env new_addr (get_network_pref_of_host env gw_addr)
            = true)
      ↔ ∃ old_addr, iface_address ifc (lisp_addr_ip_afi new_addr) = some old_addr
          ∧ emitted s (process_address_change env s iface new_addr)
            = [Event.datap_updated_addr iface old_addr new_addr,
               Event.ctrl_if_addr_update iface old_addr new_addr])
    ∧ (¬(∃ old_addr gw_addr,
        iface_address ifc (lisp_addr_ip_afi new_addr) = some old_addr
        ∧ env.ip_addr_is_link_local new_addr = false
        ∧ (env.default_rloc_afi = AF_UNSPEC ∨ env.default_rloc_afi = lisp_addr_ip_afi new_addr)
        ∧ env.iface_gateway ifc (lisp_addr_ip_afi new_addr) = some gw_addr
        ∧ Env.pref_is_addr_part_of_prefix env new_addr (get_network_pref_of_host env gw_addr)
            = true)
      → process_address_change env s iface new_addr = .ok s
        ∧ emitted s (process_address_change env s iface new_addr) = []) := by
  unfold process_address_change
  simp only [hifc]
  cases ha : iface_address ifc (lisp_addr_ip_afi new_addr) with
  | none => simp [emitted_self]
  | some a =>
    by_cases hll : env.ip_addr_is_link_local new_addr = true
    · simp [hll, emitted_self]
    · by_cases hr : env.default_rloc_afi ≠ AF_UNSPEC
          ∧ env.default_rloc_afi ≠ lisp_addr_ip_afi new_addr
      · have h1 := hr.1
        have h2 := hr.2
        simp [hll, h1, h2, emitted_self]
      · have hr2 : env.default_rloc_afi = AF_UNSPEC
            ∨ env.default_rloc_afi = lisp_addr_ip_afi new_addr := by
          by_cases h : env.default_rloc_afi = AF_UNSPEC
          · exact Or.inl h
          · right; by_contra h2; exact hr ⟨h, h2⟩
        cases hg : env.iface_gateway ifc (lisp_addr_ip_afi new_addr) with
        | none => simp [hll, hr, hg, emitted_self]
        | some gw =>
          by_cases hp : Env.pref_is_addr_part_of_prefix env new_addr
              (get_network_pref_of_host env gw) = true
          · simp [hll, hr, hg, hp, hr2, emitted_notify_two]
          · simp [hll, hr, hg, hp, emitted_self]

/-- The scenario: `eth0` with the selected address 10.0.0.5, the new address
10.0.0.9, the gateway 10.0.0.1 and the prefix 10.0.0.0/24 found for it. Both
planes receive (eth0, 10.0.0.5, 10.0.0.9). -/
theorem process_address_change_notifies_iff_witness :
    example_state.ifaces[0]? = some example_eth0
    ∧ get_network_pref_of_host example_env (ipv4_addr 10 0 0 1 0) = some (ipv4_addr 10 0 0 0 24)
    ∧ ∃ old_addr, iface_address example_eth0 (lisp_addr_ip_afi (ipv4_addr 10 0 0 9 0))
          = some old_addr
        ∧ emitted example_state
            (process_address_change example_env example_state 0 (ipv4_addr 10 0 0 9 0))
          = [Event.datap_updated_addr 0 old_addr (ipv4_addr 10 0 0 9 0),
             Event.ctrl_if_addr_update 0 old_addr (ipv4_addr 10 0 0 9 0)] :=
  ⟨by decide, by decide,
    (process_address_change_notifies_iff example_env example_state 0 example_eth0
      (ipv4_addr 10 0 0 9 0) (by decide)).1.mp
      ⟨ipv4_addr 10 0 0 5 24, ipv4_addr 10 0 0 1 0, by decide, by decide, by decide, by decide,
        by decide⟩⟩

/-! ## Claims on `process_nl_new_link` -/

/-- Claim C7. A link notification that resolves to a registered interface, by
its index or by its name, and whose running flag maps to the status stored for
that interface, makes no notifier call and leaves the state, the interface
included, as it was; processing the same notification again does the same. -/
theorem process_nl_new_link_same_status (env : Env) (s : State) (ifi : ifinfomsg) (p : Nat)
    (o : Option Int) (ifc : iface_t)
    (hl : link_lookup env s.ifaces ifi.ifi_index = some (p, o))
    (hifc : s.ifaces[p]? = some ifc)
    (hst : ifc.status = link_new_status ifi) :
    process_nl_new_link env s ifi = .ok s
    ∧ emitted s (process_nl_new_link env s ifi) = []
    ∧ (process_nl_new_link env s ifi >>= fun t => process_nl_new_link env t ifi) = .ok s := by
  have h := process_nl_new_link_unchanged env s ifi p o ifc hl hifc hst
  refine ⟨h, ?_, ?_⟩
  · rw [h]; exact emitted_self s
  · rw [h]; exact h

/-- The interface `eth0` is up and a notification for index 3 has the running
flag set. -/
theorem process_nl_new_link_same_status_witness :
    link_lookup example_env example_state.ifaces 3 = some (0, some 3)
    ∧ example_state.ifaces[0]? = some example_eth0
    ∧ example_eth0.status = link_new_status { ifi_index := 3, ifi_flags := 65 }
    ∧ process_nl_new_link example_env example_state { ifi_index := 3, ifi_flags := 65 }
        = .ok example_state
    ∧ emitted example_state
        (process_nl_new_link example_env example_state { ifi_index := 3, ifi_flags := 65 }) = []
    ∧ (process_nl_new_link example_env example_state { ifi_index := 3, ifi_flags := 65 }
        >>= fun t => process_nl_new_link example_env t { ifi_index := 3, ifi_flags := 65 })
        = .ok example_state :=
  ⟨by decide, by decide, by decide,
    process_nl_new_link_same_status example_env example_state { ifi_index := 3, ifi_flags := 65 }
      0 (some 3) example_eth0 (by decide) (by decide) (by decide)⟩

/-- Claim C8. With link notifiers that store the new status, as the spec
describes them: from an interface with stored status A, a notification with
status A alone makes no notifier call, and a notification with status B (not
A) followed by one with status A makes two pairs of calls, data plane then
control plane, the first pair carrying B and the second carrying A. -/
theorem process_nl_new_link_toggle (env : Env) (s : State) (ifiA ifiB : ifinfomsg) (p : Nat)
    (o : Option Int) (ifc : iface_t)
    (hc : env.collab = spec_collab)
    (hidx : ifiB.ifi_index = ifiA.ifi_index)
    (hl : link_lookup env s.ifaces ifiA.ifi_index = some (p, o))
    (hifc : s.ifaces[p]? = some ifc)
    (hA : ifc.status = link_new_status ifiA)
    (hB : link_new_status ifiB ≠ link_new_status ifiA) :
    emitted s (process_nl_new_link env s ifiA) = []
    ∧ ∃ s1 s2, process_nl_new_link env s ifiB = .ok s1
        ∧ process_nl_new_link env s1 ifiA = .ok s2
        ∧ emitted s (.ok s1) =
            [Event.datap_update_link p (o.getD ifc.iface_index) ifiA.ifi_index
               (link_new_status ifiB),
             Event.ctrl_if_link_update p (o.getD ifc.iface_index) ifiA.ifi_index
               (link_new_status ifiB)]
        ∧ emitted s1 (.ok s2) =
            [Event.datap_update_link p (o.getD ifc.iface_index) ifiA.ifi_index
               (link_new_status ifiA),
             Event.ctrl_if_link_update p (o.getD ifc.iface_index) ifiA.ifi_index
               (link_new_status ifiA)]
        ∧ emitted s (.ok s2) =
            [Event.datap_update_link p (o.getD ifc.iface_index) ifiA.ifi_index
               (link_new_status ifiB),
             Event.ctrl_if_link_update p (o.getD ifc.iface_index) ifiA.ifi_index
               (link_new_status ifiB),
             Event.datap_update_link p (o.getD ifc.iface_index) ifiA.ifi_index
               (link_new_status ifiA),
             Event.ctrl_if_link_update p (o.getD ifc.iface_index) ifiA.ifi_index
               (link_new_status ifiA)] := by
  refine ⟨?_, ?_⟩
  · rw [process_nl_new_link_unchanged env s ifiA p o ifc hl hifc hA]; exact emitted_self s
  have hlB : link_lookup env s.ifaces ifiB.ifi_index = some (p, o) := by rw [hidx]; exact hl
  have hstB : ifc.status ≠ link_new_status ifiB := by rw [hA]; exact fun h => hB h.symm
  have h1 := process_nl_new_link_changed env s ifiB p o ifc hlB hifc hstB
  have hp : p < s.ifaces.length := by
    rcases Nat.lt_or_ge p s.ifaces.length with h | h
    · exact h
    · rw [List.getElem?_eq_none h] at hifc; exact Option.noConfusion hifc
  have hif1 : (notify env
        (notify env s (.datap_update_link p (o.getD ifc.iface_index) ifiB.ifi_index
          (link_new_status ifiB)))
        (.ctrl_if_link_update p (o.getD ifc.iface_index) ifiB.ifi_index
          (link_new_status ifiB))).ifaces
      = s.ifaces.set p { ifc with status := link_new_status ifiB } := by
    simp [notify, hc, spec_collab, hifc]
  have hl1 : link_lookup env (notify env
        (notify env s (.datap_update_link p (o.getD ifc.iface_index) ifiB.ifi_index
          (link_new_status ifiB)))
        (.ctrl_if_link_update p (o.getD ifc.iface_index) ifiB.ifi_index
          (link_new_status ifiB))).ifaces ifiA.ifi_index = some (p, o) := by
    rw [hif1, link_lookup_set env s.ifaces ifiA.ifi_index p ifc
      { ifc with status := link_new_status ifiB } hifc rfl rfl]
    exact hl
  have hifc1 : (notify env
        (notify env s (.datap_update_link p (o.getD ifc.iface_index) ifiB.ifi_index
          (link_new_status ifiB)))
        (.ctrl_if_link_update p (o.getD ifc.iface_index) ifiB.ifi_index
          (link_new_status ifiB))).ifaces[p]?
      = some { ifc with status := link_new_status ifiB } := by
    rw [hif1]; simp [hp]
  have h2 := process_nl_new_link_changed env _ ifiA p o _ hl1 hifc1 hB
  refine ⟨_, _, h1, h2, ?_, ?_, ?_⟩
  · rw [emitted_notify_two, hidx]
  · rw [emitted_notify_two]
  · rw [emitted_notify_four, hidx]

/-- The interface `eth0` is up: down then up gives two pairs, up alone none. -/
theorem process_nl_new_link_toggle_witness :
    example_env.collab = spec_collab
    ∧ link_lookup example_env example_state.ifaces 3 = some (0, some 3)
    ∧ link_new_status { ifi_index := 3, ifi_flags := 1 }
        ≠ link_new_status { ifi_index := 3, ifi_flags := 65 }
    ∧ emitted example_state
        (process_nl_new_link example_env example_state { ifi_index := 3, ifi_flags := 65 }) = []
    ∧ ∃ s1 s2,
        process_nl_new_link example_env example_state { ifi_index := 3, ifi_flags := 1 } = .ok s1
        ∧ process_nl_new_link example_env s1 { ifi_index := 3, ifi_flags := 65 } = .ok s2
        ∧ emitted example_state (.ok s1) =
            [Event.datap_update_link 0 3 3 DOWN, Event.ctrl_if_link_update 0 3 3 DOWN]
        ∧ emitted s1 (.ok s2) =
            [Event.datap_update_link 0 3 3 UP, Event.ctrl_if_link_update 0 3 3 UP]
        ∧ emitted example_state (.ok s2) =
            [Event.datap_update_link 0 3 3 DOWN, Event.ctrl_if_link_update 0 3 3 DOWN,
             Event.datap_update_link 0 3 3 UP, Event.ctrl_if_link_update 0 3 3 UP] :=
  ⟨rfl, by decide, by decide,
    process_nl_new_link_toggle example_env example_state { ifi_index := 3, ifi_flags := 65 }
      { ifi_index := 3, ifi_flags := 1 } 0 (some 3) example_eth0 rfl rfl (by decide) (by decide)
      (by decide) (by decide)⟩

/-- Claim C9 fails as stated. No interface has index 7 and the kernel names
index 7 `eth0`, which is registered with index 3 and status up. A notification
for index 7 without the running flag makes both notifier calls; one with the
running flag returns with the stored index still 3. In neither case does the
handler end with the stored index 7 and no notifier call. -/
theorem process_nl_new_link_renumbered_counterexample :
    get_interface_from_index example_state.ifaces 7 = none
    ∧ (example_env.if_indextoname 7).bind (get_interface example_state.ifaces) = some 0
    ∧ emitted example_state
        (process_nl_new_link example_env example_state { ifi_index := 7, ifi_flags := 0 })
        = [Event.datap_update_link 0 3 7 DOWN, Event.ctrl_if_link_update 0 3 7 DOWN]
    ∧ process_nl_new_link example_env example_state { ifi_index := 7, ifi_flags := 64 }
        = .ok example_state
    ∧ example_state.ifaces.map (fun i => i.iface_index) = [3]
    ∧ ¬(∃ t, process_nl_new_link example_env example_state { ifi_index := 7, ifi_flags := 0 }
          = .ok t
        ∧ t.ifaces.map (fun i => i.iface_index) = [7] ∧ emitted example_state (.ok t) = [])
    ∧ ¬(∃ t, process_nl_new_link example_env example_state { ifi_index := 7, ifi_flags := 64 }
          = .ok t
        ∧ t.ifaces.map (fun i => i.iface_index) = [7] ∧ emitted example_state (.ok t) = []) := by
  have h0 : process_nl_new_link example_env example_state { ifi_index := 7, ifi_flags := 0 }
      = .ok (notify example_env (notify example_env example_state
          (Event.datap_update_link 0 3 7 DOWN)) (Event.ctrl_if_link_update 0 3 7 DOWN)) := by
    rfl
  have h64 : process_nl_new_link example_env example_state { ifi_index := 7, ifi_flags := 64 }
      = .ok example_state := by
    rfl
  refine ⟨by decide, by decide, ?_, h64, by decide, ?_, ?_⟩
  · rw [h0, emitted_notify_two]
  · rintro ⟨t, ht, _, hem⟩
    rw [h0] at ht
    cases ht
    rw [emitted_notify_two] at hem
    exact List.noConfusion hem
  · rintro ⟨t, ht, hidx, _⟩
    rw [h64] at ht
    cases ht
    revert hidx
    decide

/-- Claim C9 as amended. For a link notification whose index matches no
registered interface but whose interface name resolves to a registered
interface: when the running flag maps to a status other than the stored one,
the data-plane and the control-plane link notifier are called once each with
(interface, stored index as old index, notification index as new index, new
status); when it maps to the stored status no notifier is called. -/
theorem process_nl_new_link_renumbered (env : Env) (s : State) (ifi : ifinfomsg)
    (iface_name : String) (p : Nat) (ifc : iface_t)
    (hidx : get_interface_from_index s.ifaces ifi.ifi_index = none)
    (hname : env.if_indextoname ifi.ifi_index = some iface_name)
    (hget : get_interface s.ifaces iface_name = some p)
    (hifc : s.ifaces[p]? = some ifc) :
    (ifc.status ≠ link_new_status ifi →
      emitted s (process_nl_new_link env s ifi)
        = [Event.datap_update_link p ifc.iface_index ifi.ifi_index (link_new_status ifi),
           Event.ctrl_if_link_update p ifc.iface_index ifi.ifi_index (link_new_status ifi)])
    ∧ (ifc.status = link_new_status ifi →
      emitted s (process_nl_new_link env s ifi) = []) := by
  have hl : link_lookup env s.ifaces ifi.ifi_index = some (p, none) := by
    unfold link_lookup
    simp only [hidx, hname, hget]
  refine ⟨?_, ?_⟩
  · intro hst
    rw [process_nl_new_link_changed env s ifi p none ifc hl hifc hst, emitted_notify_two]
    rfl
  · intro hst
    rw [process_nl_new_link_unchanged env s ifi p none ifc hl hifc hst]
    exact emitted_self s

/-- The interface `eth0`, stored with index 3 and up, is announced under index 7:
once without the running flag, once with it. -/
theorem process_nl_new_link_renumbered_witness :
    get_interface_from_index example_state.ifaces 7 = none
    ∧ example_env.if_indextoname 7 = some "eth0"
    ∧ get_interface example_state.ifaces "eth0" = some 0
    ∧ example_state.ifaces[0]? = some example_eth0
    ∧ example_eth0.status ≠ link_new_status { ifi_index := 7, ifi_flags := 0 }
    ∧ example_eth0.status = link_new_status { ifi_index := 7, ifi_flags := 64 }
    ∧ emitted example_state
        (process_nl_new_link example_env example_state { ifi_index := 7, ifi_flags := 0 })
        = [Event.datap_update_link 0 3 7 DOWN, Event.ctrl_if_link_update 0 3 7 DOWN]
    ∧ emitted example_state
        (process_nl_new_link example_env example_state { ifi_index := 7, ifi_flags := 64 })
        = [] :=
  ⟨by decide, by decide, by decide, by decide, by decide, by decide,
    (process_nl_new_link_renumbered example_env example_state { ifi_index := 7, ifi_flags := 0 }
      "eth0" 0 example_eth0 (by decide) (by decide) (by decide) (by decide)).1 (by decide),
    (process_nl_new_link_renumbered example_env example_state { ifi_index := 7, ifi_flags := 64 }
      "eth0" 0 example_eth0 (by decide) (by decide) (by decide) (by decide)).2 (by decide)⟩

/-! ## Claims on the unicast route handlers -/

/-- Claim C10. For a unicast route message with exactly one output-interface
attribute: when the route is in the main table, its family is IPv4 or IPv6,
the output interface index resolves to a registered interface, no source,
destination or gateway attribute is present while the family restriction is
set to another family, and the interface is configured for the route's family,
then the add handler raises exactly one data-plane and one control-plane route
notification of kind `RTM_NEWROUTE` and the delete handler exactly one of each
of kind `RTM_DELROUTE`, with the resolved interface, the source with prefix
length `rtm_src_len`, the destination with prefix length `rtm_dst_len` and the
gateway; when one of these conditions fails, neither handler makes a notifier
call. -/
theorem unicast_route_notified_iff (env : Env) (s : State) (rtm : rtmsg) (attrs : List rtattr)
    (oif : rtattr)
    (hoif : attrs.filter (fun a => decide (a.rta_type = RTA_OIF)) = [oif]) :
    (∀ (p : Nat) (ifc : iface_t),
        get_interface_from_index s.ifaces (rta_int oif) = some p →
        s.ifaces[p]? = some ifc →
        rtm.rtm_table = RT_TABLE_MAIN →
        (rtm.rtm_family = AF_INET ∨ rtm.rtm_family = AF_INET6) →
        (∀ a ∈ attrs,
          (a.rta_type = RTA_SRC ∨ a.rta_type = RTA_DST ∨ a.rta_type = RTA_GATEWAY) →
          (env.default_rloc_afi = AF_UNSPEC ∨ env.default_rloc_afi = rtm.rtm_family)) →
        (iface_address ifc rtm.rtm_family).isSome = true →
        (emitted s (process_nl_new_unicast_route env s rtm attrs)).filter Event.is_route =
          [Event.datap_updated_route RTM_NEWROUTE p
              (route_addr rtm.rtm_family rtm.rtm_src_len (last_attr RTA_SRC attrs))
              (route_addr rtm.rtm_family rtm.rtm_dst_len (last_attr RTA_DST attrs))
              (route_addr rtm.rtm_family 0 (last_attr RTA_GATEWAY attrs)),
           Event.ctrl_route_update RTM_NEWROUTE p
              (route_addr rtm.rtm_family rtm.rtm_src_len (last_attr RTA_SRC attrs))
              (route_addr rtm.rtm_family rtm.rtm_dst_len (last_attr RTA_DST attrs))
              (route_addr rtm.rtm_family 0 (last_attr RTA_GATEWAY attrs))]
        ∧ emitted s (process_nl_del_unicast_route env s rtm attrs) =
          [Event.datap_updated_route RTM_DELROUTE p
              (route_addr rtm.rtm_family rtm.rtm_src_len (last_attr RTA_SRC attrs))
              (route_addr rtm.rtm_family rtm.rtm_dst_len (last_attr RTA_DST attrs))
              (route_addr rtm.rtm_family 0 (last_attr RTA_GATEWAY attrs)),
           Event.ctrl_route_update RTM_DELROUTE p
              (route_addr rtm.rtm_family rtm.rtm_src_len (last_attr RTA_SRC attrs))
              (route_addr rtm.rtm_family rtm.rtm_dst_len (last_attr RTA_DST attrs))
              (route_addr rtm.rtm_family 0 (last_attr RTA_GATEWAY attrs))])
    ∧ (¬(rtm.rtm_table = RT_TABLE_MAIN
          ∧ (rtm.rtm_family = AF_INET ∨ rtm.rtm_family = AF_INET6)
          ∧ (∀ a ∈ attrs,
              (a.rta_type = RTA_SRC ∨ a.rta_type = RTA_DST ∨ a.rta_type = RTA_GATEWAY) →
              (env.default_rloc_afi = AF_UNSPEC ∨ env.default_rloc_afi = rtm.rtm_family))
          ∧ ∃ p ifc, get_interface_from_index s.ifaces (rta_int oif) = some p
              ∧ s.ifaces[p]? = some ifc ∧ (iface_address ifc rtm.rtm_family).isSome = true) →
        emitted s (process_nl_new_unicast_route env s rtm attrs) = []
        ∧ emitted s (process_nl_del_unicast_route env s rtm attrs) = []) :=
  ⟨fun p ifc hp hifc ht hf hr hcfg =>
    ⟨new_route_accepted env s rtm attrs oif p ifc hoif hp hifc ht hf hr hcfg,
     del_route_accepted env s rtm attrs oif p ifc hoif hp hifc ht hf hr hcfg⟩,
   fun hrej =>
    ⟨new_route_rejected env s rtm attrs oif hoif hrej,
     del_route_rejected env s rtm attrs oif hoif hrej⟩⟩

/-- The IPv4 default route through 10.0.0.1 on index 3 (`eth0`), in the main
table: one route notification per plane, for the add and for the delete. -/
theorem unicast_route_notified_iff_witness :
    example_route_attrs.filter (fun a => decide (a.rta_type = RTA_OIF))
        = [{ rta_type := RTA_OIF, rta_data := 3 }]
    ∧ (emitted example_state
          (process_nl_new_unicast_route example_env example_state example_rtm
            example_route_attrs)).filter Event.is_route =
        [Event.datap_updated_route RTM_NEWROUTE 0
            (route_addr example_rtm.rtm_family example_rtm.rtm_src_len
              (last_attr RTA_SRC example_route_attrs))
            (route_addr example_rtm.rtm_family example_rtm.rtm_dst_len
              (last_attr RTA_DST example_route_attrs))
            (route_addr example_rtm.rtm_family 0 (last_attr RTA_GATEWAY example_route_attrs)),
         Event.ctrl_route_update RTM_NEWROUTE 0
            (route_addr example_rtm.rtm_family example_rtm.rtm_src_len
              (last_attr RTA_SRC example_route_attrs))
            (route_addr example_rtm.rtm_family example_rtm.rtm_dst_len
              (last_attr RTA_DST example_route_attrs))
            (route_addr example_rtm.rtm_family 0 (last_attr RTA_GATEWAY example_route_attrs))]
    ∧ emitted example_state
          (process_nl_del_unicast_route example_env example_state example_rtm
            example_route_attrs) =
        [Event.datap_updated_route RTM_DELROUTE 0
            (route_addr example_rtm.rtm_family example_rtm.rtm_src_len
              (last_attr RTA_SRC example_route_attrs))
            (route_addr example_rtm.rtm_family example_rtm.rtm_dst_len
              (last_attr RTA_DST example_route_attrs))
            (route_addr example_rtm.rtm_family 0 (last_attr RTA_GATEWAY example_route_attrs)),
         Event.ctrl_route_update RTM_DELROUTE 0
            (route_addr example_rtm.rtm_family example_rtm.rtm_src_len
              (last_attr RTA_SRC example_route_attrs))
            (route_addr example_rtm.rtm_family example_rtm.rtm_dst_len
              (last_attr RTA_DST example_route_attrs))
            (route_addr example_rtm.rtm_family 0 (last_attr RTA_GATEWAY example_route_attrs))] :=
  ⟨by decide,
    (unicast_route_notified_iff example_env example_state example_rtm example_route_attrs
      { rta_type := RTA_OIF, rta_data := 3 } (by decide)).1 0 example_eth0 (by decide)
      (by decide) (by decide) (by decide) (fun _ _ _ => Or.inl rfl) (by decide)⟩

/-! ## Lemmas on the routing queries and the address replacement -/

theorem net_pref_attrs_spec (env : Env) (address : lisp_addr_t) (afi : Int) (recv_rtm : rtmsg)
    ( net_prefix : lisp_addr_t) (attrs : List rtattr) :
    (net_pref_attrs env address afi recv_rtm net_prefix attrs).2 = true
      ∧ some (net_pref_attrs env address afi recv_rtm net_prefix attrs).1
        = ((if is_host_route afi recv_rtm = false then
            (attrs.filter (fun a => decide (a.rta_type = RTA_DST))).map (fun a =>
              ({ lafi := LM_AFI_IP, afi := afi, addr := a.rta_data,
                 plen := recv_rtm.rtm_dst_len } : lisp_addr_t))
          else []).find? (fun p => Env.pref_is_addr_part_of_prefix env address (some p)))
    ∨ (net_pref_attrs env address afi recv_rtm net_prefix attrs).2 = false
      ∧ ((if is_host_route afi recv_rtm = false then
            (attrs.filter (fun a => decide (a.rta_type = RTA_DST))).map (fun a =>
              ({ lafi := LM_AFI_IP, afi := afi, addr := a.rta_data,
                 plen := recv_rtm.rtm_dst_len } : lisp_addr_t))
          else []).find? (fun p => Env.pref_is_addr_part_of_prefix env address (some p)))
        = none := by
  induction attrs generalizing net_prefix with
  | nil => right; simp [net_pref_attrs]
  | cons a rest ih =>
    unfold net_pref_attrs
    by_cases ht : a.rta_type = RTA_DST
    · by_cases hh : (afi = AF_INET ∧ recv_rtm.rtm_dst_len = 32)
          ∨ (afi = AF_INET6 ∧ recv_rtm.rtm_dst_len = 128)
      · have hhr : is_host_route afi recv_rtm = true := by simp [is_host_route, hh]
        rw [if_pos ht, if_pos hh]
        have := ih net_prefix
        simp only [hhr, Bool.true_eq_false, if_false, List.find?_nil] at this ⊢
        exact this
      · have hhr : is_host_route afi recv_rtm = false := by simp [is_host_route, hh]
        rw [if_pos ht, if_neg hh]
        simp only [hhr, if_true]
        rw [List.filter_cons_of_pos (by simpa using ht)]
        simp only [List.map_cons, List.find?_cons]
        by_cases hp : Env.pref_is_addr_part_of_prefix env address
            (some (lisp_addr_set_plen (lisp_addr_ip_init net_prefix a.rta_data afi)
              recv_rtm.rtm_dst_len)) = true
        · left
          have hval : lisp_addr_set_plen (lisp_addr_ip_init net_prefix a.rta_data afi)
              recv_rtm.rtm_dst_len
              = { lafi := LM_AFI_IP, afi := afi, addr := a.rta_data,
                  plen := recv_rtm.rtm_dst_len } := rfl
          rw [if_pos hp]
          rw [hval] at hp
          simp [hval, hp]
        · have hval : lisp_addr_set_plen (lisp_addr_ip_init net_prefix a.rta_data afi)
              recv_rtm.rtm_dst_len
              = { lafi := LM_AFI_IP, afi := afi, addr := a.rta_data,
                  plen := recv_rtm.rtm_dst_len } := rfl
          rw [if_neg hp]
          have := ih (lisp_addr_set_plen (lisp_addr_ip_init net_prefix a.rta_data afi)
            recv_rtm.rtm_dst_len)
          rw [hval] at hp
          simp only [hhr, if_true] at this
          simp only [hp]
          exact this
    · rw [if_neg ht, List.filter_cons_of_neg (by simpa using ht)]
      exact ih net_prefix

theorem net_pref_msgs_spec (env : Env) (address : lisp_addr_t) (afi : Int)
    ( net_prefix : lisp_addr_t) (msgs : List nl_route_msg) :
    net_pref_msgs env address afi net_prefix msgs
      = (net_candidates afi msgs).find?
          (fun p => Env.pref_is_addr_part_of_prefix env address (some p)) := by
  induction msgs generalizing net_prefix with
  | nil => rfl
  | cons msg rest ih =>
    unfold net_pref_msgs
    have hc : net_candidates afi (msg :: rest)
        = (if msg.nlmsg_type = RTM_NEWROUTE ∧ is_host_route afi msg.rtm = false then
            (msg.attrs.filter (fun a => decide (a.rta_type = RTA_DST))).map (fun a =>
              ({ lafi := LM_AFI_IP, afi := afi, addr := a.rta_data,
                 plen := msg.rtm.rtm_dst_len } : lisp_addr_t))
          else []) ++ net_candidates afi rest := by
      simp [net_candidates]
    rw [hc, List.find?_append]
    by_cases ht : msg.nlmsg_type = RTM_NEWROUTE
    · rw [if_pos ht]
      simp only [ht, true_and]
      rcases net_pref_attrs_spec env address afi msg.rtm net_prefix msg.attrs with
        ⟨h2, h1⟩ | ⟨h2, h1⟩
      · rw [← h1]
        generalize net_pref_attrs env address afi msg.rtm net_prefix msg.attrs = r at h2 ⊢
        obtain ⟨p, b⟩ := r
        simp only at h2
        subst h2
        simp
      · rw [h1]
        generalize net_pref_attrs env address afi msg.rtm net_prefix msg.attrs = r at h2 ⊢
        obtain ⟨p, b⟩ := r
        simp only at h2
        subst h2
        simp [ih]
    · rw [if_neg ht]
      simp [ht, ih]

theorem gateway_attrs_spec (afi : Int) (attrs : List rtattr) (iface_id n : Int)
    (gateway : lisp_addr_t) :
    gateway_attrs afi attrs iface_id n gateway =
      ((match last_attr RTA_OIF attrs with
        | none => iface_id
        | some d => rta_int { rta_type := RTA_OIF, rta_data := d }),
       n + ((attrs.filter (fun a => decide (a.rta_type = RTA_OIF))).length : Int)
         + ((attrs.filter (fun a => decide (a.rta_type = RTA_GATEWAY))).length : Int),
       (match last_attr RTA_GATEWAY attrs with
        | none => gateway
        | some d => { lafi := LM_AFI_IP, afi := afi, addr := d, plen := gateway.plen })) := by
  induction attrs generalizing iface_id n gateway with
  | nil => simp [gateway_attrs, last_attr]
  | cons a rest ih =>
    unfold gateway_attrs
    by_cases h1 : a.rta_type = RTA_OIF
    · have n2 : a.rta_type ≠ RTA_GATEWAY := by rw [h1]; decide
      rw [if_pos h1, ih, last_attr_cons_of_eq _ _ _ h1, last_attr_cons_of_ne _ _ _ n2,
        List.filter_cons_of_pos (by simpa using h1),
        List.filter_cons_of_neg (by simpa using n2)]
      have hra : rta_int { rta_type := RTA_OIF, rta_data := a.rta_data } = rta_int a := rfl
      refine Prod.ext ?_ (Prod.ext ?_ ?_)
      · cases last_attr RTA_OIF rest <;> simp [hra]
      · simp only [List.length_cons, Nat.cast_add, Nat.cast_one]; ring
      · rfl
    · by_cases h2 : a.rta_type = RTA_GATEWAY
      · rw [if_neg h1, if_pos h2, ih, last_attr_cons_of_ne _ _ _ h1,
          last_attr_cons_of_eq _ _ _ h2, List.filter_cons_of_neg (by simpa using h1),
          List.filter_cons_of_pos (by simpa using h2)]
        refine Prod.ext ?_ (Prod.ext ?_ ?_)
        · rfl
        · simp only [List.length_cons, Nat.cast_add, Nat.cast_one]; ring
        · cases last_attr RTA_GATEWAY rest <;> simp [lisp_addr_ip_init]
      · rw [if_neg h1, if_neg h2, ih, last_attr_cons_of_ne _ _ _ h1,
          last_attr_cons_of_ne _ _ _ h2, List.filter_cons_of_neg (by simpa using h1),
          List.filter_cons_of_neg (by simpa using h2)]

theorem last_attr_none_of_filter_nil (t : Nat) (attrs : List rtattr)
    (h : attrs.filter (fun a => decide (a.rta_type = t)) = []) : last_attr t attrs = none := by
  cases hl : last_attr t attrs with
  | none => rfl
  | some d =>
    have : (last_attr t attrs).isSome = true := by simp [hl]
    obtain ⟨b, hb, hbt⟩ := (last_attr_isSome t attrs).mp this
    have : b ∈ attrs.filter (fun a => decide (a.rta_type = t)) :=
      List.mem_filter.mpr ⟨hb, by simpa using hbt⟩
    rw [h] at this
    simp at this

theorem filter_le_one_cases (t : Nat) (attrs : List rtattr)
    (h : (attrs.filter (fun a => decide (a.rta_type = t))).length ≤ 1) :
    (attrs.filter (fun a => decide (a.rta_type = t)) = [] ∧ last_attr t attrs = none)
    ∨ ∃ x, attrs.filter (fun a => decide (a.rta_type = t)) = [x]
        ∧ last_attr t attrs = some x.rta_data ∧ x ∈ attrs ∧ x.rta_type = t := by
  rcases hf : attrs.filter (fun a => decide (a.rta_type = t)) with _ | ⟨x, xs⟩
  · exact Or.inl ⟨hf, last_attr_none_of_filter_nil _ _ hf⟩
  · right
    have hxs : xs = [] := by
      rw [hf] at h
      cases xs with
      | nil => rfl
      | cons y ys => simp at h
    subst hxs
    have hxm : x ∈ attrs ∧ x.rta_type = t := by
      have : x ∈ attrs.filter (fun a => decide (a.rta_type = t)) := by rw [hf]; simp
      simpa using List.mem_filter.mp this
    exact ⟨x, hf, last_attr_of_filter_singleton _ _ _ hf, hxm.1, hxm.2⟩

/-- On a record with at most one output-interface and at most one gateway
attribute, the test of line 1031 is the test the claim reads. -/
theorem gateway_record_test (iface_index afi : Int) (msg : nl_route_msg) (gateway : lisp_addr_t)
    (ht : msg.nlmsg_type = RTM_NEWROUTE)
    (ho : (msg.attrs.filter (fun a => decide (a.rta_type = RTA_OIF))).length ≤ 1)
    (hg : (msg.attrs.filter (fun a => decide (a.rta_type = RTA_GATEWAY))).length ≤ 1)
    (hpl : gateway.plen = 0) :
    ((gateway_attrs afi msg.attrs 0 0 gateway).1 = iface_index
        ∧ (gateway_attrs afi msg.attrs 0 0 gateway).2.1 = 2
      ↔ gateway_record_matches iface_index msg = true)
    ∧ (gateway_attrs afi msg.attrs 0 0 gateway).2.2.plen = 0
    ∧ (gateway_record_matches iface_index msg = true →
        (gateway_attrs afi msg.attrs 0 0 gateway).2.2
          = route_addr afi 0 (last_attr RTA_GATEWAY msg.attrs)) := by
  rw [gateway_attrs_spec]
  simp only [zero_add]
  have hgw : ∀ d, last_attr RTA_GATEWAY msg.attrs = some d →
      (match last_attr RTA_GATEWAY msg.attrs with
        | none => gateway
        | some d => ({ lafi := LM_AFI_IP, afi := afi, addr := d, plen := gateway.plen } : lisp_addr_t))
      = route_addr afi 0 (last_attr RTA_GATEWAY msg.attrs) := by
    intro d hd
    rw [hd]; simp [route_addr, hpl]
  have hplen : (match last_attr RTA_GATEWAY msg.attrs with
        | none => gateway
        | some d => ({ lafi := LM_AFI_IP, afi := afi, addr := d, plen := gateway.plen } : lisp_addr_t)).plen
      = 0 := by
    cases last_attr RTA_GATEWAY msg.attrs <;> simp [hpl]
  refine ⟨?_, hplen, ?_⟩
  · unfold gateway_record_matches
    simp only [ht, decide_True, Bool.true_and, Bool.and_eq_true, List.any_eq_true,
      decide_eq_true_eq]
    rcases filter_le_one_cases RTA_OIF msg.attrs ho with ⟨hfo, hlo⟩ | ⟨x, hfo, hlo, hxm, hxt⟩
    · rw [hfo, hlo]
      simp only [List.length_nil, Nat.cast_zero, zero_add]
      constructor
      · rintro ⟨_, h2⟩
        have : (msg.attrs.filter (fun a => decide (a.rta_type = RTA_GATEWAY))).length = 2 := by
          exact_mod_cast h2
        omega
      · rintro ⟨_, a, ha, hat, _⟩
        have : a ∈ msg.attrs.filter (fun a => decide (a.rta_type = RTA_OIF)) :=
          List.mem_filter.mpr ⟨ha, by simpa using hat⟩
        rw [hfo] at this
        simp at this
    · have hra : rta_int { rta_type := RTA_OIF, rta_data := x.rta_data } = rta_int x := rfl
      rw [hfo, hlo]
      simp only [hra, List.length_singleton, Nat.cast_one]
      rcases filter_le_one_cases RTA_GATEWAY msg.attrs hg with
        ⟨hfg, hlg⟩ | ⟨g, hfg, hlg, _, _⟩
      · rw [hfg, hlg]
        simp
      · rw [hfg, hlg]
        simp only [List.length_singleton, Nat.cast_one, Option.isSome_some, true_and]
        constructor
        · rintro ⟨h1, _⟩
          exact ⟨x, hxm, hxt, h1⟩
        · rintro ⟨a, ha, hat, hai⟩
          have : a ∈ msg.attrs.filter (fun a => decide (a.rta_type = RTA_OIF)) :=
            List.mem_filter.mpr ⟨ha, by simpa using hat⟩
          rw [hfo] at this
          simp only [List.mem_singleton] at this
          subst this
          exact ⟨hai, by norm_num⟩
  · intro hm
    unfold gateway_record_matches at hm
    simp only [Bool.and_eq_true] at hm
    obtain ⟨d, hd⟩ := Option.isSome_iff_exists.mp hm.1.2
    exact hgw d hd

theorem gateway_msgs_spec (iface_index afi : Int) (msgs : List nl_route_msg)
    (gateway : lisp_addr_t) (hpl : gateway.plen = 0)
    (hu : ∀ msg ∈ msgs, msg.nlmsg_type = RTM_NEWROUTE →
      (msg.attrs.filter (fun a => decide (a.rta_type = RTA_OIF))).length ≤ 1
      ∧ (msg.attrs.filter (fun a => decide (a.rta_type = RTA_GATEWAY))).length ≤ 1) :
    gateway_msgs iface_index afi msgs gateway = first_gateway_record iface_index afi msgs := by
  induction msgs generalizing gateway with
  | nil => rfl
  | cons msg rest ih =>
    unfold gateway_msgs first_gateway_record
    rw [List.find?_cons]
    by_cases ht : msg.nlmsg_type = RTM_NEWROUTE
    · rw [if_pos ht]
      obtain ⟨ho, hg⟩ := hu msg (List.mem_cons_self _ _) ht
      obtain ⟨h1, h2, h3⟩ := gateway_record_test iface_index afi msg gateway ht ho hg hpl
      generalize gateway_attrs afi msg.attrs 0 0 gateway = r at h1 h2 h3 ⊢
      obtain ⟨i, n, gw⟩ := r
      simp only at h1 h2 h3 ⊢
      by_cases hm : gateway_record_matches iface_index msg = true
      · rw [if_pos (h1.mpr hm), hm]
        simp [h3 hm]
      · rw [if_neg (fun h => hm (h1.mp h))]
        have hmf : gateway_record_matches iface_index msg = false := by
          simpa using hm
        rw [hmf]
        simp only
        rw [ih gw h2 (fun m hmem => hu m (List.mem_cons_of_mem _ hmem))]
        rfl
    · rw [if_neg ht]
      have hmf : gateway_record_matches iface_index msg = false := by
        simp [gateway_record_matches, ht]
      rw [hmf]
      simp only
      rw [ih gateway hpl (fun m hmem => hu m (List.mem_cons_of_mem _ hmem))]
      rfl

theorem lisp_addr_cmp_ne_zero (a b : lisp_addr_t) : lisp_addr_cmp a b ≠ 0 ↔ a ≠ b := by
  unfold lisp_addr_cmp
  by_cases h : a = b <;> simp [h]

theorem route_addr_afi_no_addr (family : Int) (plen : Nat) (o : Option Nat)
    (hf : family = AF_INET ∨ family = AF_INET6) :
    lisp_addr_ip_afi (route_addr family plen o) = LM_AFI_NO_ADDR ↔ o = none := by
  cases o with
  | none => simp [route_addr, lisp_addr_local_init, lisp_addr_ip_afi, LM_AFI_NO_ADDR]
  | some d =>
    have : family ≠ LM_AFI_NO_ADDR := by
      rcases hf with h | h <;> rw [h] <;> decide
    simp [route_addr, lisp_addr_ip_afi, this]

theorem last_attr_eq_none (t : Nat) (attrs : List rtattr) :
    last_attr t attrs = none ↔ ¬∃ a ∈ attrs, a.rta_type = t := by
  rw [← last_attr_isSome]
  cases last_attr t attrs <;> simp

/-- The calls of the add handler once its checks have passed. -/
theorem new_route_accepted_calls (env : Env) (s : State) (rtm : rtmsg) (attrs : List rtattr)
    (hacc : emitted s (process_nl_new_unicast_route env s rtm attrs) ≠ []) :
    ∃ p ifc recorded, s.ifaces[p]? = some ifc
      ∧ iface_address ifc rtm.rtm_family = some recorded
      ∧ emitted s (process_nl_new_unicast_route env s rtm attrs) =
          [Event.datap_updated_route RTM_NEWROUTE p
              (route_addr rtm.rtm_family rtm.rtm_src_len (last_attr RTA_SRC attrs))
              (route_addr rtm.rtm_family rtm.rtm_dst_len (last_attr RTA_DST attrs))
              (route_addr rtm.rtm_family 0 (last_attr RTA_GATEWAY attrs)),
           Event.ctrl_route_update RTM_NEWROUTE p
              (route_addr rtm.rtm_family rtm.rtm_src_len (last_attr RTA_SRC attrs))
              (route_addr rtm.rtm_family rtm.rtm_dst_len (last_attr RTA_DST attrs))
              (route_addr rtm.rtm_family 0 (last_attr RTA_GATEWAY attrs))]
          ++ (if (∃ a ∈ attrs, a.rta_type = RTA_GATEWAY)
                ∧ env.iface_find_address ifc rtm.rtm_family ≠ recorded then
              [Event.datap_updated_addr p recorded (env.iface_find_address ifc rtm.rtm_family),
               Event.ctrl_if_addr_update p recorded (env.iface_find_address ifc rtm.rtm_family)]
             else []) := by
  unfold process_nl_new_unicast_route at hacc ⊢
  by_cases ht : rtm.rtm_table ≠ RT_TABLE_MAIN
  · rw [if_pos ht] at hacc; exact absurd (emitted_self s) hacc
  · by_cases hf : rtm.rtm_family ≠ AF_INET ∧ rtm.rtm_family ≠ AF_INET6
    · rw [if_neg ht, if_pos hf] at hacc; exact absurd (emitted_self s) hacc
    · have hf2 := family_ok_of_not _ hf
      rw [if_neg ht, if_neg hf] at hacc ⊢
      cases hl : route_attrs_loop s.ifaces rtm attrs route_vars_init with
      | none => rw [hl] at hacc; exact absurd (emitted_self s) hacc
      | some v =>
        rw [hl] at hacc
        obtain ⟨_, i2, i3, i4⟩ := route_attrs_loop_init _ _ _ _ hl
        obtain ⟨vi, vg, vs, vd⟩ := v
        simp only at i2 i3 i4
        subst i2 i3 i4
        simp only at hacc ⊢
        by_cases m1 : default_afi_mismatch env
            (route_addr rtm.rtm_family rtm.rtm_src_len (last_attr RTA_SRC attrs)) = true
        · rw [if_pos m1] at hacc
          exact absurd (emitted_log_iface_name_return _ _ _ _) hacc
        · by_cases m2 : default_afi_mismatch env
              (route_addr rtm.rtm_family rtm.rtm_dst_len (last_attr RTA_DST attrs)) = true
          · rw [if_neg m1, if_pos m2] at hacc
            exact absurd (emitted_log_iface_name_return _ _ _ _) hacc
          · by_cases m3 : default_afi_mismatch env
                (route_addr rtm.rtm_family 0 (last_attr RTA_GATEWAY attrs)) = true
            · rw [if_neg m1, if_neg m2, if_pos m3] at hacc
              exact absurd (emitted_log_iface_name_return _ _ _ _) hacc
            · rw [if_neg m1, if_neg m2, if_neg m3] at hacc ⊢
              cases vi with
              | none => exact absurd rfl hacc
              | some p =>
                simp only at hacc ⊢
                cases hifc : s.ifaces[p]? with
                | none => rw [hifc] at hacc; exact absurd rfl hacc
                | some ifc =>
                  rw [hifc] at hacc
                  simp only at hacc ⊢
                  cases ha : iface_address ifc rtm.rtm_family with
                  | none => rw [ha] at hacc; exact absurd (emitted_self s) hacc
                  | some recorded =>
                    refine ⟨p, ifc, recorded, hifc, ha, ?_⟩
                    simp only
                    have hno := route_addr_afi_no_addr rtm.rtm_family 0
                      (last_attr RTA_GATEWAY attrs) hf2
                    rw [last_attr_eq_none] at hno
                    by_cases hg : ∃ a ∈ attrs, a.rta_type = RTA_GATEWAY
                    · rw [if_neg (fun h => hno.mp h hg)]
                      by_cases hd : recorded ≠ env.iface_find_address ifc rtm.rtm_family
                      · rw [if_pos ((lisp_addr_cmp_ne_zero _ _).mpr hd),
                          if_pos ⟨hg, fun h => hd h.symm⟩, emitted_notify_four]
                        rfl
                      · rw [if_neg (fun h => hd ((lisp_addr_cmp_ne_zero _ _).mp h)),
                          if_neg (fun h => hd (fun e => h.2 e.symm)), emitted_notify_two]
                        rfl
                    · rw [if_pos (hno.mpr hg), if_neg (fun h => hg h.1), emitted_notify_two]
                      rfl

/-- The delete handler never calls an address notifier. -/
theorem del_route_no_addr_event (env : Env) (s : State) (rtm : rtmsg) (attrs : List rtattr) :
    (emitted s (process_nl_del_unicast_route env s rtm attrs)).filter Event.is_addr = [] := by
  unfold process_nl_del_unicast_route
  by_cases ht : rtm.rtm_table ≠ RT_TABLE_MAIN
  · rw [if_pos ht, emitted_self]; rfl
  · by_cases hf : rtm.rtm_family ≠ AF_INET ∧ rtm.rtm_family ≠ AF_INET6
    · rw [if_neg ht, if_pos hf, emitted_self]; rfl
    · rw [if_neg ht, if_neg hf]
      cases hl : route_attrs_loop s.ifaces rtm attrs route_vars_init with
      | none => simp only; rw [emitted_self]; rfl
      | some v =>
        simp only
        by_cases m1 : default_afi_mismatch env v.src = true
        · rw [if_pos m1, emitted_log_iface_name_return]; rfl
        · by_cases m2 : default_afi_mismatch env v.dst = true
          · rw [if_neg m1, if_pos m2, emitted_log_iface_name_return]; rfl
          · by_cases m3 : default_afi_mismatch env v.gateway = true
            · rw [if_neg m1, if_neg m2, if_pos m3, emitted_log_iface_name_return]; rfl
            · rw [if_neg m1, if_neg m2, if_neg m3]
              cases hvi : v.iface with
              | none => rfl
              | some p =>
                simp only
                cases hifc : s.ifaces[p]? with
                | none => rfl
                | some ifc =>
                  simp only
                  cases ha : iface_address ifc rtm.rtm_family with
                  | none => simp only; rw [emitted_self]; rfl
                  | some recorded =>
                    simp only
                    rw [emitted_notify_two]
                    rfl

/-! ## The netlink walk, the multicast handlers and routes without an output interface -/

/-- Without an output-interface attribute the loop completes and leaves the
local `iface` as it was. -/
theorem route_attrs_loop_no_oif (ifaces : List iface_t) (rtm : rtmsg) (attrs : List rtattr)
    (v : route_vars) (hno : ∀ a ∈ attrs, a.rta_type ≠ RTA_OIF) :
    ∃ w, route_attrs_loop ifaces rtm attrs v = some w ∧ w.iface = v.iface := by
  induction attrs generalizing v with
  | nil => exact ⟨v, rfl, rfl⟩
  | cons a rest ih =>
    have h1 : a.rta_type ≠ RTA_OIF := hno a (List.mem_cons_self _ _)
    have hrest : ∀ b ∈ rest, b.rta_type ≠ RTA_OIF := fun b hb => hno b (List.mem_cons_of_mem _ hb)
    unfold route_attrs_loop
    simp only [h1, if_false]
    split_ifs
    · obtain ⟨w, hw, hi⟩ := ih _ hrest
      exact ⟨w, hw, hi⟩
    · obtain ⟨w, hw, hi⟩ := ih _ hrest
      exact ⟨w, hw, hi⟩
    · obtain ⟨w, hw, hi⟩ := ih _ hrest
      exact ⟨w, hw, hi⟩
    · exact ih _ hrest

/-- The attribute loop of `process_nl_add_address` is the sequence of validation
calls for the selected attributes. -/
theorem add_address_loop_spec (env : Env) (iface : Nat) (ifa_family : Int)
    (attrs : List rtattr) (s : State) (new_addr : lisp_addr_t) (hp : new_addr.plen = 0) :
    add_address_loop env iface ifa_family attrs s new_addr
      = validation_calls env iface ifa_family (validated_payloads ifa_family attrs) s := by
  induction attrs generalizing s new_addr with
  | nil => rfl
  | cons rth rest ih =>
    have hinit : ∀ a : lisp_addr_t, a.plen = 0 → lisp_addr_ip_init a rth.rta_data ifa_family
        = { lafi := LM_AFI_IP, afi := ifa_family, addr := rth.rta_data, plen := 0 } := by
      intro a ha
      simp [lisp_addr_ip_init, ha]
    unfold add_address_loop
    by_cases h4 : ifa_family = AF_INET ∧ rth.rta_type = IFA_LOCAL
    · have h6 : ¬(ifa_family = AF_INET6 ∧ rth.rta_type = IFA_ADDRESS) := by
        rintro ⟨h, _⟩
        rw [h4.1] at h
        exact absurd h (by decide)
      have e4 : decide (ifa_family = AF_INET ∧ rth.rta_type = IFA_LOCAL) = true :=
        decide_eq_true h4
      have e6 : decide (ifa_family = AF_INET6 ∧ rth.rta_type = IFA_ADDRESS) = false :=
        decide_eq_false h6
      have hv : validated_payloads ifa_family (rth :: rest)
          = rth.rta_data :: validated_payloads ifa_family rest := by
        unfold validated_payloads
        rw [List.filter_cons_of_pos (by simpa using Or.inl h4)]
        rfl
      rw [hv]
      simp only [e4, e6, if_true, if_false, Bool.false_eq_true, hinit new_addr hp]
      unfold validation_calls
      cases process_address_change env s iface
          { lafi := LM_AFI_IP, afi := ifa_family, addr := rth.rta_data, plen := 0 } with
      | error f => rfl
      | ok s1 => exact ih s1 _ rfl
    · have e4 : decide (ifa_family = AF_INET ∧ rth.rta_type = IFA_LOCAL) = false :=
        decide_eq_false h4
      by_cases h6 : ifa_family = AF_INET6 ∧ rth.rta_type = IFA_ADDRESS
      · have e6 : decide (ifa_family = AF_INET6 ∧ rth.rta_type = IFA_ADDRESS) = true :=
          decide_eq_true h6
        have hv : validated_payloads ifa_family (rth :: rest)
            = rth.rta_data :: validated_payloads ifa_family rest := by
          unfold validated_payloads
          rw [List.filter_cons_of_pos (by simpa using Or.inr h6)]
          rfl
        rw [hv]
        simp only [e4, e6, if_true, if_false, Bool.false_eq_true, hinit new_addr hp]
        unfold validation_calls
        cases process_address_change env s iface
            { lafi := LM_AFI_IP, afi := ifa_family, addr := rth.rta_data, plen := 0 } with
        | error f => rfl
        | ok s1 => exact ih s1 _ rfl
      · have e6 : decide (ifa_family = AF_INET6 ∧ rth.rta_type = IFA_ADDRESS) = false :=
          decide_eq_false h6
        have hv : validated_payloads ifa_family (rth :: rest)
            = validated_payloads ifa_family rest := by
          unfold validated_payloads
          rw [List.filter_cons_of_neg (by simpa using not_or.mpr ⟨h4, h6⟩)]
        rw [hv]
        simp only [e4, e6, if_false, Bool.false_eq_true]
        exact ih s new_addr hp

/-- The inner switch on a multicast route family. -/
theorem mcast_addr_init_eq (a : lisp_addr_t) (d : Nat) (rtm_family : Int)
    (hf : rtm_family = 128 ∨ rtm_family = 129) :
    mcast_addr_init a d rtm_family
      = { lafi := LM_AFI_IP, afi := mcast_afi rtm_family, addr := d, plen := a.plen } := by
  rcases hf with h | h <;> rw [h] <;> rfl

/-- The out-parameters the multicast attribute loop leaves when it completes:
each address holds the payload of the last attribute of its type. -/
theorem mcast_attrs_loop_addrs (ifaces : List iface_t) (rtm : rtmsg)
    (hf : rtm.rtm_family = 128 ∨ rtm.rtm_family = 129) (l : List raw_rtattr)
    (v w : mcast_vars) (h : mcast_attrs_loop ifaces rtm l v = (w, false)) :
    w.rt_srcaddr = (match last_attr RTA_SRC (l.map raw_rtattr.attr) with
        | none => v.rt_srcaddr
        | some d => { lafi := LM_AFI_IP, afi := mcast_afi rtm.rtm_family, addr := d,
                      plen := v.rt_srcaddr.plen })
    ∧ w.rt_grpaddr = (match last_attr RTA_DST (l.map raw_rtattr.attr) with
        | none => v.rt_grpaddr
        | some d => { lafi := LM_AFI_IP, afi := mcast_afi rtm.rtm_family, addr := d,
                      plen := v.rt_grpaddr.plen }) := by
  induction l generalizing v with
  | nil =>
    simp only [mcast_attrs_loop, Prod.mk.injEq, and_true] at h
    subst h
    exact ⟨rfl, rfl⟩
  | cons a rest ih =>
    unfold mcast_attrs_loop at h
    simp only [List.map_cons]
    by_cases h1 : a.rta_type = RTA_DST
    · have h2 : a.attr.rta_type ≠ RTA_SRC := by
        show a.rta_type ≠ RTA_SRC
        rw [h1]; decide
      have h1a : a.attr.rta_type = RTA_DST := h1
      simp only [h1, if_true] at h
      obtain ⟨i1, i2⟩ := ih _ h
      rw [last_attr_cons_of_ne _ _ _ h2, last_attr_cons_of_eq _ _ _ h1a]
      refine ⟨i1, ?_⟩
      rw [i2, mcast_addr_init_eq _ _ _ hf]
      cases last_attr RTA_DST (rest.map raw_rtattr.attr) <;> rfl
    · simp only [h1, if_false] at h
      have h1a : a.attr.rta_type ≠ RTA_DST := h1
      by_cases h2 : a.rta_type = RTA_SRC
      · have h2a : a.attr.rta_type = RTA_SRC := h2
        simp only [h2, if_true] at h
        obtain ⟨i1, i2⟩ := ih _ h
        rw [last_attr_cons_of_ne _ _ _ h1a, last_attr_cons_of_eq _ _ _ h2a]
        refine ⟨?_, i2⟩
        rw [i1, mcast_addr_init_eq _ _ _ hf]
        cases last_attr RTA_SRC (rest.map raw_rtattr.attr) <;> rfl
      · simp only [h2, if_false] at h
        have h2a : a.attr.rta_type ≠ RTA_SRC := h2
        rw [last_attr_cons_of_ne _ _ _ h1a, last_attr_cons_of_ne _ _ _ h2a]
        by_cases h3 : a.rta_type = RTA_MULTIPATH
        · simp only [h3, if_true] at h
          cases hn : mcast_nh_loop ifaces a ((a.rta_len : Int) - 4) a.rta_data a.rta_data
              v.nb_oifs with
          | none => simp [hn] at h
          | some n =>
            rw [hn] at h
            exact ih { v with nb_oifs := n } h
        · simp only [h3, if_false] at h
          exact ih _ h

/-- The addresses `process_nl_mcast_route_attributes` hands back with `GOOD`. -/
theorem mcast_route_attributes_good (ifaces : List iface_t) (rtm : rtmsg)
    (hf : rtm.rtm_family = 128 ∨ rtm.rtm_family = 129) (attrs : List raw_rtattr)
    (rt_length : Int)
    (h : (process_nl_mcast_route_attributes ifaces rtm attrs rt_length lisp_addr_local_init
      lisp_addr_local_init).1 = GOOD) :
    process_nl_mcast_route_attributes ifaces rtm attrs rt_length lisp_addr_local_init
        lisp_addr_local_init
      = (GOOD, route_addr (mcast_afi rtm.rtm_family) 0 (last_attr RTA_SRC (rta_walk attrs rt_length)),
          route_addr (mcast_afi rtm.rtm_family) 0 (last_attr RTA_DST (rta_walk attrs rt_length))) := by
  unfold process_nl_mcast_route_attributes at h ⊢
  cases hl : mcast_attrs_loop ifaces rtm (rta_walk_raw attrs rt_length)
      { rt_srcaddr := lisp_addr_local_init, rt_grpaddr := lisp_addr_local_init, nb_oifs := 0 } with
  | mk w b =>
    rw [hl] at h
    cases b with
    | true =>
      have hb : BAD ≠ GOOD := by decide
      exact absurd h hb
    | false =>
      obtain ⟨i1, i2⟩ := mcast_attrs_loop_addrs ifaces rtm hf _ _ w hl
      by_cases h0 : w.nb_oifs = 0
      · simp only [h0, if_true] at h
        have hb : BAD ≠ GOOD := by decide
        exact absurd h hb
      · simp only [h0, if_false, Prod.mk.injEq, true_and]
        unfold rta_walk
        rw [i1, i2]
        constructor
        · cases last_attr RTA_SRC ((rta_walk_raw attrs rt_length).map raw_rtattr.attr) <;> rfl
        · cases last_attr RTA_DST ((rta_walk_raw attrs rt_length).map raw_rtattr.attr) <;> rfl

/-- The link notifiers of the scenario keep the number of interfaces. -/
theorem spec_collab_length (e : Event) (l : List iface_t) :
    (spec_collab e l).length = l.length := by
  cases e <;> simp only [spec_collab]
  split <;> simp

/-- A notifier that keeps the number of interfaces keeps it through `notify`. -/
theorem notify_length (env : Env) (hcollab : ∀ e l, (env.collab e l).length = l.length)
    (s : State) (e : Event) : (notify env s e).ifaces.length = s.ifaces.length :=
  hcollab e s.ifaces

/-- On a registered interface, with notifiers that keep the number of
interfaces, `process_address_change` returns. -/
theorem process_address_change_ok (env : Env)
    (hcollab : ∀ e l, (env.collab e l).length = l.length) (s : State) (iface : Nat)
    (new_addr : lisp_addr_t) (hi : iface < s.ifaces.length) :
    ∃ t, process_address_change env s iface new_addr = .ok t
      ∧ t.ifaces.length = s.ifaces.length := by
  unfold process_address_change
  rw [List.getElem?_eq_getElem hi]
  simp only
  split
  · exact ⟨s, rfl, rfl⟩
  · split_ifs
    · exact ⟨s, rfl, rfl⟩
    · exact ⟨s, rfl, rfl⟩
    · split
      · exact ⟨s, rfl, rfl⟩
      · split_ifs
        · exact ⟨s, rfl, rfl⟩
        · refine ⟨_, rfl, ?_⟩
          rw [notify_length env hcollab, notify_length env hcollab]

/-- The attribute loop of `process_nl_add_address` returns. -/
theorem add_address_loop_ok (env : Env)
    (hcollab : ∀ e l, (env.collab e l).length = l.length) (iface : Nat) (ifa_family : Int)
    (attrs : List rtattr) (s : State) (new_addr : lisp_addr_t) (hi : iface < s.ifaces.length) :
    ∃ t, add_address_loop env iface ifa_family attrs s new_addr = .ok t
      ∧ t.ifaces.length = s.ifaces.length := by
  induction attrs generalizing s new_addr with
  | nil => exact ⟨s, rfl, rfl⟩
  | cons rth rest ih =>
    unfold add_address_loop
    simp only
    have step : ∀ (b : Bool) (s0 : State) (a : lisp_addr_t), iface < s0.ifaces.length →
        ∃ t, (if b = true then process_address_change env s0 iface a else .ok s0) = .ok t
          ∧ t.ifaces.length = s0.ifaces.length := by
      intro b s0 a h0
      cases b with
      | true => simpa using process_address_change_ok env hcollab s0 iface a h0
      | false => exact ⟨s0, rfl, rfl⟩
    obtain ⟨t1, e1, l1⟩ := step (decide (ifa_family = AF_INET ∧ rth.rta_type = IFA_LOCAL)) s
      (if decide (ifa_family = AF_INET ∧ rth.rta_type = IFA_LOCAL) = true then
        lisp_addr_ip_init new_addr rth.rta_data ifa_family else new_addr) hi
    rw [e1]
    simp only
    obtain ⟨t2, e2, l2⟩ := step (decide (ifa_family = AF_INET6 ∧ rth.rta_type = IFA_ADDRESS)) t1
      (if decide (ifa_family = AF_INET6 ∧ rth.rta_type = IFA_ADDRESS) = true then
        lisp_addr_ip_init (if decide (ifa_family = AF_INET ∧ rth.rta_type = IFA_LOCAL) = true then
          lisp_addr_ip_init new_addr rth.rta_data ifa_family else new_addr) rth.rta_data ifa_family
       else (if decide (ifa_family = AF_INET ∧ rth.rta_type = IFA_LOCAL) = true then
          lisp_addr_ip_init new_addr rth.rta_data ifa_family else new_addr)) (l1 ▸ hi)
    rw [e2]
    simp only
    obtain ⟨t, e, l⟩ := ih t2 _ (by rw [l2, l1]; exact hi)
    exact ⟨t, e, by rw [l, l2, l1]⟩

/-- The address-added handler returns. -/
theorem process_nl_add_address_ok (env : Env)
    (hcollab : ∀ e l, (env.collab e l).length = l.length) (s : State) (nlh : nlmsghdr) :
    ∃ t, process_nl_add_address env s nlh = .ok t ∧ t.ifaces.length = s.ifaces.length := by
  unfold process_nl_add_address
  cases h : get_interface_from_index s.ifaces nlh.ifa.ifa_index with
  | none => exact ⟨s, rfl, rfl⟩
  | some p =>
    obtain ⟨ifc, hifc, _⟩ := get_interface_from_index_some _ _ _ h
    have hp : p < s.ifaces.length := by
      by_contra hge
      rw [List.getElem?_eq_none (Nat.le_of_not_lt hge)] at hifc
      exact absurd hifc (by simp)
    exact add_address_loop_ok env hcollab p _ _ s _ hp

/-- The address-added handler run on a list of messages returns. -/
theorem add_address_seq_ok (env : Env)
    (hcollab : ∀ e l, (env.collab e l).length = l.length) (msgs : List nlmsghdr) (s : State) :
    ∃ t, add_address_seq env msgs s = .ok t := by
  induction msgs generalizing s with
  | nil => exact ⟨s, rfl⟩
  | cons m rest ih =>
    obtain ⟨t1, e1, _⟩ := process_nl_add_address_ok env hcollab s m
    unfold add_address_seq
    rw [e1]
    exact ih t1

/-- The `for` loop on well-formed address-added messages followed by the
terminal message. -/
theorem netlink_for_loop_address_batch (env : Env) (msgs rest : List nlmsghdr)
    (done : nlmsghdr) (len : Int) (s : State)
    (hwf : nlmsgs_ok msgs len = true)
    (htype : ∀ m ∈ msgs, m.nlmsg_type = RTM_NEWADDR)
    (hdone : done.nlmsg_type = NLMSG_DONE) :
    netlink_for_loop env (msgs ++ done :: rest) len s = add_address_seq env msgs s := by
  induction msgs generalizing len s with
  | nil =>
    simp [netlink_for_loop, add_address_seq, hdone]
  | cons m tail ih =>
    have hm : m.nlmsg_type = RTM_NEWADDR := htype m (List.mem_cons_self _ _)
    have htail : ∀ x ∈ tail, x.nlmsg_type = RTM_NEWADDR :=
      fun x hx => htype x (List.mem_cons_of_mem _ hx)
    simp only [nlmsgs_ok, Bool.and_eq_true] at hwf
    have hnd : m.nlmsg_type ≠ NLMSG_DONE := by rw [hm]; decide
    simp only [List.cons_append, netlink_for_loop, add_address_seq, hwf.1, hnd, ne_eq,
      not_false_eq_true, and_self, if_true, netlink_dispatch, hm]
    cases process_nl_add_address env s m with
    | error f => rfl
    | ok s1 => exact ih _ s1 hwf.2 htail

/-- A record that fails `RTA_OK` ends the walk: the records visited are those
visited when the buffer ends before it. -/
theorem rta_walk_raw_malformed (pre post : List raw_rtattr) (bad : raw_rtattr) (len : Int)
    (hbad : RTA_OK bad (len - rta_space pre) = false) :
    rta_walk_raw (pre ++ bad :: post) len = rta_walk_raw pre len := by
  induction pre generalizing len with
  | nil =>
    simp only [rta_space, sub_zero] at hbad
    simp [rta_walk_raw, hbad]
  | cons a rest ih =>
    simp only [List.cons_append, rta_walk_raw]
    by_cases hok : RTA_OK a len = true
    · simp only [hok, if_true]
      have hb : RTA_OK bad (len - (RTA_ALIGN a.rta_len : Int) - rta_space rest) = false := by
        simp only [rta_space] at hbad
        rw [sub_sub]
        exact hbad
      exact congrArg (fun l => a :: l) (ih _ hb)
    · simp [hok]

/-- The same for the attributes a handler reads. -/
theorem rta_walk_malformed (pre post : List raw_rtattr) (bad : raw_rtattr) (len : Int)
    (hbad : RTA_OK bad (len - rta_space pre) = false) :
    rta_walk (pre ++ bad :: post) len = rta_walk pre len := by
  unfold rta_walk
  rw [rta_walk_raw_malformed pre post bad len hbad]

/-- One step of the `for` loop on a message that passes `NLMSG_OK` and is not
the terminal message. -/
theorem netlink_for_loop_cons (env : Env) (nlh : nlmsghdr) (rest : List nlmsghdr) (len : Int)
    (s : State) (hok : NLMSG_OK nlh len = true) (hnd : nlh.nlmsg_type ≠ NLMSG_DONE) :
    netlink_for_loop env (nlh :: rest) len s
      = match netlink_dispatch env s nlh with
        | .error f => .error f
        | .ok s1 => netlink_for_loop env rest (len - (RTA_ALIGN nlh.nlmsg_len : Int)) s1 := by
  rw [netlink_for_loop, if_pos ⟨hok, hnd⟩]

/-! ## Claims on the address replacement and the routing queries -/

/-- Claim C11. When the add handler has raised the route notification
(the route is accepted), then for the interface `p` it was raised for and the
address recorded for it: if the message carries a gateway attribute and the
address from `iface_find_address` differs from the recorded address, the
data-plane and the control-plane address notifier are called exactly once each
with (interface, recorded address, live address); if it carries no gateway or
the two addresses are equal, no address notifier is called. The delete handler
never calls an address notifier. -/
theorem route_add_address_replacement (env : Env) (s : State) (rtm : rtmsg)
    (attrs : List rtattr) :
    ((emitted s (process_nl_new_unicast_route env s rtm attrs)).filter Event.is_route ≠ [] →
      ∃ p ifc recorded, s.ifaces[p]? = some ifc
        ∧ iface_address ifc rtm.rtm_family = some recorded
        ∧ (∃ src dst gw,
            (emitted s (process_nl_new_unicast_route env s rtm attrs)).filter Event.is_route
              = [Event.datap_updated_route RTM_NEWROUTE p src dst gw,
                 Event.ctrl_route_update RTM_NEWROUTE p src dst gw])
        ∧ ((∃ a ∈ attrs, a.rta_type = RTA_GATEWAY)
              ∧ env.iface_find_address ifc rtm.rtm_family ≠ recorded →
            (emitted s (process_nl_new_unicast_route env s rtm attrs)).filter Event.is_addr
              = [Event.datap_updated_addr p recorded
                   (env.iface_find_address ifc rtm.rtm_family),
                 Event.ctrl_if_addr_update p recorded
                   (env.iface_find_address ifc rtm.rtm_family)])
        ∧ (¬((∃ a ∈ attrs, a.rta_type = RTA_GATEWAY)
              ∧ env.iface_find_address ifc rtm.rtm_family ≠ recorded) →
            (emitted s (process_nl_new_unicast_route env s rtm attrs)).filter Event.is_addr
              = []))
    ∧ (emitted s (process_nl_del_unicast_route env s rtm attrs)).filter Event.is_addr = [] := by
  refine ⟨?_, del_route_no_addr_event env s rtm attrs⟩
  intro hacc
  have hne : emitted s (process_nl_new_unicast_route env s rtm attrs) ≠ [] := by
    intro h; rw [h] at hacc; exact hacc rfl
  obtain ⟨p, ifc, recorded, hifc, ha, hem⟩ := new_route_accepted_calls env s rtm attrs hne
  refine ⟨p, ifc, recorded, hifc, ha,
    ⟨route_addr rtm.rtm_family rtm.rtm_src_len (last_attr RTA_SRC attrs),
     route_addr rtm.rtm_family rtm.rtm_dst_len (last_attr RTA_DST attrs),
     route_addr rtm.rtm_family 0 (last_attr RTA_GATEWAY attrs), ?_⟩, ?_, ?_⟩
  · rw [hem]
    split_ifs <;> simp [Event.is_route]
  · intro hc
    rw [hem, if_pos hc]
    simp [Event.is_addr]
  · intro hc
    rw [hem, if_neg hc]
    simp [Event.is_addr]

/-- The scenario: the default route through 10.0.0.1 is added on `eth0` while
10.0.0.5 is recorded and the live address is 10.0.0.9. -/
theorem route_add_address_replacement_witness :
    (emitted example_state
        (process_nl_new_unicast_route example_env_stale example_state example_rtm
          example_route_attrs)).filter Event.is_route ≠ []
    ∧ (emitted example_state
        (process_nl_new_unicast_route example_env_stale example_state example_rtm
          example_route_attrs)).filter Event.is_addr
        = [Event.datap_updated_addr 0 (ipv4_addr 10 0 0 5 24) (ipv4_addr 10 0 0 9 24),
           Event.ctrl_if_addr_update 0 (ipv4_addr 10 0 0 5 24) (ipv4_addr 10 0 0 9 24)]
    ∧ ∃ p ifc recorded, example_state.ifaces[p]? = some ifc
        ∧ iface_address ifc example_rtm.rtm_family = some recorded
        ∧ (∃ src dst gw,
            (emitted example_state
              (process_nl_new_unicast_route example_env_stale example_state example_rtm
                example_route_attrs)).filter Event.is_route
              = [Event.datap_updated_route RTM_NEWROUTE p src dst gw,
                 Event.ctrl_route_update RTM_NEWROUTE p src dst gw])
        ∧ ((∃ a ∈ example_route_attrs, a.rta_type = RTA_GATEWAY)
              ∧ example_env_stale.iface_find_address ifc example_rtm.rtm_family ≠ recorded →
            (emitted example_state
              (process_nl_new_unicast_route example_env_stale example_state example_rtm
                example_route_attrs)).filter Event.is_addr
              = [Event.datap_updated_addr p recorded
                   (example_env_stale.iface_find_address ifc example_rtm.rtm_family),
                 Event.ctrl_if_addr_update p recorded
                   (example_env_stale.iface_find_address ifc example_rtm.rtm_family)])
        ∧ (¬((∃ a ∈ example_route_attrs, a.rta_type = RTA_GATEWAY)
              ∧ example_env_stale.iface_find_address ifc example_rtm.rtm_family ≠ recorded) →
            (emitted example_state
              (process_nl_new_unicast_route example_env_stale example_state example_rtm
                example_route_attrs)).filter Event.is_addr
              = []) :=
  ⟨by decide, by decide,
    (route_add_address_replacement example_env_stale example_state example_rtm
      example_route_attrs).1 (by decide)⟩

/-- Claim C12 fails as stated. A record with two output-interface attributes
for index 3 and no gateway attribute counts two attributes and is taken as the
match: the unset gateway is returned where the claim has none. A record with
the output interface 3 and two gateway attributes counts three and is skipped,
where the claim has its gateway. -/
theorem iface_get_getway_counts_attributes :
    first_gateway_record 3 AF_INET
        [example_route_record [{ rta_type := RTA_OIF, rta_data := 3 },
          { rta_type := RTA_OIF, rta_data := 3 }]] = none
    ∧ iface_get_getway
        (example_env_dump [example_route_record [{ rta_type := RTA_OIF, rta_data := 3 },
          { rta_type := RTA_OIF, rta_data := 3 }]]) 3 AF_INET = some lisp_addr_local_init
    ∧ first_gateway_record 3 AF_INET
        [example_route_record [{ rta_type := RTA_OIF, rta_data := 3 },
          { rta_type := RTA_GATEWAY, rta_data := ipv4 10 0 0 1 },
          { rta_type := RTA_GATEWAY, rta_data := ipv4 10 0 0 1 }]]
        = some (ipv4_addr 10 0 0 1 0)
    ∧ iface_get_getway
        (example_env_dump [example_route_record [{ rta_type := RTA_OIF, rta_data := 3 },
          { rta_type := RTA_GATEWAY, rta_data := ipv4 10 0 0 1 },
          { rta_type := RTA_GATEWAY, rta_data := ipv4 10 0 0 1 }]]) 3 AF_INET = none
    ∧ ¬(iface_get_getway
        (example_env_dump [example_route_record [{ rta_type := RTA_OIF, rta_data := 3 },
          { rta_type := RTA_OIF, rta_data := 3 }]]) 3 AF_INET
        = first_gateway_record 3 AF_INET
            [example_route_record [{ rta_type := RTA_OIF, rta_data := 3 },
              { rta_type := RTA_OIF, rta_data := 3 }]]) := by
  decide

/-- Claim C12 as amended. When every route record of the dump carries at most
one output-interface attribute and at most one gateway attribute,
`iface_get_getway` returns the gateway attribute, as an address of the
requested family, of the first route record in dump order in which both
attributes are present and the output interface equals the index, and none
when no record is such. -/
theorem iface_get_getway_first_match (env : Env) (iface_index afi : Int)
    (msgs : List nl_route_msg)
    (hdump : env.route_dump afi = some msgs)
    (hu : ∀ msg ∈ msgs, msg.nlmsg_type = RTM_NEWROUTE →
      (msg.attrs.filter (fun a => decide (a.rta_type = RTA_OIF))).length ≤ 1
      ∧ (msg.attrs.filter (fun a => decide (a.rta_type = RTA_GATEWAY))).length ≤ 1) :
    iface_get_getway env iface_index afi = first_gateway_record iface_index afi msgs
    ∧ (iface_get_getway env iface_index afi = none
        ↔ ∀ msg ∈ msgs, gateway_record_matches iface_index msg = false) := by
  have h : iface_get_getway env iface_index afi = first_gateway_record iface_index afi msgs := by
    unfold iface_get_getway
    rw [hdump]
    exact gateway_msgs_spec iface_index afi msgs lisp_addr_local_init rfl hu
  refine ⟨h, ?_⟩
  rw [h]
  unfold first_gateway_record
  simp [List.find?_eq_none]

/-- A dump with the on-link route of `eth0`, the default route of another
interface and the default route of `eth0` (index 3) through 10.0.0.1. -/
theorem iface_get_getway_first_match_witness :
    (example_env_dump
        [example_route_record [{ rta_type := RTA_DST, rta_data := ipv4 10 0 0 0 },
           { rta_type := RTA_OIF, rta_data := 3 }],
         example_route_record [{ rta_type := RTA_GATEWAY, rta_data := ipv4 192 168 1 1 },
           { rta_type := RTA_OIF, rta_data := 4 }],
         example_route_record [{ rta_type := RTA_GATEWAY, rta_data := ipv4 10 0 0 1 },
           { rta_type := RTA_OIF, rta_data := 3 }]]).route_dump AF_INET
      = some
        [example_route_record [{ rta_type := RTA_DST, rta_data := ipv4 10 0 0 0 },
           { rta_type := RTA_OIF, rta_data := 3 }],
         example_route_record [{ rta_type := RTA_GATEWAY, rta_data := ipv4 192 168 1 1 },
           { rta_type := RTA_OIF, rta_data := 4 }],
         example_route_record [{ rta_type := RTA_GATEWAY, rta_data := ipv4 10 0 0 1 },
           { rta_type := RTA_OIF, rta_data := 3 }]]
    ∧ first_gateway_record 3 AF_INET
        [example_route_record [{ rta_type := RTA_DST, rta_data := ipv4 10 0 0 0 },
           { rta_type := RTA_OIF, rta_data := 3 }],
         example_route_record [{ rta_type := RTA_GATEWAY, rta_data := ipv4 192 168 1 1 },
           { rta_type := RTA_OIF, rta_data := 4 }],
         example_route_record [{ rta_type := RTA_GATEWAY, rta_data := ipv4 10 0 0 1 },
           { rta_type := RTA_OIF, rta_data := 3 }]] = some (ipv4_addr 10 0 0 1 0)
    ∧ (iface_get_getway
        (example_env_dump
          [example_route_record [{ rta_type := RTA_DST, rta_data := ipv4 10 0 0 0 },
             { rta_type := RTA_OIF, rta_data := 3 }],
           example_route_record [{ rta_type := RTA_GATEWAY, rta_data := ipv4 192 168 1 1 },
             { rta_type := RTA_OIF, rta_data := 4 }],
           example_route_record [{ rta_type := RTA_GATEWAY, rta_data := ipv4 10 0 0 1 },
             { rta_type := RTA_OIF, rta_data := 3 }]]) 3 AF_INET
        = first_gateway_record 3 AF_INET
          [example_route_record [{ rta_type := RTA_DST, rta_data := ipv4 10 0 0 0 },
             { rta_type := RTA_OIF, rta_data := 3 }],
           example_route_record [{ rta_type := RTA_GATEWAY, rta_data := ipv4 192 168 1 1 },
             { rta_type := RTA_OIF, rta_data := 4 }],
           example_route_record [{ rta_type := RTA_GATEWAY, rta_data := ipv4 10 0 0 1 },
             { rta_type := RTA_OIF, rta_data := 3 }]]) :=
  ⟨rfl, by decide,
    (iface_get_getway_first_match _ 3 AF_INET _ rfl (by decide)).1⟩

/-- Claim C13. For every host address and every dump, `get_network_pref_of_host`
returns the first destination prefix, in dump order and with its record's
prefix length, of a route record whose prefix length is not the host length of
the request family (32 for IPv4, 128 for IPv6) and whose prefix passes the
membership test for the host address, and none when there is no such record.
A returned prefix passes the membership test and is not a host route. -/
theorem get_network_pref_of_host_first_match (env : Env) (address : lisp_addr_t)
    (msgs : List nl_route_msg)
    (hdump : env.route_dump (net_pref_afi address) = some msgs) :
    get_network_pref_of_host env address
      = (net_candidates (net_pref_afi address) msgs).find?
          (fun p => Env.pref_is_addr_part_of_prefix env address (some p))
    ∧ ∀ p, get_network_pref_of_host env address = some p →
        Env.pref_is_addr_part_of_prefix env address (some p) = true
        ∧ p.afi = net_pref_afi address
        ∧ ¬(p.afi = AF_INET ∧ p.plen = 32) ∧ ¬(p.afi = AF_INET6 ∧ p.plen = 128) := by
  have h : get_network_pref_of_host env address
      = (net_candidates (net_pref_afi address) msgs).find?
          (fun p => Env.pref_is_addr_part_of_prefix env address (some p)) := by
    unfold get_network_pref_of_host
    simp only
    have : (if lisp_addr_ip_afi address = AF_INET then AF_INET else AF_INET6)
        = net_pref_afi address := rfl
    rw [this, hdump]
    exact net_pref_msgs_spec env address _ lisp_addr_local_init msgs
  refine ⟨h, ?_⟩
  intro p hp
  rw [h] at hp
  have hmem := List.mem_of_find?_eq_some hp
  have hsat := List.find?_some hp
  refine ⟨hsat, ?_⟩
  unfold net_candidates at hmem
  simp only [List.mem_flatMap] at hmem
  obtain ⟨msg, _, hm⟩ := hmem
  split_ifs at hm with hc
  · simp only [List.mem_map, List.mem_filter] at hm
    obtain ⟨a, _, rfl⟩ := hm
    have hh := hc.2
    simp only [is_host_route, decide_eq_false_iff_not, not_or, not_and] at hh
    refine ⟨rfl, ?_, ?_⟩
    · rintro ⟨h1, h2⟩; exact hh.1 h1 h2
    · rintro ⟨h1, h2⟩; exact hh.2 h1 h2
  · simp at hm

/-- The gateway 10.0.0.1 and a dump with the host route 10.0.0.1/32 before the
route 10.0.0.0/24: the host route is skipped. -/
theorem get_network_pref_of_host_first_match_witness :
    (example_env_dump
        [{ nlmsg_type := RTM_NEWROUTE,
           rtm := { rtm_family := AF_INET, rtm_dst_len := 32, rtm_src_len := 0,
                    rtm_table := RT_TABLE_MAIN, rtm_type := 1 },
           attrs := [{ rta_type := RTA_DST, rta_data := ipv4 10 0 0 1 }] },
         { nlmsg_type := RTM_NEWROUTE,
           rtm := { rtm_family := AF_INET, rtm_dst_len := 24, rtm_src_len := 0,
                    rtm_table := RT_TABLE_MAIN, rtm_type := 1 },
           attrs := [{ rta_type := RTA_DST, rta_data := ipv4 10 0 0 0 }] }]).route_dump
        (net_pref_afi (ipv4_addr 10 0 0 1 0))
      = some
        [{ nlmsg_type := RTM_NEWROUTE,
           rtm := { rtm_family := AF_INET, rtm_dst_len := 32, rtm_src_len := 0,
                    rtm_table := RT_TABLE_MAIN, rtm_type := 1 },
           attrs := [{ rta_type := RTA_DST, rta_data := ipv4 10 0 0 1 }] },
         { nlmsg_type := RTM_NEWROUTE,
           rtm := { rtm_family := AF_INET, rtm_dst_len := 24, rtm_src_len := 0,
                    rtm_table := RT_TABLE_MAIN, rtm_type := 1 },
           attrs := [{ rta_type := RTA_DST, rta_data := ipv4 10 0 0 0 }] }]
    ∧ get_network_pref_of_host
        (example_env_dump
          [{ nlmsg_type := RTM_NEWROUTE,
             rtm := { rtm_family := AF_INET, rtm_dst_len := 32, rtm_src_len := 0,
                      rtm_table := RT_TABLE_MAIN, rtm_type := 1 },
             attrs := [{ rta_type := RTA_DST, rta_data := ipv4 10 0 0 1 }] },
           { nlmsg_type := RTM_NEWROUTE,
             rtm := { rtm_family := AF_INET, rtm_dst_len := 24, rtm_src_len := 0,
                      rtm_table := RT_TABLE_MAIN, rtm_type := 1 },
             attrs := [{ rta_type := RTA_DST, rta_data := ipv4 10 0 0 0 }] }])
        (ipv4_addr 10 0 0 1 0) = some (ipv4_addr 10 0 0 0 24)
    ∧ Env.pref_is_addr_part_of_prefix
        (example_env_dump
          [{ nlmsg_type := RTM_NEWROUTE,
             rtm := { rtm_family := AF_INET, rtm_dst_len := 32, rtm_src_len := 0,
                      rtm_table := RT_TABLE_MAIN, rtm_type := 1 },
             attrs := [{ rta_type := RTA_DST, rta_data := ipv4 10 0 0 1 }] },
           { nlmsg_type := RTM_NEWROUTE,
             rtm := { rtm_family := AF_INET, rtm_dst_len := 24, rtm_src_len := 0,
                      rtm_table := RT_TABLE_MAIN, rtm_type := 1 },
             attrs := [{ rta_type := RTA_DST, rta_data := ipv4 10 0 0 0 }] }])
        (ipv4_addr 10 0 0 1 0) (some (ipv4_addr 10 0 0 0 24)) = true :=
  ⟨rfl, by decide,
    ((get_network_pref_of_host_first_match _ (ipv4_addr 10 0 0 1 0) _ rfl).2
      (ipv4_addr 10 0 0 0 24) (by decide)).1⟩

/-! ## Claims on the control dispatcher -/

/-- Claim C16. For a connection tuple whose remote address is not an IP
address, `ctrl_send_msg` returns `BAD`, calls `sock_send` not at all and leaves
the tuple, its local address included, as it was. -/
theorem ctrl_send_msg_remote_not_ip (env : SendEnv) (b : Nat) (uc : uconn_t)
    (hra : lisp_addr_afi uc.ra ≠ LM_AFI_IP) :
    (ctrl_send_msg env b uc).ret = BAD
    ∧ (ctrl_send_msg env b uc).sends = []
    ∧ (ctrl_send_msg env b uc).uc = uc
    ∧ (ctrl_send_msg env b uc).uc.la = uc.la := by
  unfold ctrl_send_msg
  simp only [hra, ne_eq, not_false_eq_true, if_true, and_self]

/-- A tuple whose remote address is "no address". -/
theorem ctrl_send_msg_remote_not_ip_witness :
    lisp_addr_afi ({ example_uconn with ra := example_uconn.la }).ra ≠ LM_AFI_IP
    ∧ (ctrl_send_msg example_send_env 0 { example_uconn with ra := example_uconn.la }).ret = BAD
    ∧ (ctrl_send_msg example_send_env 0 { example_uconn with ra := example_uconn.la }).sends = []
    ∧ (ctrl_send_msg example_send_env 0 { example_uconn with ra := example_uconn.la }).uc
        = { example_uconn with ra := example_uconn.la }
    ∧ (ctrl_send_msg example_send_env 0 { example_uconn with ra := example_uconn.la }).uc.la
        = ({ example_uconn with ra := example_uconn.la } : uconn_t).la :=
  ⟨by decide,
    ctrl_send_msg_remote_not_ip example_send_env 0 { example_uconn with ra := example_uconn.la }
      (by decide)⟩

/-- Claim C17. For a connection tuple with an IP remote address,
`ctrl_send_msg` calls `sock_send` exactly once, with the buffer and the tuple
as it then is, and returns `GOOD` exactly when that call returns `GOOD` (and
`BAD` otherwise). When the local address is unset, the local address becomes
the default control address of the destination family and the socket is the
default control socket of that family. When it is set, the tuple is unchanged
and the socket is that of the interface owning the local address, for the
destination family, or the default control socket of the destination family
when no interface owns it. -/
theorem ctrl_send_msg_one_send (env : SendEnv) (b : Nat) (uc : uconn_t)
    (hra : lisp_addr_afi uc.ra = LM_AFI_IP) :
    ∃ sk uc1,
      (ctrl_send_msg env b uc).sends = [{ sk := sk, b := b, uc := uc1 }]
      ∧ (ctrl_send_msg env b uc).uc = uc1
      ∧ ((ctrl_send_msg env b uc).ret = GOOD ↔ env.sock_send sk b uc1 = GOOD)
      ∧ ((ctrl_send_msg env b uc).ret = BAD ↔ env.sock_send sk b uc1 ≠ GOOD)
      ∧ (lisp_addr_afi uc.la = LM_AFI_NO_ADDR →
          uc1 = { uc with la := env.get_default_ctrl_address (lisp_addr_ip_afi uc.ra) }
          ∧ sk = env.get_default_ctrl_socket (lisp_addr_ip_afi uc.ra))
      ∧ (lisp_addr_afi uc.la ≠ LM_AFI_NO_ADDR →
          uc1 = uc
          ∧ (∀ iface, env.get_interface_with_address uc.la = some iface →
              sk = env.iface_socket iface (lisp_addr_ip_afi uc.ra))
          ∧ (env.get_interface_with_address uc.la = none →
              sk = env.get_default_ctrl_socket (lisp_addr_ip_afi uc.ra))) := by
  have hgb : GOOD ≠ BAD := by decide
  unfold ctrl_send_msg
  simp only [hra, ne_eq, not_true_eq_false, if_false]
  by_cases hla : lisp_addr_afi uc.la = LM_AFI_NO_ADDR
  · refine ⟨_, _, rfl, rfl, ?_, ?_, ?_, ?_⟩
    · simp only [hla, if_true, lisp_addr_copy]
      by_cases hs : env.sock_send (env.get_default_ctrl_socket (lisp_addr_ip_afi uc.ra)) b
          { uc with la := env.get_default_ctrl_address (lisp_addr_ip_afi uc.ra) } = GOOD
      · simp [hs]
      · simp [hs, hgb.symm]
    · simp only [hla, if_true, lisp_addr_copy]
      by_cases hs : env.sock_send (env.get_default_ctrl_socket (lisp_addr_ip_afi uc.ra)) b
          { uc with la := env.get_default_ctrl_address (lisp_addr_ip_afi uc.ra) } = GOOD
      · simp [hs, hgb]
      · simp [hs]
    · intro _
      simp [hla, lisp_addr_copy]
    · intro h; exact absurd hla h
  · cases hi : env.get_interface_with_address uc.la with
    | none =>
      refine ⟨_, _, rfl, rfl, ?_, ?_, ?_, ?_⟩
      · simp only [hla, if_false]
        by_cases hs : env.sock_send (env.get_default_ctrl_socket (lisp_addr_ip_afi uc.ra)) b uc
            = GOOD
        · simp [hs]
        · simp [hs, hgb.symm]
      · simp only [hla, if_false]
        by_cases hs : env.sock_send (env.get_default_ctrl_socket (lisp_addr_ip_afi uc.ra)) b uc
            = GOOD
        · simp [hs, hgb]
        · simp [hs]
      · intro h; exact absurd h hla
      · intro _
        simp [hla]
    | some iface =>
      refine ⟨_, _, rfl, rfl, ?_, ?_, ?_, ?_⟩
      · simp only [hla, if_false]
        by_cases hs : env.sock_send (env.iface_socket iface (lisp_addr_ip_afi uc.ra)) b uc = GOOD
        · simp [hs]
        · simp [hs, hgb.symm]
      · simp only [hla, if_false]
        by_cases hs : env.sock_send (env.iface_socket iface (lisp_addr_ip_afi uc.ra)) b uc = GOOD
        · simp [hs, hgb]
        · simp [hs]
      · intro h; exact absurd h hla
      · intro _
        simp [hla]

/-- A tuple towards 192.0.2.1 with no local address: one send on the default
socket 7 with the local address 10.0.0.5, which succeeds. -/
theorem ctrl_send_msg_one_send_witness :
    lisp_addr_afi example_uconn.ra = LM_AFI_IP
    ∧ ctrl_send_msg example_send_env 0 example_uconn
        = { ret := GOOD
            uc := { example_uconn with la := ipv4_addr 10 0 0 5 24 }
            sends := [{ sk := 7, b := 0,
                        uc := { example_uconn with la := ipv4_addr 10 0 0 5 24 } }] }
    ∧ ∃ sk uc1,
      (ctrl_send_msg example_send_env 0 example_uconn).sends = [{ sk := sk, b := 0, uc := uc1 }]
      ∧ (ctrl_send_msg example_send_env 0 example_uconn).uc = uc1
      ∧ ((ctrl_send_msg example_send_env 0 example_uconn).ret = GOOD
          ↔ example_send_env.sock_send sk 0 uc1 = GOOD)
      ∧ ((ctrl_send_msg example_send_env 0 example_uconn).ret = BAD
          ↔ example_send_env.sock_send sk 0 uc1 ≠ GOOD)
      ∧ (lisp_addr_afi example_uconn.la = LM_AFI_NO_ADDR →
          uc1 = { example_uconn with
                  la := example_send_env.get_default_ctrl_address
                    (lisp_addr_ip_afi example_uconn.ra) }
          ∧ sk = example_send_env.get_default_ctrl_socket (lisp_addr_ip_afi example_uconn.ra))
      ∧ (lisp_addr_afi example_uconn.la ≠ LM_AFI_NO_ADDR →
          uc1 = example_uconn
          ∧ (∀ iface, example_send_env.get_interface_with_address example_uconn.la = some iface →
              sk = example_send_env.iface_socket iface (lisp_addr_ip_afi example_uconn.ra))
          ∧ (example_send_env.get_interface_with_address example_uconn.la = none →
              sk = example_send_env.get_default_ctrl_socket
                (lisp_addr_ip_afi example_uconn.ra))) :=
  ⟨by decide, by decide,
    ctrl_send_msg_one_send example_send_env 0 example_uconn (by decide)⟩

/-- Claim C18, evaluated where the code departs from it.
`ctrl_if_status_update` recomputes the list of the global `lctrl`, not the
list of the context it is applied to. Applied to the second context while
`lctrl` is the first, it leaves the second context with its stale list, which
is not the address of the default IPv4 control interface, and
`ctrl_default_rloc` on that context returns the stale address. -/
theorem ctrl_if_status_update_other_context :
    ((ctrl_if_status_update example_ctrl_env example_ctrl_globals 1).ctrls[1]?).map
        (fun c => c.default_rlocs) = some [some (ipv4_addr 172 16 0 1 24)]
    ∧ default_rlocs_of (ctrl_if_status_update example_ctrl_env example_ctrl_globals 1)
        = [some (ipv4_addr 10 0 0 5 24)]
    ∧ ((ctrl_if_status_update example_ctrl_env example_ctrl_globals 1).ctrls[1]?).map
        (fun c => ctrl_default_rloc c AF_INET) = some (.ok (some (ipv4_addr 172 16 0 1 24)))
    ∧ default_rloc_of (ctrl_if_status_update example_ctrl_env example_ctrl_globals 1) AF_INET
        = some (ipv4_addr 10 0 0 5 24)
    ∧ ((ctrl_if_status_update example_ctrl_env example_ctrl_globals 1).ctrls[0]?).map
        (fun c => c.default_rlocs) = some [some (ipv4_addr 10 0 0 5 24)]
    ∧ ((ctrl_if_addr_update example_ctrl_env example_ctrl_globals 1).ctrls[1]?).map
        (fun c => c.default_rlocs) = some [some (ipv4_addr 10 0 0 5 24)] := by
  refine ⟨by decide, by decide, rfl, by decide, by decide, by decide⟩

/-! ## Claims on the netlink walk, the multicast handlers and the SMR array -/

/-- Claim C14. A received buffer that holds N address-added messages, each
passing `NLMSG_OK` at its offset, followed by a message of type `NLMSG_DONE`
and then anything: `process_netlink_msg` runs the address-added handler on the
N messages, once each and in order, runs nothing for the terminal message or
for what follows it, and returns `GOOD`. The notifiers are taken to keep the
number of registered interfaces. -/
theorem process_netlink_msg_address_batch (env : Env) (s : State) (msgs rest : List nlmsghdr)
    (done : nlmsghdr) (len : Int)
    (hwf : nlmsgs_ok msgs len = true)
    (htype : ∀ m ∈ msgs, m.nlmsg_type = RTM_NEWADDR)
    (hdone : done.nlmsg_type = NLMSG_DONE)
    (hcollab : ∀ e l, (env.collab e l).length = l.length) :
    ∃ t, add_address_seq env msgs s = .ok t
      ∧ process_netlink_msg env [(len, msgs ++ done :: rest)] s = .ok (GOOD, t) := by
  obtain ⟨t, ht⟩ := add_address_seq_ok env hcollab msgs s
  refine ⟨t, ht, ?_⟩
  unfold process_netlink_msg
  by_cases hlen : len > 0
  · simp only [hlen, if_true, netlink_for_loop_address_batch env msgs rest done len s hwf htype
      hdone, ht]
    rfl
  · simp only [hlen, if_false]
    cases msgs with
    | nil =>
      simp only [add_address_seq, Except.ok.injEq] at ht
      rw [ht]
    | cons m tail =>
      simp only [nlmsgs_ok, Bool.and_eq_true, NLMSG_OK, decide_eq_true_eq] at hwf
      omega

/-- Two address-added messages for `eth0` (10.0.0.9, then 10.0.0.77), the
terminal message and a third address-added message behind it, in a buffer of
164 bytes: the two messages are handled, each raising the two address
notifiers, and the message behind the terminal one raises nothing. -/
theorem process_netlink_msg_address_batch_witness :
    nlmsgs_ok [example_addr_msg 3 (ipv4 10 0 0 9) (ipv4 10 0 0 9),
        example_addr_msg 3 (ipv4 10 0 0 77) (ipv4 10 0 0 77)] 164 = true
    ∧ example_done_msg.nlmsg_type = NLMSG_DONE
    ∧ (∃ t, add_address_seq example_env
          [example_addr_msg 3 (ipv4 10 0 0 9) (ipv4 10 0 0 9),
            example_addr_msg 3 (ipv4 10 0 0 77) (ipv4 10 0 0 77)] example_state = .ok t
        ∧ process_netlink_msg example_env
            [(164, [example_addr_msg 3 (ipv4 10 0 0 9) (ipv4 10 0 0 9),
              example_addr_msg 3 (ipv4 10 0 0 77) (ipv4 10 0 0 77)]
                ++ example_done_msg :: [example_addr_msg 3 (ipv4 10 0 0 78) (ipv4 10 0 0 78)])]
            example_state = .ok (GOOD, t))
    ∧ emitted example_state
        (netlink_for_loop example_env
          [example_addr_msg 3 (ipv4 10 0 0 9) (ipv4 10 0 0 9),
            example_addr_msg 3 (ipv4 10 0 0 77) (ipv4 10 0 0 77), example_done_msg,
            example_addr_msg 3 (ipv4 10 0 0 78) (ipv4 10 0 0 78)] 164 example_state)
        = [.datap_updated_addr 0 (ipv4_addr 10 0 0 5 24) (ipv4_addr 10 0 0 9 0),
           .ctrl_if_addr_update 0 (ipv4_addr 10 0 0 5 24) (ipv4_addr 10 0 0 9 0),
           .datap_updated_addr 0 (ipv4_addr 10 0 0 5 24) (ipv4_addr 10 0 0 77 0),
           .ctrl_if_addr_update 0 (ipv4_addr 10 0 0 5 24) (ipv4_addr 10 0 0 77 0)] :=
  ⟨by decide, by decide,
    process_netlink_msg_address_batch example_env example_state
      [example_addr_msg 3 (ipv4 10 0 0 9) (ipv4 10 0 0 9),
        example_addr_msg 3 (ipv4 10 0 0 77) (ipv4 10 0 0 77)]
      [example_addr_msg 3 (ipv4 10 0 0 78) (ipv4 10 0 0 78)] example_done_msg 164
      (by decide) (by decide) (by decide) spec_collab_length,
    by decide⟩

/-- Claim C15 fails as stated. A route-added message whose gateway record
declares 12 bytes where 8 remain, and an address-added message whose second
record declares a length of 2: in both the walk ends at that record and the
handler goes on with the records before it, so the route message raises the
two route notifiers and the address message the two address notifiers. -/
theorem malformed_attribute_still_notifies :
    example_truncated_route_msg.rtm_attrs
        = [{ rta_len := 8, rta_type := RTA_OIF, rta_data := 3 }]
          ++ { rta_len := 12, rta_type := RTA_GATEWAY, rta_data := ipv4 10 0 0 1 } :: []
    ∧ RTA_OK { rta_len := 12, rta_type := RTA_GATEWAY, rta_data := ipv4 10 0 0 1 }
        (RTM_PAYLOAD example_truncated_route_msg
          - rta_space [{ rta_len := 8, rta_type := RTA_OIF, rta_data := 3 }]) = false
    ∧ emitted example_state
        (netlink_for_loop example_env [example_truncated_route_msg, example_done_msg] 64
          example_state)
        = [.datap_updated_route RTM_NEWROUTE 0 lisp_addr_local_init lisp_addr_local_init
            lisp_addr_local_init,
           .ctrl_route_update RTM_NEWROUTE 0 lisp_addr_local_init lisp_addr_local_init
            lisp_addr_local_init]
    ∧ example_short_addr_msg.ifa_attrs
        = [{ rta_len := 8, rta_type := IFA_LOCAL, rta_data := ipv4 10 0 0 9 }]
          ++ { rta_len := 2, rta_type := IFA_ADDRESS, rta_data := 0 } :: []
    ∧ RTA_OK { rta_len := 2, rta_type := IFA_ADDRESS, rta_data := 0 }
        (IFA_PAYLOAD example_short_addr_msg
          - rta_space [{ rta_len := 8, rta_type := IFA_LOCAL, rta_data := ipv4 10 0 0 9 }]) = false
    ∧ emitted example_state
        (netlink_for_loop example_env [example_short_addr_msg, example_done_msg] 60
          example_state)
        = [.datap_updated_addr 0 (ipv4_addr 10 0 0 5 24) (ipv4_addr 10 0 0 9 0),
           .ctrl_if_addr_update 0 (ipv4_addr 10 0 0 5 24) (ipv4_addr 10 0 0 9 0)] := by
  decide

/-- Claim C15 as amended. An attribute record that fails `RTA_OK` at its
offset (a declared length below 4 or beyond the bytes that remain) ends the
attribute walk of its message: an address-added message and a route-added or
route-deleted message are handled as the same message holding only the records
before that one, and the `for` loop then goes on with the messages that follow
in the buffer. -/
theorem malformed_attribute_ends_walk (env : Env) (s : State) (rest : List nlmsghdr)
    (len : Int) :
    (∀ (nlh : nlmsghdr) (pre post : List raw_rtattr) (bad : raw_rtattr),
      NLMSG_OK nlh len = true → nlh.nlmsg_type = RTM_NEWADDR →
      nlh.ifa_attrs = pre ++ bad :: post →
      RTA_OK bad (IFA_PAYLOAD nlh - rta_space pre) = false →
      netlink_for_loop env (nlh :: rest) len s
        = match netlink_dispatch env s { nlh with ifa_attrs := pre } with
          | .error f => .error f
          | .ok s1 => netlink_for_loop env rest (len - (RTA_ALIGN nlh.nlmsg_len : Int)) s1)
    ∧ (∀ (nlh : nlmsghdr) (pre post : List raw_rtattr) (bad : raw_rtattr),
      NLMSG_OK nlh len = true →
      nlh.nlmsg_type = RTM_NEWROUTE ∨ nlh.nlmsg_type = RTM_DELROUTE →
      nlh.rtm_attrs = pre ++ bad :: post →
      RTA_OK bad (RTM_PAYLOAD nlh - rta_space pre) = false →
      netlink_for_loop env (nlh :: rest) len s
        = match netlink_dispatch env s { nlh with rtm_attrs := pre } with
          | .error f => .error f
          | .ok s1 => netlink_for_loop env rest (len - (RTA_ALIGN nlh.nlmsg_len : Int)) s1) := by
  constructor
  · intro nlh pre post bad hok htype hattrs hbad
    have hnd : nlh.nlmsg_type ≠ NLMSG_DONE := by rw [htype]; decide
    have hd : netlink_dispatch env s nlh = netlink_dispatch env s { nlh with ifa_attrs := pre } := by
      simp only [netlink_dispatch, htype, if_true, process_nl_add_address, hattrs]
      rw [rta_walk_malformed pre post bad _ hbad]
      rfl
    rw [netlink_for_loop_cons env nlh rest len s hok hnd, hd]
  · intro nlh pre post bad hok htype hattrs hbad
    have hnd : nlh.nlmsg_type ≠ NLMSG_DONE := by
      rcases htype with h | h <;> rw [h] <;> decide
    have hd : netlink_dispatch env s nlh = netlink_dispatch env s { nlh with rtm_attrs := pre } := by
      rcases htype with h | h
      · have c1 : ¬(RTM_NEWROUTE = RTM_NEWADDR) := by decide
        have c2 : ¬(RTM_NEWROUTE = RTM_DELADDR) := by decide
        have c3 : ¬(RTM_NEWROUTE = RTM_NEWLINK) := by decide
        simp only [netlink_dispatch, h, c1, c2, c3, if_true, if_false, process_nl_new_route,
          process_nl_new_multicast_route, hattrs]
        rw [rta_walk_malformed pre post bad _ hbad]
        rfl
      · have c1 : ¬(RTM_DELROUTE = RTM_NEWADDR) := by decide
        have c2 : ¬(RTM_DELROUTE = RTM_DELADDR) := by decide
        have c3 : ¬(RTM_DELROUTE = RTM_NEWLINK) := by decide
        have c4 : ¬(RTM_DELROUTE = RTM_NEWROUTE) := by decide
        simp only [netlink_dispatch, h, c1, c2, c3, c4, if_true, if_false, process_nl_del_route,
          process_nl_del_multicast_route, process_nl_mcast_route_attributes, hattrs]
        rw [rta_walk_malformed pre post bad _ hbad, rta_walk_raw_malformed pre post bad _ hbad]
        rfl
    rw [netlink_for_loop_cons env nlh rest len s hok hnd, hd]

/-- The address-added message with the short second record and the
route-added message with the truncated gateway record, each followed in its
buffer by an address-added message for 10.0.0.77 and the terminal message:
the message that follows is handled and raises its two address notifiers. -/
theorem malformed_attribute_ends_walk_witness :
    NLMSG_OK example_short_addr_msg 108 = true
    ∧ RTA_OK { rta_len := 2, rta_type := IFA_ADDRESS, rta_data := 0 }
        (IFA_PAYLOAD example_short_addr_msg
          - rta_space [{ rta_len := 8, rta_type := IFA_LOCAL, rta_data := ipv4 10 0 0 9 }]) = false
    ∧ netlink_for_loop example_env
        (example_short_addr_msg
          :: [example_addr_msg 3 (ipv4 10 0 0 77) (ipv4 10 0 0 77), example_done_msg])
        108 example_state
        = (match netlink_dispatch example_env example_state
            { example_short_addr_msg with
              ifa_attrs := [{ rta_len := 8, rta_type := IFA_LOCAL, rta_data := ipv4 10 0 0 9 }] } with
          | .error f => .error f
          | .ok s1 =>
            netlink_for_loop example_env
              [example_addr_msg 3 (ipv4 10 0 0 77) (ipv4 10 0 0 77), example_done_msg]
              (108 - (RTA_ALIGN example_short_addr_msg.nlmsg_len : Int)) s1)
    ∧ emitted example_state
        (netlink_for_loop example_env
          [example_short_addr_msg, example_addr_msg 3 (ipv4 10 0 0 77) (ipv4 10 0 0 77),
            example_done_msg] 108 example_state)
        = [.datap_updated_addr 0 (ipv4_addr 10 0 0 5 24) (ipv4_addr 10 0 0 9 0),
           .ctrl_if_addr_update 0 (ipv4_addr 10 0 0 5 24) (ipv4_addr 10 0 0 9 0),
           .datap_updated_addr 0 (ipv4_addr 10 0 0 5 24) (ipv4_addr 10 0 0 77 0),
           .ctrl_if_addr_update 0 (ipv4_addr 10 0 0 5 24) (ipv4_addr 10 0 0 77 0)]
    ∧ NLMSG_OK example_truncated_route_msg 112 = true
    ∧ RTA_OK { rta_len := 12, rta_type := RTA_GATEWAY, rta_data := ipv4 10 0 0 1 }
        (RTM_PAYLOAD example_truncated_route_msg
          - rta_space [{ rta_len := 8, rta_type := RTA_OIF, rta_data := 3 }]) = false
    ∧ netlink_for_loop example_env
        (example_truncated_route_msg
          :: [example_addr_msg 3 (ipv4 10 0 0 77) (ipv4 10 0 0 77), example_done_msg])
        112 example_state
        = (match netlink_dispatch example_env example_state
            { example_truncated_route_msg with
              rtm_attrs := [{ rta_len := 8, rta_type := RTA_OIF, rta_data := 3 }] } with
          | .error f => .error f
          | .ok s1 =>
            netlink_for_loop example_env
              [example_addr_msg 3 (ipv4 10 0 0 77) (ipv4 10 0 0 77), example_done_msg]
              (112 - (RTA_ALIGN example_truncated_route_msg.nlmsg_len : Int)) s1)
    ∧ emitted example_state
        (netlink_for_loop example_env
          [example_truncated_route_msg, example_addr_msg 3 (ipv4 10 0 0 77) (ipv4 10 0 0 77),
            example_done_msg] 112 example_state)
        = [.datap_updated_route RTM_NEWROUTE 0 lisp_addr_local_init lisp_addr_local_init
            lisp_addr_local_init,
           .ctrl_route_update RTM_NEWROUTE 0 lisp_addr_local_init lisp_addr_local_init
            lisp_addr_local_init,
           .datap_updated_addr 0 (ipv4_addr 10 0 0 5 24) (ipv4_addr 10 0 0 77 0),
           .ctrl_if_addr_update 0 (ipv4_addr 10 0 0 5 24) (ipv4_addr 10 0 0 77 0)] :=
  ⟨by decide, by decide,
    (malformed_attribute_ends_walk example_env example_state
      [example_addr_msg 3 (ipv4 10 0 0 77) (ipv4 10 0 0 77), example_done_msg] 108).1
      example_short_addr_msg [{ rta_len := 8, rta_type := IFA_LOCAL, rta_data := ipv4 10 0 0 9 }]
      [] { rta_len := 2, rta_type := IFA_ADDRESS, rta_data := 0 }
      (by decide) (by decide) (by decide) (by decide),
    by decide, by decide, by decide,
    (malformed_attribute_ends_walk example_env example_state
      [example_addr_msg 3 (ipv4 10 0 0 77) (ipv4 10 0 0 77), example_done_msg] 112).2
      example_truncated_route_msg [{ rta_len := 8, rta_type := RTA_OIF, rta_data := 3 }]
      [] { rta_len := 12, rta_type := RTA_GATEWAY, rta_data := ipv4 10 0 0 1 }
      (by decide) (by decide) (by decide) (by decide),
    by decide⟩

/-- Claim C19 fails as stated for an add. A multicast route-added message of
the IPv4 multicast table with source 10.0.0.9, group 239.1.1.1 and one next
hop on the unregistered index 5, for which `process_nl_mcast_route_attributes`
returns `GOOD`: `process_nl_new_multicast_route` makes no call, so the join
hook is not invoked. -/
theorem process_nl_new_multicast_route_no_join :
    (example_mcast_rtm.rtm_table = RT_TABLE_DEFAULT ∧ example_mcast_rtm.rtm_family = 128)
    ∧ (process_nl_mcast_route_attributes example_state.ifaces example_mcast_rtm
        (example_mcast_attrs 5) 28 lisp_addr_local_init lisp_addr_local_init).1 = GOOD
    ∧ emitted example_state
        (netlink_dispatch example_env example_state (example_mcast_msg RTM_NEWROUTE 5)) = [] := by
  decide

/-- Claim C19 as amended. A multicast route add makes no hook call. A
multicast route removal of the IPv4 multicast table (family 128 in the default
table) or of the IPv6 one (family 129 in the main table) for which
`process_nl_mcast_route_attributes` returns `GOOD` calls the leave hook once,
with the source built from the last `RTA_SRC` attribute and the group built
from the last `RTA_DST` attribute of the message, and makes no other call. -/
theorem multicast_route_hooks (env : Env) (s : State) (rtm : rtmsg) (attrs : List raw_rtattr)
    (rt_length : Int) :
    emitted s (process_nl_new_multicast_route env s rtm attrs rt_length) = []
    ∧ (((rtm.rtm_table = RT_TABLE_DEFAULT ∧ rtm.rtm_family = 128)
          ∨ (rtm.rtm_table = RT_TABLE_MAIN ∧ rtm.rtm_family = 129)) →
        (process_nl_mcast_route_attributes s.ifaces rtm attrs rt_length lisp_addr_local_init
          lisp_addr_local_init).1 = GOOD →
        emitted s (process_nl_del_multicast_route env s rtm attrs rt_length)
          = [.multicast_leave_channel
              (route_addr (mcast_afi rtm.rtm_family) 0
                (last_attr RTA_SRC (rta_walk attrs rt_length)))
              (route_addr (mcast_afi rtm.rtm_family) 0
                (last_attr RTA_DST (rta_walk attrs rt_length)))]) := by
  refine ⟨emitted_self s, ?_⟩
  intro hvalid hgood
  have hf : rtm.rtm_family = 128 ∨ rtm.rtm_family = 129 := by
    rcases hvalid with h | h
    · exact Or.inl h.2
    · exact Or.inr h.2
  unfold process_nl_del_multicast_route
  rw [mcast_route_attributes_good s.ifaces rtm hf attrs rt_length hgood]
  have hne : ¬(GOOD = BAD) := by decide
  simp only [hvalid, not_true_eq_false, if_false, hne]
  simp [emitted, notify]

/-- The removal of the multicast route from 10.0.0.9 to 239.1.1.1 with one
next hop on the unregistered index 5: the leave hook is called once with
(10.0.0.9, 239.1.1.1). -/
theorem multicast_route_hooks_witness :
    ((example_mcast_rtm.rtm_table = RT_TABLE_DEFAULT ∧ example_mcast_rtm.rtm_family = 128)
      ∨ (example_mcast_rtm.rtm_table = RT_TABLE_MAIN ∧ example_mcast_rtm.rtm_family = 129))
    ∧ (process_nl_mcast_route_attributes example_state.ifaces example_mcast_rtm
        (example_mcast_attrs 5) 28 lisp_addr_local_init lisp_addr_local_init).1 = GOOD
    ∧ emitted example_state
        (process_nl_del_multicast_route example_env example_state example_mcast_rtm
          (example_mcast_attrs 5) 28)
        = [.multicast_leave_channel
            (route_addr (mcast_afi example_mcast_rtm.rtm_family) 0
              (last_attr RTA_SRC (rta_walk (example_mcast_attrs 5) 28)))
            (route_addr (mcast_afi example_mcast_rtm.rtm_family) 0
              (last_attr RTA_DST (rta_walk (example_mcast_attrs 5) 28)))]
    ∧ route_addr (mcast_afi example_mcast_rtm.rtm_family) 0
        (last_attr RTA_SRC (rta_walk (example_mcast_attrs 5) 28)) = ipv4_addr 10 0 0 9 0
    ∧ route_addr (mcast_afi example_mcast_rtm.rtm_family) 0
        (last_attr RTA_DST (rta_walk (example_mcast_attrs 5) 28)) = ipv4_addr 239 1 1 1 0 :=
  ⟨by decide, by decide,
    (multicast_route_hooks example_env example_state example_mcast_rtm (example_mcast_attrs 5)
      28).2 (by decide) (by decide),
    by decide, by decide⟩

/-- Claim C20, evaluated where the code departs from it. The interface found
for `rtnh_ifindex` (line 564) is replaced by the interface found for the first
four bytes of the attribute payload (lines 565-566), which hold the length,
flags and hops of the first next hop: 8 here. With `eth0` (index 3)
registered, a route whose only next hop is on index 3 is answered `GOOD` and
its removal calls the leave hook. With an interface of index 8 registered, a
route whose only next hop is on the unregistered index 5 is answered `BAD`. -/
theorem process_nl_mcast_route_attributes_wrong_index :
    (rtnh_at (example_multipath 3).rta_data).rtnh_ifindex = 3
    ∧ get_interface_from_index [example_eth0] 3 = some 0
    ∧ (process_nl_mcast_route_attributes [example_eth0] example_mcast_rtm
        (example_mcast_attrs 3) 28 lisp_addr_local_init lisp_addr_local_init).1 = GOOD
    ∧ emitted example_state
        (process_nl_del_multicast_route example_env example_state example_mcast_rtm
          (example_mcast_attrs 3) 28)
        = [.multicast_leave_channel (ipv4_addr 10 0 0 9 0) (ipv4_addr 239 1 1 1 0)]
    ∧ (rtnh_at (example_multipath 5).rta_data).rtnh_ifindex = 5
    ∧ get_interface_from_index [example_eth8] 5 = none
    ∧ (process_nl_mcast_route_attributes [example_eth8] example_mcast_rtm
        (example_mcast_attrs 5) 28 lisp_addr_local_init lisp_addr_local_init).1 = BAD := by
  decide

/-- Claim C21. An address-added message whose kernel index matches no
registered interface leaves the state as it was: `process_address_change` is
not called. A message whose index matches the interface `iface` is handled as
the sequence of calls of `process_address_change` on `iface`, one for each
`IFA_LOCAL` attribute of the walk when the family is `AF_INET` and one for each
`IFA_ADDRESS` attribute when it is `AF_INET6`, in the order of the attributes,
each with the IP address of the message family built from the attribute
payload; no other attribute gives a call. -/
theorem process_nl_add_address_validates (env : Env) (s : State) :
    (∀ nlh : nlmsghdr, get_interface_from_index s.ifaces nlh.ifa.ifa_index = none →
      process_nl_add_address env s nlh = .ok s)
    ∧ (∀ (nlh : nlmsghdr) (iface : Nat),
      get_interface_from_index s.ifaces nlh.ifa.ifa_index = some iface →
      process_nl_add_address env s nlh
        = validation_calls env iface nlh.ifa.ifa_family
            (validated_payloads nlh.ifa.ifa_family
              (rta_walk nlh.ifa_attrs (IFA_PAYLOAD nlh))) s) := by
  constructor
  · intro nlh h
    simp [process_nl_add_address, h]
  · intro nlh iface h
    simp only [process_nl_add_address, h]
    exact add_address_loop_spec env iface _ _ s _ rfl

/-- An IPv4 message for the unregistered index 9 gives no call; an IPv4 message
for `eth0` with the `IFA_ADDRESS` payload 10.0.0.255 and the `IFA_LOCAL`
payload 10.0.0.9 gives the one call for 10.0.0.9. -/
theorem process_nl_add_address_validates_witness :
    get_interface_from_index example_state.ifaces
        (example_addr_msg 9 (ipv4 10 0 0 255) (ipv4 10 0 0 9)).ifa.ifa_index = none
    ∧ process_nl_add_address example_env example_state
        (example_addr_msg 9 (ipv4 10 0 0 255) (ipv4 10 0 0 9)) = .ok example_state
    ∧ get_interface_from_index example_state.ifaces
        (example_addr_msg 3 (ipv4 10 0 0 255) (ipv4 10 0 0 9)).ifa.ifa_index = some 0
    ∧ validated_payloads AF_INET
        (rta_walk (example_addr_msg 3 (ipv4 10 0 0 255) (ipv4 10 0 0 9)).ifa_attrs
          (IFA_PAYLOAD (example_addr_msg 3 (ipv4 10 0 0 255) (ipv4 10 0 0 9))))
        = [ipv4 10 0 0 9]
    ∧ process_nl_add_address example_env example_state
        (example_addr_msg 3 (ipv4 10 0 0 255) (ipv4 10 0 0 9))
        = validation_calls example_env 0 AF_INET
            (validated_payloads AF_INET
              (rta_walk (example_addr_msg 3 (ipv4 10 0 0 255) (ipv4 10 0 0 9)).ifa_attrs
                (IFA_PAYLOAD (example_addr_msg 3 (ipv4 10 0 0 255) (ipv4 10 0 0 9)))))
            example_state
    ∧ emitted example_state
        (process_nl_add_address example_env example_state
          (example_addr_msg 3 (ipv4 10 0 0 255) (ipv4 10 0 0 9)))
        = [.datap_updated_addr 0 (ipv4_addr 10 0 0 5 24) (ipv4_addr 10 0 0 9 0),
           .ctrl_if_addr_update 0 (ipv4_addr 10 0 0 5 24) (ipv4_addr 10 0 0 9 0)] :=
  ⟨by decide,
    (process_nl_add_address_validates example_env example_state).1
      (example_addr_msg 9 (ipv4 10 0 0 255) (ipv4 10 0 0 9)) (by decide),
    by decide, by decide,
    (process_nl_add_address_validates example_env example_state).2
      (example_addr_msg 3 (ipv4 10 0 0 255) (ipv4 10 0 0 9)) 0 (by decide),
    by decide⟩

/-- Claim C22, where the code departs from it. A unicast route add or delete
message of the main table and of family IPv4 or IPv6 that has no
output-interface attribute leaves the local `iface` NULL, and both handlers go
on: when the level `LDBG_1` is logged, each path reads `iface->iface_name` or
calls `iface_address(iface, afi)` with that NULL pointer, so the handler stops
on a read through the NULL interface. No notifier is called. -/
theorem unicast_route_without_oif_reads_null (env : Env) (s : State) (rtm : rtmsg)
    (attrs : List rtattr)
    (htable : rtm.rtm_table = RT_TABLE_MAIN)
    (hfamily : rtm.rtm_family = AF_INET ∨ rtm.rtm_family = AF_INET6)
    (hno : ∀ a ∈ attrs, a.rta_type ≠ RTA_OIF)
    (hlog : env.is_loggable .LDBG_1 = true) :
    process_nl_new_unicast_route env s rtm attrs = .error .null_iface_read
    ∧ process_nl_del_unicast_route env s rtm attrs = .error .null_iface_read := by
  obtain ⟨w, hw, hi⟩ := route_attrs_loop_no_oif s.ifaces rtm attrs route_vars_init hno
  have hwi : w.iface = none := hi
  have hfam : ¬(rtm.rtm_family ≠ AF_INET ∧ rtm.rtm_family ≠ AF_INET6) := by
    rintro ⟨h1, h2⟩
    rcases hfamily with h | h
    · exact h1 h
    · exact h2 h
  have hlogret : log_iface_name_return env s .LDBG_1 w.iface = .error .null_iface_read := by
    simp [log_iface_name_return, hlog, hwi]
  constructor
  · unfold process_nl_new_unicast_route
    simp only [htable, ne_eq, not_true_eq_false, if_false, hfam, hw, hlogret]
    split_ifs <;> simp [hwi]
  · unfold process_nl_del_unicast_route
    simp only [htable, ne_eq, not_true_eq_false, if_false, hfam, hw, hlogret]
    split_ifs <;> simp [hwi]

/-- With the family restriction set to IPv6, an IPv4 route of the main table
that carries a source attribute and no output-interface attribute: the first
"Check default afi" test holds and its log statement reads `iface->iface_name`
(lines 423-426 and 684-687) through the NULL `iface`. -/
theorem unicast_route_without_oif_reads_null_witness :
    example_rtm.rtm_table = RT_TABLE_MAIN
    ∧ (example_rtm.rtm_family = AF_INET ∨ example_rtm.rtm_family = AF_INET6)
    ∧ (∀ a ∈ example_src_only_attrs, a.rta_type ≠ RTA_OIF)
    ∧ example_env_v6.is_loggable .LDBG_1 = true
    ∧ default_afi_mismatch example_env_v6
        (route_addr example_rtm.rtm_family example_rtm.rtm_src_len
          (last_attr RTA_SRC example_src_only_attrs)) = true
    ∧ process_nl_new_unicast_route example_env_v6 example_state example_rtm
        example_src_only_attrs = .error .null_iface_read
    ∧ process_nl_del_unicast_route example_env_v6 example_state example_rtm
        example_src_only_attrs = .error .null_iface_read :=
  ⟨by decide, by decide, by decide, by decide, by decide,
    unicast_route_without_oif_reads_null example_env_v6 example_state example_rtm
      example_src_only_attrs (by decide) (by decide) (by decide) (by decide)⟩

/-- Claim C23, evaluated where the code departs from it. When the search loop
finds no stored slot equal to the mapping, `ctr` equals `mappings_ctr` and the
test `mappings_to_smr[ctr] != m` (line 210) reads the slot that has not been
written yet. Two runs on the same interface list, both with the counter at 0:
with an array of NULL slots mapping 7 is collected and the count is 1; with an
array whose slot 0 already holds 7 nothing is collected and the count is 0. -/
theorem ctrl_get_mappings_to_smr_reads_stale_slot :
    smr_result (ctrl_get_mappings_to_smr [smr_iface_status] smr_empty_array 0).2 = [7]
    ∧ (ctrl_get_mappings_to_smr [smr_iface_status] smr_empty_array 0).2.mappings_ctr = 1
    ∧ smr_result (ctrl_get_mappings_to_smr [smr_iface_status]
        (Function.update smr_empty_array 0 7) 0).2 = []
    ∧ (ctrl_get_mappings_to_smr [smr_iface_status]
        (Function.update smr_empty_array 0 7) 0).2.mappings_ctr = 0
    ∧ (ctrl_get_mappings_to_smr [smr_iface_status] smr_empty_array 0).1
        = (ctrl_get_mappings_to_smr [smr_iface_status]
            (Function.update smr_empty_array 0 7) 0).1 := by
  decide

end OOR
